import Mathlib

/-!
# DiveChecker firmware: a shallow embedding

The command parser, the settings store, the authentication entry point, the
sampling pipeline, the main loops and the BMP280 driver of the two firmware
builds (`0_Pico2-Firmware/Divechecker/Divechecker.c` and
`0_MCU_Firmware/src/main.cpp`) and the SysEx transport
(`0_Pico2-Firmware/Divechecker/midi_sysex.c`) as Lean functions over explicit
state, followed by theorems about them.

Conventions.
* A `char` is a `Nat` (its byte value); a `char` array is a `List Nat`; a pointer
  into an array is the list of bytes from that position on (`List.drop`).
  Reading past the modelled bytes yields NUL.
* A `float` is an exact rational (`ℚ`).
* `printf` / `Serial.println` append one line (without its newline) to `out`.
* Calls into mbedtls, the sensor bus and the clock are inputs (`CryptoEnv`,
  the `now_us` / `now_ms` arguments, the readings stored in the sample buffer).
* Fixed-width integer arithmetic is arithmetic on `Int` / `Nat` followed by an
  explicit reduction to the width (`wrap32`, `wrap64`, `usub32`, `usub64`).
-/

set_option autoImplicit false

/-! ## The C library functions the firmware calls -/

namespace CLib

/-- C `strlen`: number of bytes before the first NUL. -/
def strlen : List Nat → Nat
  | [] => 0
  | c :: cs => if c = 0 then 0 else strlen cs + 1

/-- The `n` bytes that `strncpy(dst, src, n)` stores: the bytes of `src` up to
its first NUL, then NUL padding up to `n` bytes in all. -/
def strncpy_bytes : List Nat → Nat → List Nat
  | _, 0 => []
  | [], n + 1 => List.replicate (n + 1) 0
  | c :: cs, n + 1 => if c = 0 then List.replicate (n + 1) 0 else c :: strncpy_bytes cs n

/-- C `strncpy(dst, src, n)`: the array `dst` afterwards. -/
def strncpy (dst src : List Nat) (n : Nat) : List Nat :=
  strncpy_bytes src n ++ dst.drop n

/-- C `strncmp(a, b, n)`: compares at most `n` bytes, stopping after a NUL. -/
def strncmp : List Nat → List Nat → Nat → Int
  | _, _, 0 => 0
  | a, b, n + 1 =>
    if a.headD 0 ≠ b.headD 0 then (a.headD 0 : Int) - (b.headD 0 : Int)
    else if a.headD 0 = 0 then 0
    else strncmp a.tail b.tail n

/-- C `isspace` in the "C" locale. -/
def isspace (c : Nat) : Bool := c == 32 || (9 ≤ c && c ≤ 13)

/-- C `isdigit`. -/
def isdigit (c : Nat) : Bool := 48 ≤ c && c ≤ 57

/-- Leading white space skipped by `atoi` / `strtol`. -/
def skipSpace : List Nat → List Nat
  | [] => []
  | c :: cs => if isspace c then skipSpace cs else c :: cs

/-- Value of the longest prefix of decimal digits, accumulated onto `acc`. -/
def digitsVal : List Nat → Nat → Nat
  | [], acc => acc
  | c :: cs, acc => if isdigit c then digitsVal cs (acc * 10 + (c - 48)) else acc

/-- Saturation of `strtol` to the range of a 32-bit `long`. -/
def clampLong (v : Int) : Int :=
  if v < -2147483648 then -2147483648 else if v > 2147483647 then 2147483647 else v

/-- C `atoi(s)`, that is `(int)strtol(s, NULL, 10)`: white space, an optional
sign, then decimal digits; parsing stops at the first other byte (NUL included). -/
def atoi (s : List Nat) : Int :=
  match skipSpace s with
  | 45 :: cs => clampLong (-(digitsVal cs 0 : Int))
  | 43 :: cs => clampLong (digitsVal cs 0 : Int)
  | cs => clampLong (digitsVal cs 0 : Int)

/-- Value of a hexadecimal digit, if the byte is one. -/
def hexDigit (c : Nat) : Option Nat :=
  if 48 ≤ c ∧ c ≤ 57 then some (c - 48)
  else if 97 ≤ c ∧ c ≤ 102 then some (c - 87)
  else if 65 ≤ c ∧ c ≤ 70 then some (c - 55)
  else none

/-- Value of the longest prefix of hexadecimal digits, accumulated onto `acc`. -/
def hexVal : List Nat → Nat → Nat
  | [], acc => acc
  | c :: cs, acc =>
    match hexDigit c with
    | some d => hexVal cs (acc * 16 + d)
    | none => acc

/-- The optional `0x` / `0X` prefix that `strtol` accepts in base 16. -/
def skip0x : List Nat → List Nat
  | 48 :: 120 :: cs => cs
  | 48 :: 88 :: cs => cs
  | cs => cs

/-- C `strtol(s, NULL, 16)`. -/
def strtol16 (s : List Nat) : Int :=
  match skipSpace s with
  | 45 :: cs => clampLong (-(hexVal (skip0x cs) 0 : Int))
  | 43 :: cs => clampLong (hexVal (skip0x cs) 0 : Int)
  | cs => clampLong (hexVal (skip0x cs) 0 : Int)

/-- Conversion `(uint8_t)v`. -/
def toUint8 (v : Int) : Nat := (v % 256).toNat

/-- Truncation of a rational toward zero, as the C conversion of a floating
value to an integer type does. -/
def truncToInt (x : ℚ) : Int := Int.tdiv x.num (x.den : Int)

/-- Conversion `(int32_t)x` of a floating value. C defines it (truncation toward
zero) only when the truncated value is representable; outside that range the
conversion instructions of both targets saturate, which is what is modelled. -/
def floatToInt32 (x : ℚ) : Int :=
  if truncToInt x < -2147483648 then -2147483648
  else if truncToInt x > 2147483647 then 2147483647
  else truncToInt x

/-- The bytes of the C string stored in `a`: those before the first NUL. -/
def cstr_bytes (a : List Nat) : List Nat := a.takeWhile (fun c => c != 0)

/-- The characters of the C string stored in `a`, as `printf("%s", a)` prints
them. -/
def cstring (a : List Nat) : String :=
  String.mk ((cstr_bytes a).map Char.ofNat)

/-- Two lower-case hexadecimal digits, as `printf("%02x", b)` prints a byte. -/
def hex2 (b : Nat) : String :=
  String.mk [Nat.digitChar (b / 16 % 16), Nat.digitChar (b % 16)]

/-- Two upper-case hexadecimal digits, as `printf("%02X", b)` prints a byte. -/
def hex2U (b : Nat) : String :=
  String.mk [(Nat.digitChar (b / 16 % 16)).toUpper, (Nat.digitChar (b % 16)).toUpper]

/-- Rounding of a non-negative rational to the nearest integer, ties to even. -/
def roundHalfEven (q : ℚ) : Int :=
  if q - ⌊q⌋ < 1 / 2 then ⌊q⌋
  else if q - ⌊q⌋ > 1 / 2 then ⌊q⌋ + 1
  else if ⌊q⌋ % 2 = 0 then ⌊q⌋ else ⌊q⌋ + 1

/-- Three decimals, as `printf("%.3f", x)` prints a value. -/
def fmt3 (x : ℚ) : String :=
  let n := (roundHalfEven (|x| * 1000)).toNat
  let frac := toString (n % 1000)
  (if x < 0 then "-" else "") ++ toString (n / 1000) ++ "." ++
    String.mk (List.replicate (3 - frac.length) (Char.ofNat 48)) ++ frac

end CLib

/-! ## Pico 2 firmware (`Divechecker.c`) -/

namespace Pico

open CLib

def INTERNAL_SAMPLE_RATE_HZ : Int := 100
def DEFAULT_OUTPUT_RATE_HZ : Int := 8
def MIN_OUTPUT_RATE_HZ : Int := 4
def MAX_OUTPUT_RATE_HZ : Int := 50
def MAX_SAMPLES_PER_OUTPUT : Nat := 25
def CONNECTION_TIMEOUT_MS : Nat := 3000
def FLASH_SECTOR_SIZE : Nat := 4096
def FLASH_PAGE_SIZE : Nat := 256
def SETTINGS_MAGIC : Nat := 0x44495646
def DEVICE_NAME_MAX_LEN : Nat := 24
def DEVICE_PIN_LEN : Nat := 4
def PRESSURE_QUEUE_SIZE : Nat := 32
def CMD_BUFFER_SIZE : Nat := 72

/-- The LED status enum. -/
inductive led_state_t where
  | LED_STATE_OFF
  | LED_STATE_BOOT
  | LED_STATE_USB_WAIT
  | LED_STATE_USB_READY
  | LED_STATE_APP_CONNECTED
  deriving DecidableEq, Repr

/-- The flash-stored settings record `device_settings_t` (packed, one flash page). -/
structure device_settings_t where
  magic : Nat
  pin : List Nat
  name : List Nat
  _reserved : List Nat
  deriving DecidableEq, Repr

/-- The bytes of a 32-bit word in memory order (little endian). -/
def word_bytes (w : Nat) : List Nat :=
  [w % 256, w / 256 % 256, w / 65536 % 256, w / 16777216 % 256]

/-- The record as the byte sequence handed to `flash_range_program`. -/
def device_settings_t.bytes (r : device_settings_t) : List Nat :=
  word_bytes r.magic ++ r.pin ++ r.name ++ r._reserved

/-- What the firmware calls into but does not define: the compiled-in private
key and the results of the mbedtls calls. `ecdsa_write_signature k hash` is the
result (return code, signature bytes) of the `k`-th signing call. -/
structure CryptoEnv where
  ECDSA_PRIVATE_KEY : List Nat
  ctr_drbg_seed_ret : Int
  ecp_read_key_ret : Int
  keypair_calc_public_ret : Int
  sha256 : List Nat → List Nat
  ecdsa_write_signature : Nat → List Nat → Int × List Nat

/-- The global state of the firmware, the flash settings sector, the lines
printed so far, and two ghost fields: `sign_calls` counts the calls of
`mbedtls_ecdsa_write_signature`, `rebooted` records that `reset_usb_boot` was
reached. -/
structure State where
  g_serial_number : String
  g_device_name : List Nat
  g_device_pin : List Nat
  flash : List Nat
  g_sensor_ready : Bool
  g_baseline_pressure : ℚ
  g_baseline_set : Bool
  g_baseline_printed : Bool
  g_app_connected : Bool
  g_last_ping_ms : Nat
  g_output_rate : Int
  g_output_interval_ms : Int
  g_samples_per_output : Int
  g_pressure_queue : List Int
  g_cmd_buffer : List Nat
  g_cmd_pos : Nat
  g_cmd_type : Nat
  g_ecdsa_initialized : Bool
  led : led_state_t
  sign_calls : Nat
  rebooted : Bool
  out : List String

/-- The statics' initial values; the flash sector content is a parameter. -/
def State.init (serial : String) (flash : List Nat) : State :=
  { g_serial_number := serial
    g_device_name := [68, 105, 118, 101, 67, 104, 101, 99, 107, 101, 114] ++ List.replicate 14 0
    g_device_pin := [48, 48, 48, 48, 0]
    flash := flash
    g_sensor_ready := false
    g_baseline_pressure := 0
    g_baseline_set := false
    g_baseline_printed := false
    g_app_connected := false
    g_last_ping_ms := 0
    g_output_rate := DEFAULT_OUTPUT_RATE_HZ
    g_output_interval_ms := Int.tdiv 1000 DEFAULT_OUTPUT_RATE_HZ
    g_samples_per_output := Int.tdiv INTERNAL_SAMPLE_RATE_HZ DEFAULT_OUTPUT_RATE_HZ
    g_pressure_queue := []
    g_cmd_buffer := List.replicate CMD_BUFFER_SIZE 0
    g_cmd_pos := 0
    g_cmd_type := 0
    g_ecdsa_initialized := false
    led := led_state_t.LED_STATE_OFF
    sign_calls := 0
    rebooted := false
    out := [] }

/-- `printf` of one line. -/
def State.print (s : State) (line : String) : State :=
  { s with out := s.out ++ [line] }

/-- `flash_save_settings`: builds the record from the in-memory PIN and name,
erases the sector and programs the record into its first page. -/
def flash_save_settings (s : State) : State :=
  let new_settings : device_settings_t :=
    { magic := SETTINGS_MAGIC
      pin := List.replicate (DEVICE_PIN_LEN + 1) 0
      name := List.replicate (DEVICE_NAME_MAX_LEN + 1) 0
      _reserved := List.replicate (FLASH_PAGE_SIZE - 4 - (DEVICE_PIN_LEN + 1) - (DEVICE_NAME_MAX_LEN + 1)) 0 }
  let new_settings := { new_settings with pin := strncpy new_settings.pin s.g_device_pin DEVICE_PIN_LEN }
  let new_settings := { new_settings with pin := new_settings.pin.set DEVICE_PIN_LEN 0 }
  let new_settings := { new_settings with name := strncpy new_settings.name s.g_device_name DEVICE_NAME_MAX_LEN }
  let new_settings := { new_settings with name := new_settings.name.set DEVICE_NAME_MAX_LEN 0 }
  let new_settings := { new_settings with _reserved := List.replicate new_settings._reserved.length 0xFF }
  let erased := List.replicate FLASH_SECTOR_SIZE 0xFF
  { s with flash := new_settings.bytes ++ erased.drop FLASH_PAGE_SIZE }

/-- `pin_verify`. -/
def pin_verify (s : State) (pin : List Nat) : Bool :=
  strncmp pin s.g_device_pin DEVICE_PIN_LEN == 0

/-- `pin_is_valid_format`: the loop over the first `DEVICE_PIN_LEN` bytes. -/
def pin_is_valid_format (pin : List Nat) : Bool :=
  (List.range DEVICE_PIN_LEN).all (fun i => !(pin.getD i 0 < 48 || pin.getD i 0 > 57))

/-- `device_set_name`. -/
def device_set_name (s : State) (name : List Nat) : State :=
  let s := { s with g_device_name := strncpy s.g_device_name name DEVICE_NAME_MAX_LEN }
  let s := { s with g_device_name := s.g_device_name.set DEVICE_NAME_MAX_LEN 0 }
  flash_save_settings s

/-- `device_set_pin`. -/
def device_set_pin (s : State) (pin : List Nat) : State :=
  let s := { s with g_device_pin := strncpy s.g_device_pin pin DEVICE_PIN_LEN }
  let s := { s with g_device_pin := s.g_device_pin.set DEVICE_PIN_LEN 0 }
  flash_save_settings s

/-- `ecdsa_init` (build without `USE_OTP_KEYS`): the returned flag and the state. -/
def ecdsa_init (env : CryptoEnv) (s : State) : Bool × State :=
  if s.g_ecdsa_initialized then (true, s)
  else
    let key_is_zero := (List.range 32).all (fun i => env.ECDSA_PRIVATE_KEY.getD i 0 == 0)
    if key_is_zero then (false, s.print "WARN:ECDSA keys not configured")
    else if env.ctr_drbg_seed_ret ≠ 0 then
      (false, s.print ("ERR:DRBG seed failed: " ++ toString env.ctr_drbg_seed_ret))
    else if env.ecp_read_key_ret ≠ 0 then
      (false, s.print ("ERR:Private key load failed: " ++ toString env.ecp_read_key_ret))
    else if env.keypair_calc_public_ret ≠ 0 then
      (false, s.print ("ERR:Public key compute failed: " ++ toString env.keypair_calc_public_ret))
    else (true, { s with g_ecdsa_initialized := true })

/-- The hex-to-bytes loop of `ecdsa_sign_challenge`. -/
def nonce_bytes (nonce_hex : List Nat) : List Nat :=
  (List.range 32).map (fun i =>
    toUint8 (strtol16 [nonce_hex.getD (i * 2) 0, nonce_hex.getD (i * 2 + 1) 0, 0]))

/-- The part of `ecdsa_sign_challenge` after the initialisation check. -/
def ecdsa_sign_checked (env : CryptoEnv) (nonce_hex : List Nat) (nonce_len : Nat)
    (s : State) : State :=
  if nonce_len ≠ 64 then s.print "AUTH_ERR:Invalid nonce length"
  else
    let nonce := nonce_bytes nonce_hex
    let hash := env.sha256 nonce
    let r := env.ecdsa_write_signature s.sign_calls hash
    let s := { s with sign_calls := s.sign_calls + 1 }
    if r.1 ≠ 0 then s.print ("AUTH_ERR:Sign failed: " ++ toString r.1)
    else s.print ("AUTH_OK:" ++ String.join (r.2.map hex2))

/-- `ecdsa_sign_challenge`. -/
def ecdsa_sign_challenge (env : CryptoEnv) (nonce_hex : List Nat) (nonce_len : Nat)
    (s : State) : State :=
  if !s.g_ecdsa_initialized then
    if !(ecdsa_init env s).1 then (ecdsa_init env s).2.print "AUTH_ERR:ECDSA not ready"
    else ecdsa_sign_checked env nonce_hex nonce_len (ecdsa_init env s).2
  else ecdsa_sign_checked env nonce_hex nonce_len s

/-- Case `N` of `cmd_process_char` at the line terminator: `N<4-digit PIN><name>`. -/
def cmd_set_name (s : State) : State :=
  if s.g_cmd_pos ≥ DEVICE_PIN_LEN then
    let pin := (strncpy (List.replicate (DEVICE_PIN_LEN + 1) 0) s.g_cmd_buffer DEVICE_PIN_LEN).set DEVICE_PIN_LEN 0
    if pin_verify s pin then
      let name := s.g_cmd_buffer.drop DEVICE_PIN_LEN
      if strlen name > 0 then (device_set_name s name).print "INFO:Name saved"
      else s.print "ERR:Empty name"
    else s.print "ERR:Wrong PIN"
  else s.print "ERR:Format N<PIN><NAME>"

/-- Case `W` of `cmd_process_char` at the line terminator: `W<old 4-digit><new 4-digit>`. -/
def cmd_change_pin (s : State) : State :=
  if s.g_cmd_pos = DEVICE_PIN_LEN * 2 then
    let old_pin := (strncpy (List.replicate (DEVICE_PIN_LEN + 1) 0) s.g_cmd_buffer DEVICE_PIN_LEN).set DEVICE_PIN_LEN 0
    let new_pin := (strncpy (List.replicate (DEVICE_PIN_LEN + 1) 0) (s.g_cmd_buffer.drop DEVICE_PIN_LEN) DEVICE_PIN_LEN).set DEVICE_PIN_LEN 0
    if !pin_verify s old_pin then s.print "ERR:Wrong PIN"
    else if !pin_is_valid_format new_pin then s.print "ERR:PIN must be 4 digits"
    else (device_set_pin s new_pin).print "INFO:PIN changed"
  else s.print "ERR:Format W<OLD><NEW>"

/-- Case `F` of `cmd_process_char` at the line terminator: `F<rate>`. -/
def cmd_set_rate (s : State) : State :=
  let rate := atoi s.g_cmd_buffer
  if rate ≥ MIN_OUTPUT_RATE_HZ ∧ rate ≤ MAX_OUTPUT_RATE_HZ then
    let s := { s with g_output_rate := rate }
    let s := { s with g_output_interval_ms := Int.tdiv 1000 rate }
    let s := { s with g_samples_per_output := Int.tdiv INTERNAL_SAMPLE_RATE_HZ rate }
    s.print ("INFO:Output rate " ++ toString s.g_output_rate ++ "Hz (" ++
      toString s.g_samples_per_output ++ " samples avg)")
  else
    s.print ("ERR:Rate must be " ++ toString MIN_OUTPUT_RATE_HZ ++ "-" ++
      toString MAX_OUTPUT_RATE_HZ ++ "Hz")

/-- The `switch (g_cmd_type)` of `cmd_process_char`, run at the line terminator. -/
def cmd_dispatch (env : CryptoEnv) (s : State) : State :=
  if s.g_cmd_type = 78 ∨ s.g_cmd_type = 110 then cmd_set_name s
  else if s.g_cmd_type = 87 ∨ s.g_cmd_type = 119 then cmd_change_pin s
  else if s.g_cmd_type = 65 ∨ s.g_cmd_type = 97 then
    ecdsa_sign_challenge env s.g_cmd_buffer s.g_cmd_pos s
  else if s.g_cmd_type = 70 ∨ s.g_cmd_type = 102 then cmd_set_rate s
  else s

/-- The `switch (c)` of `cmd_process_char` for single-character commands.
`debug_lines` are the lines the sensor debug test `T` prints between its first
and last line (they depend on the sensor bus only). -/
def cmd_single (debug_lines : List String) (now_ms : Nat) (c : Nat) (s : State) : State :=
  if c = 80 ∨ c = 112 then
    let s := { s with g_last_ping_ms := now_ms }
    let s :=
      if !s.g_app_connected then
        let s := { s with g_app_connected := true }
        let s := { s with g_baseline_set := false }
        let s := { s with g_baseline_printed := false }
        let s := { s with led := led_state_t.LED_STATE_APP_CONNECTED }
        s.print "INFO:Connected"
      else s
    s.print "PONG"
  else if c = 82 ∨ c = 114 then
    let s := { s with g_baseline_set := false }
    s.print "INFO:Baseline reset"
  else if c = 67 ∨ c = 99 then
    s.print ("CFG:" ++ toString s.g_output_rate)
  else if c = 70 ∨ c = 102 then
    { s with g_cmd_type := c, g_cmd_pos := 0 }
  else if c = 73 ∨ c = 105 then
    let s := s.print ("INFO:Serial " ++ s.g_serial_number)
    let s := s.print ("INFO:Name " ++ cstring s.g_device_name)
    s.print ("INFO:Sensor " ++ (if s.g_sensor_ready then "OK" else "Error"))
  else if c = 84 ∨ c = 116 then
    let s := s.print "INFO:Sensor debug test..."
    let s := { s with out := s.out ++ debug_lines }
    s.print "INFO:Test complete"
  else if c = 78 ∨ c = 110 ∨ c = 87 ∨ c = 119 ∨ c = 65 ∨ c = 97 then
    { s with g_cmd_type := c, g_cmd_pos := 0 }
  else if c = 66 ∨ c = 98 then
    let s := s.print "INFO:Rebooting to BOOTSEL..."
    { s with rebooted := true }
  else s

/-- `cmd_process_char(c)`, with the clock reading `now_us` of `time_us_64()`. -/
def cmd_process_char (env : CryptoEnv) (debug_lines : List String) (now_us : Nat) (c : Nat)
    (s : State) : State :=
  let now_ms := now_us / 1000
  if s.g_cmd_type ≠ 0 then
    if c = 10 ∨ c = 13 then
      let s := { s with g_cmd_buffer := s.g_cmd_buffer.set s.g_cmd_pos 0 }
      let s := cmd_dispatch env s
      { s with g_cmd_type := 0, g_cmd_pos := 0 }
    else if s.g_cmd_pos < CMD_BUFFER_SIZE - 1 then
      { s with g_cmd_buffer := s.g_cmd_buffer.set s.g_cmd_pos c, g_cmd_pos := s.g_cmd_pos + 1 }
    else s
  else cmd_single debug_lines now_ms c s

/-- Feeding a sequence of (clock reading, byte) pairs to `cmd_process_char`. -/
def cmd_process_chars (env : CryptoEnv) (debug_lines : List String) :
    List (Nat × Nat) → State → State
  | [], s => s
  | (t, c) :: rest, s =>
    cmd_process_chars env debug_lines rest (cmd_process_char env debug_lines t c s)

/-- The locals of `core1_sensor_task`. -/
structure Core1 where
  sample_buffer : List ℚ
  sample_count : Nat
  last_sample_us : Nat
  last_output_ms : Nat

/-- The averaging loop: the sum of the first `count` entries of the buffer,
divided by `count`. -/
def average (sample_buffer : List ℚ) (count : Nat) : ℚ :=
  (List.range count).foldl (fun sum i => sum + sample_buffer.getD i 0) 0 / (count : ℚ)

/-- `queue_try_add`: non-blocking, fails when the queue is full. -/
def queue_try_add (q : List Int) (v : Int) : List Int :=
  if q.length < PRESSURE_QUEUE_SIZE then q ++ [v] else q

/-- The output step of `core1_sensor_task` (the body of `if (sample_count > 0)`):
the new state, the new locals and the packet handed to `queue_try_add`. -/
def core1_output (s : State) (l : Core1) : State × Core1 × Int :=
  let avg_pressure := average l.sample_buffer l.sample_count
  let l := { l with sample_count := 0 }
  let s :=
    if !s.g_baseline_set then
      let s := { s with g_baseline_pressure := avg_pressure }
      { s with g_baseline_set := true }
    else s
  let delta := avg_pressure - s.g_baseline_pressure
  let delta_x1000 := floatToInt32 (delta * 1000)
  let delta_x1000 := if delta_x1000 > -1 ∧ delta_x1000 < 1 then 0 else delta_x1000
  ({ s with g_pressure_queue := queue_try_add s.g_pressure_queue delta_x1000 }, l, delta_x1000)

end Pico

/-! ## ESP32-C3 firmware (`0_MCU_Firmware/src/main.cpp`) -/

namespace MCU

open CLib

def INTERNAL_SAMPLE_RATE : Int := 100
def DEFAULT_OUTPUT_RATE : Int := 8
def MIN_OUTPUT_RATE : Int := 4
def MAX_OUTPUT_RATE : Int := 50
def MAX_SAMPLES_PER_OUTPUT : Nat := 25
def CONNECTION_TIMEOUT_MS : Nat := 3000
def BEACON_INTERVAL_MS : Nat := 200
def DEVICE_NAME_MAX_LEN : Nat := 24
def DEVICE_PIN_LEN : Nat := 4
def CMD_BUFFER_SIZE : Nat := 72

/-- The LED status enum. -/
inductive LedState where
  | LED_OFF
  | LED_BOOT
  | LED_USB_WAIT
  | LED_USB_READY
  | LED_CONNECTED
  deriving DecidableEq, Repr

/-- What the firmware calls into but does not define: the compiled-in private
key and the results of the mbedtls calls. `ecdsa_sign k hash` is the result
(return code, the 32 bytes of r, the 32 bytes of s) of the `k`-th signing call. -/
structure CryptoEnv where
  ECDSA_PRIVATE_KEY : List Nat
  ctr_drbg_seed_ret : Int
  ecp_group_load_ret : Int
  mpi_read_binary_ret : Int
  sha256 : List Nat → List Nat
  ecdsa_sign : Nat → List Nat → Int × List Nat × List Nat

/-- The globals of the firmware, the two strings kept in NVS, the lines printed
so far, and two ghost fields: `sign_calls` counts the calls of
`mbedtls_ecdsa_sign`, `rebooted` records that `ESP.restart` was reached. -/
structure State where
  g_serial_number : String
  g_device_name : List Nat
  g_device_pin : List Nat
  nvs_name : Option (List Nat)
  nvs_pin : Option (List Nat)
  g_sensor_ready : Bool
  g_connected : Bool
  g_last_ping_ms : Nat
  g_last_beacon_ms : Nat
  g_last_sample_ms : Nat
  g_last_output_ms : Nat
  g_output_rate : Int
  g_output_interval_ms : Int
  g_samples_per_output : Int
  g_sample_buffer : List ℚ
  g_sample_count : Nat
  g_baseline_pressure : ℚ
  g_baseline_set : Bool
  g_ecdsa_initialized : Bool
  g_cmd_buffer : List Nat
  g_cmd_pos : Nat
  g_cmd_type : Nat
  led : LedState
  sign_calls : Nat
  rebooted : Bool
  out : List String

/-- The globals' initial values. -/
def State.init (serial : String) : State :=
  { g_serial_number := serial
    g_device_name := [68, 105, 118, 101, 67, 104, 101, 99, 107, 101, 114] ++ List.replicate 14 0
    g_device_pin := [48, 48, 48, 48, 0]
    nvs_name := none
    nvs_pin := none
    g_sensor_ready := false
    g_connected := false
    g_last_ping_ms := 0
    g_last_beacon_ms := 0
    g_last_sample_ms := 0
    g_last_output_ms := 0
    g_output_rate := DEFAULT_OUTPUT_RATE
    g_output_interval_ms := Int.tdiv 1000 DEFAULT_OUTPUT_RATE
    g_samples_per_output := Int.tdiv INTERNAL_SAMPLE_RATE DEFAULT_OUTPUT_RATE
    g_sample_buffer := List.replicate (MAX_SAMPLES_PER_OUTPUT + 2) 0
    g_sample_count := 0
    g_baseline_pressure := 0
    g_baseline_set := false
    g_ecdsa_initialized := false
    g_cmd_buffer := List.replicate CMD_BUFFER_SIZE 0
    g_cmd_pos := 0
    g_cmd_type := 0
    led := LedState.LED_OFF
    sign_calls := 0
    rebooted := false
    out := [] }

/-- `Serial.println` / `Serial.printf` of one line. -/
def State.print (s : State) (line : String) : State :=
  { s with out := s.out ++ [line] }

/-- `save_settings`: stores the two C strings under their NVS keys. -/
def save_settings (s : State) : State :=
  { s with nvs_name := some (cstr_bytes s.g_device_name)
           nvs_pin := some (cstr_bytes s.g_device_pin) }

/-- `ecdsa_init`: the returned flag and the state. -/
def ecdsa_init (env : CryptoEnv) (s : State) : Bool × State :=
  if s.g_ecdsa_initialized then (true, s)
  else
    let all_zero := (List.range 32).all (fun i => env.ECDSA_PRIVATE_KEY.getD i 0 == 0)
    if all_zero then (false, s.print "WARN:Placeholder keys")
    else if env.ctr_drbg_seed_ret ≠ 0 then (false, s)
    else if env.ecp_group_load_ret ≠ 0 then (false, s)
    else if env.mpi_read_binary_ret ≠ 0 then (false, s)
    else (true, ({ s with g_ecdsa_initialized := true }).print "INFO:ECDSA OK")

/-- `ecdsa_sign_nonce`. -/
def ecdsa_sign_nonce (env : CryptoEnv) (nonce_hex : List Nat) (s : State) : State :=
  if !s.g_ecdsa_initialized then s.print "ERR:ECDSA not init"
  else
    let nonce_len := strlen nonce_hex / 2
    let nonce_len := if nonce_len > 32 then 32 else nonce_len
    let nonce := (List.range nonce_len).map (fun i =>
      toUint8 (strtol16 [nonce_hex.getD (i * 2) 0, nonce_hex.getD (i * 2 + 1) 0, 0]))
    let hash := env.sha256 nonce
    let r := env.ecdsa_sign s.sign_calls hash
    let s := { s with sign_calls := s.sign_calls + 1 }
    if r.1 ≠ 0 then s.print "ERR:Sign failed"
    else s.print ("SIG:" ++ String.join (r.2.1.map hex2U) ++ String.join (r.2.2.map hex2U))

/-- `pin_verify`. -/
def pin_verify (s : State) (pin : List Nat) : Bool :=
  strncmp pin s.g_device_pin DEVICE_PIN_LEN == 0

/-- `pin_is_valid_format`: the loop over the first `DEVICE_PIN_LEN` bytes. -/
def pin_is_valid_format (pin : List Nat) : Bool :=
  (List.range DEVICE_PIN_LEN).all (fun i => !(pin.getD i 0 < 48 || pin.getD i 0 > 57))

/-- Case `N` of `process_command` at the line terminator. -/
def cmd_set_name (s : State) : State :=
  if s.g_cmd_pos ≥ DEVICE_PIN_LEN then
    let pin := (strncpy (List.replicate (DEVICE_PIN_LEN + 1) 0) s.g_cmd_buffer DEVICE_PIN_LEN).set DEVICE_PIN_LEN 0
    if pin_verify s pin then
      let name := s.g_cmd_buffer.drop DEVICE_PIN_LEN
      if strlen name > 0 then
        let s := { s with g_device_name := strncpy s.g_device_name name DEVICE_NAME_MAX_LEN }
        let s := { s with g_device_name := s.g_device_name.set DEVICE_NAME_MAX_LEN 0 }
        (save_settings s).print "INFO:Name saved"
      else s
    else s.print "ERR:Wrong PIN"
  else s

/-- Case `W` of `process_command` at the line terminator. -/
def cmd_change_pin (s : State) : State :=
  if s.g_cmd_pos = DEVICE_PIN_LEN * 2 then
    let old_pin := (strncpy (List.replicate (DEVICE_PIN_LEN + 1) 0) s.g_cmd_buffer DEVICE_PIN_LEN).set DEVICE_PIN_LEN 0
    let new_pin := (strncpy (List.replicate (DEVICE_PIN_LEN + 1) 0) (s.g_cmd_buffer.drop DEVICE_PIN_LEN) DEVICE_PIN_LEN).set DEVICE_PIN_LEN 0
    if pin_verify s old_pin && pin_is_valid_format new_pin then
      let s := { s with g_device_pin := strncpy s.g_device_pin new_pin DEVICE_PIN_LEN }
      let s := { s with g_device_pin := s.g_device_pin.set DEVICE_PIN_LEN 0 }
      (save_settings s).print "INFO:PIN changed"
    else s.print "ERR:Invalid PIN"
  else s

/-- Case `A` of `process_command` at the line terminator. -/
def cmd_auth (env : CryptoEnv) (s : State) : State :=
  if s.g_cmd_pos ≥ 32 then ecdsa_sign_nonce env s.g_cmd_buffer s
  else s.print "ERR:Nonce too short"

/-- Case `F` of `process_command` at the line terminator. -/
def cmd_set_rate (s : State) : State :=
  let rate := atoi s.g_cmd_buffer
  if rate ≥ MIN_OUTPUT_RATE ∧ rate ≤ MAX_OUTPUT_RATE then
    let s := { s with g_output_rate := rate }
    let s := { s with g_output_interval_ms := Int.tdiv 1000 rate }
    let s := { s with g_samples_per_output := Int.tdiv INTERNAL_SAMPLE_RATE rate }
    let s := { s with g_sample_count := 0 }
    s.print ("INFO:Output rate " ++ toString s.g_output_rate ++ "Hz (" ++
      toString s.g_samples_per_output ++ " samples avg)")
  else
    s.print ("ERR:Rate must be " ++ toString MIN_OUTPUT_RATE ++ "-" ++
      toString MAX_OUTPUT_RATE ++ "Hz")

/-- The `switch (g_cmd_type)` of `process_command`, run at the line terminator. -/
def cmd_dispatch (env : CryptoEnv) (s : State) : State :=
  if s.g_cmd_type = 78 ∨ s.g_cmd_type = 110 then cmd_set_name s
  else if s.g_cmd_type = 87 ∨ s.g_cmd_type = 119 then cmd_change_pin s
  else if s.g_cmd_type = 65 ∨ s.g_cmd_type = 97 then cmd_auth env s
  else if s.g_cmd_type = 70 ∨ s.g_cmd_type = 102 then cmd_set_rate s
  else s

/-- `sensor_debug_test`; `debug_lines` are the lines that depend on the bus. -/
def sensor_debug_test (debug_lines : List String) (s : State) : State :=
  let s := s.print "INFO:Sensor debug test..."
  if !s.g_sensor_ready then s.print "ERR:Sensor not ready"
  else
    let s := { s with out := s.out ++ debug_lines }
    s.print "INFO:Test complete"

/-- The `switch (c)` of `process_command` for single-character commands. -/
def cmd_single (debug_lines : List String) (now_ms : Nat) (c : Nat) (s : State) : State :=
  if c = 80 ∨ c = 112 then
    let s := { s with g_last_ping_ms := now_ms }
    let s :=
      if !s.g_connected then
        let s := { s with g_connected := true }
        let s := { s with g_baseline_set := false }
        let s := { s with g_sample_count := 0 }
        let s := { s with led := LedState.LED_CONNECTED }
        s.print "INFO:Connected"
      else s
    s.print "PONG"
  else if c = 82 ∨ c = 114 then
    let s := { s with g_baseline_set := false }
    let s := { s with g_sample_count := 0 }
    s.print "INFO:Baseline reset"
  else if c = 67 ∨ c = 99 then
    s.print ("CFG:" ++ toString s.g_output_rate)
  else if c = 70 ∨ c = 102 then
    { s with g_cmd_type := c, g_cmd_pos := 0 }
  else if c = 73 ∨ c = 105 then
    let s := s.print ("INFO:Serial " ++ s.g_serial_number)
    let s := s.print ("INFO:Name " ++ cstring s.g_device_name)
    let s := s.print "INFO:FW 4.5.0"
    s.print ("INFO:Sensor " ++ (if s.g_sensor_ready then "OK" else "Error"))
  else if c = 84 ∨ c = 116 then sensor_debug_test debug_lines s
  else if c = 78 ∨ c = 110 ∨ c = 87 ∨ c = 119 ∨ c = 65 ∨ c = 97 then
    { s with g_cmd_type := c, g_cmd_pos := 0 }
  else if c = 66 ∨ c = 98 then
    let s := s.print "INFO:Rebooting..."
    { s with rebooted := true }
  else s

/-- `process_command(c)`, with the clock reading `now_ms` of `millis()`. -/
def process_command (env : CryptoEnv) (debug_lines : List String) (now_ms : Nat) (c : Nat)
    (s : State) : State :=
  if s.g_cmd_type ≠ 0 then
    if c = 10 ∨ c = 13 then
      let s := { s with g_cmd_buffer := s.g_cmd_buffer.set s.g_cmd_pos 0 }
      let s := cmd_dispatch env s
      { s with g_cmd_type := 0, g_cmd_pos := 0 }
    else if s.g_cmd_pos < CMD_BUFFER_SIZE - 1 then
      { s with g_cmd_buffer := s.g_cmd_buffer.set s.g_cmd_pos c, g_cmd_pos := s.g_cmd_pos + 1 }
    else s
  else cmd_single debug_lines now_ms c s

/-- `collect_sample`, with `reading` the value of `bme.readPressure() / 100.0f`. -/
def collect_sample (reading : ℚ) (s : State) : State :=
  if (s.g_sample_count : Int) < s.g_samples_per_output then
    { s with g_sample_buffer := s.g_sample_buffer.set s.g_sample_count reading
             g_sample_count := s.g_sample_count + 1 }
  else s

/-- `get_average`. -/
def get_average (s : State) : ℚ :=
  if s.g_sample_count = 0 then 0
  else
    (List.range s.g_sample_count).foldl (fun sum i => sum + s.g_sample_buffer.getD i 0) 0
      / (s.g_sample_count : ℚ)

/-- `process_and_send`. -/
def process_and_send (s : State) : State :=
  if s.g_sample_count = 0 then s
  else
    let pressure := get_average s
    let s := { s with g_sample_count := 0 }
    let s :=
      if !s.g_baseline_set then
        let s := { s with g_baseline_pressure := pressure }
        let s := { s with g_baseline_set := true }
        s.print ("INFO:Baseline " ++ fmt3 s.g_baseline_pressure ++ " hPa")
      else s
    let relativePressure := pressure - s.g_baseline_pressure
    let pressureInt := floatToInt32 (relativePressure * 1000)
    let pressureInt := if pressureInt > -1 ∧ pressureInt < 1 then 0 else pressureInt
    s.print ("D:" ++ toString pressureInt)

end MCU

/-! ## The specification's words for the output value -/

namespace Spec

/-- Arithmetic mean of the readings of one output cycle. -/
def mean (readings : List ℚ) : ℚ := readings.sum / (readings.length : ℚ)

/-- Rounding toward zero: floor of a non-negative value, ceiling of a negative one. -/
def round_toward_zero (x : ℚ) : Int := if 0 ≤ x then ⌊x⌋ else ⌈x⌉

/-- The emitted delta as section 8 states it: `(mean - baseline) * 1000` rounded
toward zero, clamped to 0 if its absolute value is less than 1. -/
def emitted_delta (readings : List ℚ) (baseline : ℚ) : Int :=
  if |round_toward_zero ((mean readings - baseline) * 1000)| < 1 then 0
  else round_toward_zero ((mean readings - baseline) * 1000)

end Spec

/-! ## Concrete inputs used by the examples -/

/-- The readings of the specification's example: twelve readings alternating
between 1000.0 and 1000.1 hPa, averaging 1000.05 hPa. -/
def example_readings : List ℚ :=
  [1000, 10001 / 10, 1000, 10001 / 10, 1000, 10001 / 10,
   1000, 10001 / 10, 1000, 10001 / 10, 1000, 10001 / 10]

/-- A Pico state whose baseline is set to `baseline`. -/
def Pico.baseline_state (baseline : ℚ) : Pico.State :=
  { Pico.State.init "" [] with g_baseline_set := true, g_baseline_pressure := baseline }

/-- Locals of `core1_sensor_task` holding exactly the given readings. -/
def Pico.core1_with (readings : List ℚ) : Pico.Core1 :=
  { sample_buffer := readings, sample_count := readings.length,
    last_sample_us := 0, last_output_ms := 0 }

/-- An MCU state whose baseline is set to `baseline` and whose buffer holds
exactly the given readings. -/
def MCU.baseline_state (baseline : ℚ) (readings : List ℚ) : MCU.State :=
  { MCU.State.init "" with
    g_baseline_set := true, g_baseline_pressure := baseline,
    g_sample_buffer := readings, g_sample_count := readings.length }

/-! ## Sequences of output cycles -/

/-- One output cycle of `core1_sensor_task` whose buffer holds `readings`: the
guard `if (sample_count > 0)` followed by the output step. -/
def Pico.output_cycle (readings : List ℚ) (s : Pico.State) : Pico.State :=
  if 0 < (Pico.core1_with readings).sample_count then
    (Pico.core1_output s (Pico.core1_with readings)).1
  else s

/-- Consecutive output cycles with nothing in between (no ping, no reset). -/
def Pico.output_cycles : List (List ℚ) → Pico.State → Pico.State
  | [], s => s
  | readings :: rest, s => Pico.output_cycles rest (Pico.output_cycle readings s)

/-- One call of `process_and_send` with the buffer holding `readings`. -/
def MCU.output_cycle (readings : List ℚ) (s : MCU.State) : MCU.State :=
  MCU.process_and_send
    { s with g_sample_buffer := readings, g_sample_count := readings.length }

/-- Consecutive output cycles with nothing in between (no ping, no reset). -/
def MCU.output_cycles : List (List ℚ) → MCU.State → MCU.State
  | [], s => s
  | readings :: rest, s => MCU.output_cycles rest (MCU.output_cycle readings s)

/-! ## Authentication attempts -/

/-- Repeated calls of `ecdsa_sign_challenge`, one per (payload, length) pair. -/
def Pico.auth_attempts (env : Pico.CryptoEnv) : List (List Nat × Nat) → Pico.State → Pico.State
  | [], s => s
  | (nonce_hex, nonce_len) :: rest, s =>
    Pico.auth_attempts env rest (Pico.ecdsa_sign_challenge env nonce_hex nonce_len s)

/-- The build with the placeholder key `ECDSA_PRIVATE_KEY[32] = {0}`; the
mbedtls calls would all succeed. -/
def Pico.placeholder_env : Pico.CryptoEnv :=
  { ECDSA_PRIVATE_KEY := List.replicate 32 0
    ctr_drbg_seed_ret := 0
    ecp_read_key_ret := 0
    keypair_calc_public_ret := 0
    sha256 := fun m => m
    ecdsa_write_signature := fun _ _ => (0, [171]) }

/-- A build with a configured (non-zero) key; the mbedtls calls all succeed. -/
def Pico.configured_env : Pico.CryptoEnv :=
  { ECDSA_PRIVATE_KEY := 1 :: List.replicate 31 0
    ctr_drbg_seed_ret := 0
    ecp_read_key_ret := 0
    keypair_calc_public_ret := 0
    sha256 := fun m => m
    ecdsa_write_signature := fun _ _ => (0, [171]) }

/-- The bytes of one command line: the command letter, the payload and a
newline, each paired with the clock reading 0. -/
def Pico.line (letter : Nat) (payload : List Nat) : List (Nat × Nat) :=
  ((letter :: payload) ++ [10]).map (fun c => (0, c))

/-! ## Presenting the PIN -/

/-- The byte `c` completes a `N` or `W` command whose buffered payload has at
least four bytes, the first four equal to the stored PIN. -/
def Pico.presents_pin (s : Pico.State) (c : Nat) : Prop :=
  (s.g_cmd_type = 78 ∨ s.g_cmd_type = 110 ∨ s.g_cmd_type = 87 ∨ s.g_cmd_type = 119) ∧
  (c = 10 ∨ c = 13) ∧ 4 ≤ s.g_cmd_pos ∧ s.g_cmd_buffer.take 4 = s.g_device_pin.take 4

instance (s : Pico.State) (c : Nat) : Decidable (Pico.presents_pin s c) := by
  unfold Pico.presents_pin
  infer_instance

/-- No byte of the input sequence, at the moment it is processed, completes a
command that presents the stored PIN. -/
def Pico.never_presents_pin (env : Pico.CryptoEnv) (debug_lines : List String) :
    List (Nat × Nat) → Pico.State → Bool
  | [], _ => true
  | (t, c) :: rest, s =>
    !decide (Pico.presents_pin s c) &&
    Pico.never_presents_pin env debug_lines rest (Pico.cmd_process_char env debug_lines t c s)

/-- The name, the PIN and the flash settings sector of two states agree. -/
def Pico.same_settings (a b : Pico.State) : Prop :=
  a.g_device_name = b.g_device_name ∧ a.g_device_pin = b.g_device_pin ∧ a.flash = b.flash

/-- The state at boot with an erased settings sector. -/
def Pico.boot : Pico.State := Pico.State.init "" (List.replicate Pico.FLASH_SECTOR_SIZE 0xFF)

/-- The state after the bytes `N0000X` were received from boot: the parser is
collecting an `N` command whose payload starts with the default PIN. -/
def Pico.collecting_name : Pico.State :=
  Pico.cmd_process_chars Pico.configured_env []
    [(0, 78), (0, 48), (0, 48), (0, 48), (0, 48), (0, 88)] Pico.boot

/-! ## The settings record in flash -/

/-- The settings sector after a save: the 256-byte record (magic word, 5-byte
PIN field, 25-byte name field, 222 reserved bytes of 0xFF) followed by the rest
of the erased sector. -/
def Pico.settings_sector (pin_field name_field : List Nat) : List Nat :=
  Pico.word_bytes Pico.SETTINGS_MAGIC ++ pin_field ++ name_field ++ List.replicate 222 0xFF
    ++ List.replicate (Pico.FLASH_SECTOR_SIZE - Pico.FLASH_PAGE_SIZE) 0xFF

/-- The state after the bytes `W00001234` were received from boot: the parser
is collecting a `W` command with the default PIN as old and `1234` as new PIN. -/
def Pico.collecting_pin_change : Pico.State :=
  Pico.cmd_process_chars Pico.configured_env []
    [(0, 87), (0, 48), (0, 48), (0, 48), (0, 48), (0, 49), (0, 50), (0, 51), (0, 52)] Pico.boot

/-- The state after the bytes `W1111abcd` were received from boot: a `W`
command with a wrong old PIN (and a malformed new one). -/
def Pico.collecting_wrong_pin : Pico.State :=
  Pico.cmd_process_chars Pico.configured_env []
    [(0, 87), (0, 49), (0, 49), (0, 49), (0, 49), (0, 97), (0, 98), (0, 99), (0, 100)] Pico.boot

/-- The state after the bytes `W000012a4` were received from boot: a `W`
command with the right old PIN and a new PIN that is not four digits. -/
def Pico.collecting_bad_new_pin : Pico.State :=
  Pico.cmd_process_chars Pico.configured_env []
    [(0, 87), (0, 48), (0, 48), (0, 48), (0, 48), (0, 49), (0, 50), (0, 97), (0, 52)] Pico.boot

/-! ## Well-formed PIN -/

/-- The 5-byte PIN array holds exactly four ASCII digits followed by the
terminating NUL. -/
def Pico.pin_wf (pin : List Nat) : Prop :=
  pin.length = 5 ∧ (∀ i, i < 4 → 48 ≤ pin.getD i 0 ∧ pin.getD i 0 ≤ 57) ∧ pin.getD 4 0 = 0

instance (pin : List Nat) : Decidable (Pico.pin_wf pin) := by
  unfold Pico.pin_wf
  infer_instance

/-- A byte stream from the host: two PIN changes (`W00001234`, `W12349999`), a
rejected one (`W0000abcd`), a rename (`N9999Dive`) and a rate change (`F10`). -/
def Pico.pin_session : List (Nat × Nat) :=
  Pico.line 87 [48, 48, 48, 48, 49, 50, 51, 52] ++
  Pico.line 87 [49, 50, 51, 52, 57, 57, 57, 57] ++
  Pico.line 87 [48, 48, 48, 48, 97, 98, 99, 100] ++
  Pico.line 78 [57, 57, 57, 57, 68, 105, 118, 101] ++
  Pico.line 70 [49, 48]

/-! ## Well-formed device name -/

/-- The 25-byte name array ends in the terminating NUL. -/
def Pico.name_wf (name : List Nat) : Prop := name.length = 25 ∧ name.getD 24 0 = 0

instance (name : List Nat) : Decidable (Pico.name_wf name) := by
  unfold Pico.name_wf
  infer_instance

/-- The state after `N0000` followed by the 26 letters `A` to `Z` was received
from boot: an `N` command with the right PIN and a name longer than 24 bytes. -/
def Pico.collecting_long_name : Pico.State :=
  Pico.cmd_process_chars Pico.configured_env []
    ((78 :: 48 :: 48 :: 48 :: 48 :: (List.range 26).map (fun i => 65 + i)).map (fun c => (0, c)))
    Pico.boot

/-! ## Rate commands used by the examples -/

/-- The state after the bytes `F8` were received from boot. -/
def Pico.collecting_rate : Pico.State :=
  Pico.cmd_process_chars Pico.configured_env [] [(0, 70), (0, 56)] Pico.boot

/-- A build of the MCU firmware with a configured key; the mbedtls calls succeed. -/
def MCU.configured_env : MCU.CryptoEnv :=
  { ECDSA_PRIVATE_KEY := 1 :: List.replicate 31 0
    ctr_drbg_seed_ret := 0
    ecp_group_load_ret := 0
    mpi_read_binary_ret := 0
    sha256 := fun m => m
    ecdsa_sign := fun _ _ => (0, List.replicate 32 1, List.replicate 32 2) }

/-- Feeding a sequence of (clock reading, byte) pairs to `process_command`. -/
def MCU.process_commands (env : MCU.CryptoEnv) (debug_lines : List String) :
    List (Nat × Nat) → MCU.State → MCU.State
  | [], s => s
  | (t, c) :: rest, s =>
    MCU.process_commands env debug_lines rest (MCU.process_command env debug_lines t c s)

/-- The MCU state after the bytes `F3` were received from the initial state. -/
def MCU.collecting_rate : MCU.State :=
  MCU.process_commands MCU.configured_env [] [(0, 70), (0, 51)] (MCU.State.init "")

/-! ## Well-formed states -/

/-- The arrays have their declared sizes and contents of the expected shape:
the name array is 25 bytes ending in NUL, the PIN array is four digits and a
NUL, the command buffer is 72 bytes and the write position is inside it. -/
def Pico.state_wf (s : Pico.State) : Prop :=
  Pico.name_wf s.g_device_name ∧ Pico.pin_wf s.g_device_pin ∧
  s.g_cmd_buffer.length = Pico.CMD_BUFFER_SIZE ∧ s.g_cmd_pos < Pico.CMD_BUFFER_SIZE

/-- The command buffer of the MCU firmware is 72 bytes and the write position
is inside it. -/
def MCU.cmd_wf (s : MCU.State) : Prop :=
  s.g_cmd_buffer.length = MCU.CMD_BUFFER_SIZE ∧ s.g_cmd_pos < MCU.CMD_BUFFER_SIZE


/-! ## Unsigned clock arithmetic -/

namespace CLib

/-- Difference `a - b` of two `uint64_t` values. -/
def usub64 (a b : Nat) : Nat := (a % 2 ^ 64 + 2 ^ 64 - b % 2 ^ 64) % 2 ^ 64

/-- Difference `a - b` of two 32-bit `unsigned long` values. -/
def usub32 (a b : Nat) : Nat := (a % 2 ^ 32 + 2 ^ 32 - b % 2 ^ 32) % 2 ^ 32

end CLib

/-! ## Pico 2 firmware: the two loops -/

namespace Pico

open CLib

def SAMPLE_INTERVAL_US : Nat := 10000

/-- One iteration of the `while (true)` loop of `core1_sensor_task`, with the
clock reading `now_us` of `time_us_64()` and `reading` the value
`bmp280_read_pressure()` returns if it is called. -/
def core1_iteration (now_us : Nat) (reading : ℚ) (s : State) (l : Core1) : State × Core1 :=
  if s.g_sensor_ready && s.g_app_connected then
    let now_ms := now_us / 1000
    let l : Core1 :=
      if usub64 now_us l.last_sample_us ≥ SAMPLE_INTERVAL_US then
        let l : Core1 := { l with last_sample_us := now_us }
        if (l.sample_count : Int) < s.g_samples_per_output then
          { l with sample_buffer := l.sample_buffer.set l.sample_count reading
                   sample_count := l.sample_count + 1 }
        else l
      else l
    if usub64 now_ms l.last_output_ms ≥ (s.g_output_interval_ms % 2 ^ 64).toNat then
      let l : Core1 := { l with last_output_ms := now_ms }
      if l.sample_count > 0 then ((core1_output s l).1, (core1_output s l).2.1)
      else (s, l)
    else (s, l)
  else (s, { l with sample_count := 0 })

/-- The connection-timeout check of the main loop. -/
def main_timeout_check (now_ms : Nat) (s : State) : State :=
  if s.g_app_connected ∧ usub64 now_ms s.g_last_ping_ms > CONNECTION_TIMEOUT_MS then
    let s := { s with g_app_connected := false }
    let s := { s with g_baseline_printed := false }
    let s := { s with led := led_state_t.LED_STATE_USB_READY }
    s.print "INFO:Disconnected"
  else s

/-- The beacon step of the main loop; `last_beacon_ms` is a local of `main`. -/
def main_beacon (now_ms : Nat) (s : State) (last_beacon_ms : Nat) : State × Nat :=
  if !s.g_app_connected ∧ usub64 now_ms last_beacon_ms ≥ 200 then
    (s.print ("BEACON:" ++ s.g_serial_number ++ ":" ++ cstring s.g_device_name), now_ms)
  else (s, last_beacon_ms)

/-- The body of the forwarding loop of `main` for one removed packet. -/
def main_forward_packet (s : State) (delta_x1000 : Int) : State :=
  if s.g_app_connected then
    let s :=
      if !s.g_baseline_printed ∧ s.g_baseline_set then
        let s := s.print ("INFO:Baseline " ++ fmt3 s.g_baseline_pressure ++ " hPa")
        { s with g_baseline_printed := true }
      else s
    s.print ("D:" ++ toString delta_x1000)
  else s

/-- The forwarding loop of `main`: removes every queued packet in order. -/
def main_forward (s : State) : State :=
  s.g_pressure_queue.foldl main_forward_packet { s with g_pressure_queue := [] }

/-- One iteration of the `while (true)` loop of `main`: `t0_us` is the clock
reading at the top; `input` is the byte `getchar_timeout_us` returns, if any,
paired with the clock reading `cmd_process_char` takes. -/
def main_iteration (env : CryptoEnv) (debug_lines : List String) (t0_us : Nat)
    (input : Option (Nat × Nat)) (s : State) (last_beacon_ms : Nat) : State × Nat :=
  let now_ms := t0_us / 1000
  let s :=
    match input with
    | some (c, t1_us) => cmd_process_char env debug_lines t1_us c s
    | none => s
  let s := main_timeout_check now_ms s
  let r := main_beacon now_ms s last_beacon_ms
  (main_forward r.1, r.2)

/-- What `cmd_process_char` on core 0 does to the pair of the shared state and
the locals of the sampling task on core 1: the locals are not reachable from it. -/
def core0_command (env : CryptoEnv) (debug_lines : List String) (now_us c : Nat)
    (sys : State × Core1) : State × Core1 :=
  (cmd_process_char env debug_lines now_us c sys.1, sys.2)

end Pico

/-! ## ESP32-C3 firmware: the loop -/

namespace MCU

open CLib

def SAMPLE_INTERVAL_MS : Nat := 10

/-- The connection-timeout check of `loop`. -/
def loop_timeout_check (now_ms : Nat) (s : State) : State :=
  if s.g_connected ∧ usub32 now_ms s.g_last_ping_ms > CONNECTION_TIMEOUT_MS then
    let s := { s with g_connected := false }
    let s := { s with led := LedState.LED_USB_READY }
    s.print "INFO:Disconnected"
  else s

/-- The beacon step of `loop`. -/
def loop_beacon (now_ms : Nat) (s : State) : State :=
  if !s.g_connected ∧ usub32 now_ms s.g_last_beacon_ms ≥ BEACON_INTERVAL_MS then
    let s := { s with g_last_beacon_ms := now_ms }
    s.print ("BEACON:" ++ s.g_serial_number ++ ":" ++ cstring s.g_device_name)
  else s

/-- The sensor part of `loop`. -/
def loop_sensor (now_ms : Nat) (reading : ℚ) (s : State) : State :=
  if s.g_sensor_ready && s.g_connected then
    let s :=
      if usub32 now_ms s.g_last_sample_ms ≥ SAMPLE_INTERVAL_MS then
        collect_sample reading { s with g_last_sample_ms := now_ms }
      else s
    if usub32 now_ms s.g_last_output_ms ≥ (s.g_output_interval_ms % 2 ^ 32).toNat then
      process_and_send { s with g_last_output_ms := now_ms }
    else s
  else s

/-- One call of `loop`: `now_ms` is the reading of `millis()` at the top,
`inputs` the available serial bytes, each with the reading `process_command`
takes, `reading` the value of `bme.readPressure() / 100.0f` if it is read. -/
def loop (env : CryptoEnv) (debug_lines : List String) (now_ms : Nat)
    (inputs : List (Nat × Nat)) (reading : ℚ) (s : State) : State :=
  let s := process_commands env debug_lines inputs s
  let s := loop_timeout_check now_ms s
  let s := loop_beacon now_ms s
  loop_sensor now_ms reading s

/-- A step of the firmware as the sample-buffer claims see it: a byte given to
`process_command`, a call of `collect_sample`, or a call of `process_and_send`. -/
inductive Event where
  | command (now_ms : Nat) (c : Nat)
  | sample (reading : ℚ)
  | send

/-- The effect of one event. -/
def step (env : CryptoEnv) (debug_lines : List String) (e : Event) (s : State) : State :=
  match e with
  | Event.command now_ms c => process_command env debug_lines now_ms c s
  | Event.sample reading => collect_sample reading s
  | Event.send => process_and_send s

/-- Any interleaving of the three kinds of steps. -/
def run (env : CryptoEnv) (debug_lines : List String) : List Event → State → State
  | [], s => s
  | e :: rest, s => run env debug_lines rest (step env debug_lines e s)

/-- The sample-buffer invariant: the count is at most samples-per-output, which
is at most 25, and the buffer has its 27 entries. -/
def sample_inv (s : State) : Prop :=
  (s.g_sample_count : Int) ≤ s.g_samples_per_output ∧ s.g_samples_per_output ≤ 25 ∧
  s.g_sample_buffer.length = MAX_SAMPLES_PER_OUTPUT + 2

end MCU

/-! ## Concrete inputs for the rate-change and timeout examples -/

/-- A connected Pico with the sensor ready and the baseline set to 1000 hPa. -/
def Pico.sampling_state : Pico.State :=
  { Pico.boot with
    g_sensor_ready := true, g_app_connected := true,
    g_baseline_set := true, g_baseline_pressure := 1000 }

/-- Feeding a sequence of (clock reading, byte) pairs to `core0_command`. -/
def Pico.core0_commands (env : Pico.CryptoEnv) (debug_lines : List String) :
    List (Nat × Nat) → Pico.State × Pico.Core1 → Pico.State × Pico.Core1
  | [], sys => sys
  | (t, c) :: rest, sys =>
    Pico.core0_commands env debug_lines rest (Pico.core0_command env debug_lines t c sys)

/-- The Pico after the line `F50` arrives while the sampling task holds the
twelve example readings collected at 8 Hz. -/
def Pico.after_rate_change : Pico.State × Pico.Core1 :=
  Pico.core0_commands Pico.configured_env [] (Pico.line 70 [53, 48])
    (Pico.sampling_state, Pico.core1_with example_readings)

/-- The MCU after the line `F50` arrives while the buffer holds the twelve
example readings collected at 8 Hz. -/
def MCU.after_rate_change : MCU.State :=
  MCU.process_commands MCU.configured_env []
    [(0, 70), (0, 53), (0, 48), (0, 10)] (MCU.baseline_state 1000 example_readings)

/-- A connected Pico whose last ping came at 0 ms, with the baseline set. -/
def Pico.connected_state : Pico.State :=
  { Pico.boot with
    g_app_connected := true, g_last_ping_ms := 0,
    g_baseline_set := true, g_baseline_pressure := 1000, g_baseline_printed := true }

/-- A connected MCU whose last ping came at 0 ms. -/
def MCU.connected_state : MCU.State :=
  { MCU.State.init "" with g_connected := true, g_last_ping_ms := 0 }

/-- The sample fields of `a` are those of `b`, except that the count may have
been reset to 0. -/
def MCU.sample_frame (a b : MCU.State) : Prop :=
  a.g_samples_per_output = b.g_samples_per_output ∧ a.g_sample_buffer = b.g_sample_buffer ∧
  (a.g_sample_count = b.g_sample_count ∨ a.g_sample_count = 0)

/-- An MCU session: connect, thirteen samples (one more than fit at 8 Hz), an
output, the line `F4`, then thirty samples. -/
def MCU.sample_session : List MCU.Event :=
  [MCU.Event.command 0 80] ++ List.replicate 13 (MCU.Event.sample 1000) ++ [MCU.Event.send] ++
  [MCU.Event.command 0 70, MCU.Event.command 0 52, MCU.Event.command 0 10] ++
  List.replicate 30 (MCU.Event.sample 1001)
/-! ## MIDI SysEx transport (`midi_sysex.c`) -/

namespace Sysex

def SYSEX_START : Nat := 0xF0
def SYSEX_END : Nat := 0xF7
def SYSEX_MANUFACTURER_ID : Nat := 0x7D
def SYSEX_DEVICE_ID : Nat := 0x01
def CMD_PRESSURE : Nat := 0x01
def SYSEX_MAX_SIZE : Nat := 256

/-- The receive state machine's states. -/
inductive sysex_state_t where
  | SYSEX_STATE_IDLE
  | SYSEX_STATE_MANUFACTURER
  | SYSEX_STATE_DEVICE
  | SYSEX_STATE_COMMAND
  | SYSEX_STATE_DATA
  deriving DecidableEq

/-- The message structure: `data` is the array `uint8_t data[SYSEX_MAX_SIZE - 5]`,
`data_len` a `uint8_t`. -/
structure sysex_message_t where
  command : Nat
  data : List Nat
  data_len : Nat
  deriving DecidableEq

/-- The statics of the receiver: `g_rx_state`, `g_rx_message`, `g_message_ready`. -/
structure Rx where
  g_rx_state : sysex_state_t
  g_rx_message : sysex_message_t
  g_message_ready : Bool
  deriving DecidableEq

/-- `midi_sysex_init()`. -/
def midi_sysex_init : Rx :=
  { g_rx_state := sysex_state_t.SYSEX_STATE_IDLE
    g_rx_message := { command := 0, data := List.replicate (SYSEX_MAX_SIZE - 5) 0, data_len := 0 }
    g_message_ready := false }

/-- `midi_sysex_receive_byte(byte)`: the new statics and the returned flag. -/
def midi_sysex_receive_byte (byte : Nat) (r : Rx) : Rx × Bool :=
  if byte ≥ 0xF8 then (r, false)
  else if byte ≥ 0x80 ∧ byte ≠ SYSEX_START ∧ byte ≠ SYSEX_END then
    ({ r with g_rx_state := sysex_state_t.SYSEX_STATE_IDLE }, false)
  else
    match r.g_rx_state with
    | sysex_state_t.SYSEX_STATE_IDLE =>
      if byte = SYSEX_START then
        ({ r with g_rx_state := sysex_state_t.SYSEX_STATE_MANUFACTURER
                  g_message_ready := false
                  g_rx_message := { r.g_rx_message with data_len := 0 } }, false)
      else (r, false)
    | sysex_state_t.SYSEX_STATE_MANUFACTURER =>
      if byte = SYSEX_MANUFACTURER_ID then
        ({ r with g_rx_state := sysex_state_t.SYSEX_STATE_DEVICE }, false)
      else ({ r with g_rx_state := sysex_state_t.SYSEX_STATE_IDLE }, false)
    | sysex_state_t.SYSEX_STATE_DEVICE =>
      if byte = SYSEX_DEVICE_ID then
        ({ r with g_rx_state := sysex_state_t.SYSEX_STATE_COMMAND }, false)
      else ({ r with g_rx_state := sysex_state_t.SYSEX_STATE_IDLE }, false)
    | sysex_state_t.SYSEX_STATE_COMMAND =>
      ({ r with g_rx_message := { r.g_rx_message with command := byte }
                g_rx_state := sysex_state_t.SYSEX_STATE_DATA }, false)
    | sysex_state_t.SYSEX_STATE_DATA =>
      if byte = SYSEX_END then
        ({ r with g_message_ready := true
                  g_rx_state := sysex_state_t.SYSEX_STATE_IDLE }, true)
      else if r.g_rx_message.data_len < SYSEX_MAX_SIZE - 5 then
        ({ r with g_rx_message :=
            { r.g_rx_message with
              data := r.g_rx_message.data.set r.g_rx_message.data_len byte
              data_len := (r.g_rx_message.data_len + 1) % 256 } }, false)
      else (r, false)

/-- Feeding bytes one by one to `midi_sysex_receive_byte`, collecting the
returned flags. -/
def receive_bytes : List Nat → Rx → Rx × List Bool
  | [], r => (r, [])
  | b :: rest, r =>
    ((receive_bytes rest (midi_sysex_receive_byte b r).1).1,
     (midi_sysex_receive_byte b r).2 :: (receive_bytes rest (midi_sysex_receive_byte b r).1).2)

/-- `midi_sysex_get_message()`: the new statics and the message behind the
returned pointer (`none` for `NULL`). -/
def midi_sysex_get_message (r : Rx) : Rx × Option sysex_message_t :=
  if r.g_message_ready then ({ r with g_message_ready := false }, some r.g_rx_message)
  else (r, none)

/-- The copy loop of `midi_sysex_send_raw`, from index `i` on; the bytes written
so far are `buffer`, so that `idx` is its length. The first argument bounds the
number of iterations. -/
def send_raw_loop (data : List Nat) (len : Nat) : Nat → Nat → List Nat → List Nat
  | 0, _, buffer => buffer
  | fuel + 1, i, buffer =>
    if i < len ∧ buffer.length < SYSEX_MAX_SIZE - 1 then
      send_raw_loop data len fuel (i + 1) (buffer ++ [data.getD i 0])
    else buffer

/-- `midi_sysex_send_raw(command, data, len)`: the bytes `buffer[0 .. idx)` it
hands to the USB stream. -/
def midi_sysex_send_raw (command : Nat) (data : List Nat) (len : Nat) : List Nat :=
  let buffer := [SYSEX_START, SYSEX_MANUFACTURER_ID, SYSEX_DEVICE_ID, command]
  let buffer := send_raw_loop data len len 0 buffer
  buffer ++ [SYSEX_END]

/-- The array `data[5]` that `midi_sysex_send_pressure(pressure_mpa)` fills: the
`int32_t` argument is negated and converted to `uint32_t` modulo 2^32. -/
def pressure_data (pressure_mpa : Int) : List Nat :=
  let negative := pressure_mpa < 0
  let val : Nat := if negative then ((-pressure_mpa) % 2 ^ 32).toNat
                   else (pressure_mpa % 2 ^ 32).toNat
  let d0 := (val >>> 28) &&& 0x0F
  let d0 := if negative then d0 ||| 0x40 else d0
  [d0, (val >>> 21) &&& 0x7F, (val >>> 14) &&& 0x7F, (val >>> 7) &&& 0x7F, val &&& 0x7F]

/-- `midi_sysex_send_pressure(pressure_mpa)`: the frame sent. -/
def midi_sysex_send_pressure (pressure_mpa : Int) : List Nat :=
  midi_sysex_send_raw CMD_PRESSURE (pressure_data pressure_mpa) 5

end Sysex

namespace Spec

/-- The decoding of the five data bytes of a pressure message: sign in bit 6 of
byte 0, magnitude `(b0 & 0x0F) << 28 | b1 << 21 | b2 << 14 | b3 << 7 | b4`. -/
def decode_pressure (d : List Nat) : Int :=
  let b0 := d.getD 0 0
  let b1 := d.getD 1 0
  let b2 := d.getD 2 0
  let b3 := d.getD 3 0
  let b4 := d.getD 4 0
  let magnitude : Nat := (b0 &&& 0x0F) <<< 28 ||| b1 <<< 21 ||| b2 <<< 14 ||| b3 <<< 7 ||| b4
  if b0.testBit 6 then -(magnitude : Int) else (magnitude : Int)

/-- The frame `F0 7D 01 c d F7`. -/
def sysex_frame (c : Nat) (d : List Nat) : List Nat :=
  [0xF0, 0x7D, 0x01, c] ++ d ++ [0xF7]

end Spec
/-! ## BMP280 driver: compensation pipeline and configuration -/

namespace CLib

/-- The value of an `int32_t` holding `x` modulo 2^32. -/
def wrap32 (x : Int) : Int := (x + 2 ^ 31) % 2 ^ 32 - 2 ^ 31

/-- The value of an `int64_t` holding `x` modulo 2^64. -/
def wrap64 (x : Int) : Int := (x + 2 ^ 63) % 2 ^ 64 - 2 ^ 63

/-- The shift `x >> k` of a signed value: the arithmetic shift, which rounds
toward minus infinity. -/
def shr (x : Int) (k : Nat) : Int := x >>> k

/-- `x` is representable as `int32_t`. -/
def fits32 (x : Int) : Prop := -2 ^ 31 ≤ x ∧ x < 2 ^ 31

/-- `x` is representable as `int64_t`. -/
def fits64 (x : Int) : Prop := -2 ^ 63 ≤ x ∧ x < 2 ^ 63

instance (x : Int) : Decidable (fits32 x) := inferInstanceAs (Decidable (_ ∧ _))

instance (x : Int) : Decidable (fits64 x) := inferInstanceAs (Decidable (_ ∧ _))

end CLib

namespace Pico

open CLib

def BMP280_REG_ID : Nat := 0xD0
def BMP280_REG_RESET : Nat := 0xE0
def BMP280_REG_CTRL_MEAS : Nat := 0xF4
def BMP280_REG_CONFIG : Nat := 0xF5
def BMP280_CHIP_ID : Nat := 0x58
def BME280_CHIP_ID : Nat := 0x60
def BMP280_RESET_VALUE : Nat := 0xB6
def BMP280_CTRL_STABLE : Nat := 0x57
def BMP280_CONFIG_FILTERED : Nat := 0x04

/-- The calibration data `bmp280_calib_t`: `dig_T1`, `dig_P1` are `uint16_t`,
the other `dig_` fields `int16_t`, `t_fine` is `int32_t`. -/
structure bmp280_calib_t where
  dig_T1 : Int
  dig_T2 : Int
  dig_T3 : Int
  dig_P1 : Int
  dig_P2 : Int
  dig_P3 : Int
  dig_P4 : Int
  dig_P5 : Int
  dig_P6 : Int
  dig_P7 : Int
  dig_P8 : Int
  dig_P9 : Int
  t_fine : Int

/-- The fields hold values of their declared types. -/
def calib_typed (c : bmp280_calib_t) : Prop :=
  (0 ≤ c.dig_T1 ∧ c.dig_T1 < 2 ^ 16) ∧ (0 ≤ c.dig_P1 ∧ c.dig_P1 < 2 ^ 16) ∧
  (-2 ^ 15 ≤ c.dig_T2 ∧ c.dig_T2 < 2 ^ 15) ∧ (-2 ^ 15 ≤ c.dig_T3 ∧ c.dig_T3 < 2 ^ 15) ∧
  (-2 ^ 15 ≤ c.dig_P2 ∧ c.dig_P2 < 2 ^ 15) ∧ (-2 ^ 15 ≤ c.dig_P3 ∧ c.dig_P3 < 2 ^ 15) ∧
  (-2 ^ 15 ≤ c.dig_P4 ∧ c.dig_P4 < 2 ^ 15) ∧ (-2 ^ 15 ≤ c.dig_P5 ∧ c.dig_P5 < 2 ^ 15) ∧
  (-2 ^ 15 ≤ c.dig_P6 ∧ c.dig_P6 < 2 ^ 15) ∧ (-2 ^ 15 ≤ c.dig_P7 ∧ c.dig_P7 < 2 ^ 15) ∧
  (-2 ^ 15 ≤ c.dig_P8 ∧ c.dig_P8 < 2 ^ 15) ∧ (-2 ^ 15 ≤ c.dig_P9 ∧ c.dig_P9 < 2 ^ 15)

instance (c : bmp280_calib_t) : Decidable (calib_typed c) := by
  unfold calib_typed
  infer_instance

/-- The 20-bit code `((int32_t)msb << 12) | ((int32_t)lsb << 4) | (xlsb >> 4)`
of three register bytes. -/
def adc20 (msb lsb xlsb : Nat) : Int :=
  ((msb <<< 12 ||| lsb <<< 4 ||| xlsb >>> 4 : Nat) : Int)

/-- The temperature part of `bmp280_read_pressure`: the value stored in
`g_calib.t_fine`. Every `int32_t` operation wraps modulo 2^32; `>>` on a
signed value is the arithmetic shift. -/
def bmp280_t_fine (c : bmp280_calib_t) (adc_T : Int) : Int :=
  let var1 := shr (wrap32 (wrap32 (shr adc_T 3 - wrap32 (wrap32 c.dig_T1 * 2 ^ 1))
                * wrap32 c.dig_T2)) 11
  let var2 := shr (wrap32 (shr (wrap32 (wrap32 (shr adc_T 4 - wrap32 c.dig_T1)
                * wrap32 (shr adc_T 4 - wrap32 c.dig_T1))) 12
                * wrap32 c.dig_T3)) 14
  wrap32 (var1 + var2)

/-- The pressure part of `bmp280_read_pressure`: `none` when `p_var1 == 0` (the
function returns `0.0f` there), otherwise the final value of `p`. Every
`int64_t` operation wraps modulo 2^64 (`1048576 - adc_P` is an `int32_t`
operation); `/` truncates toward zero. -/
def bmp280_pressure_int (c : bmp280_calib_t) (t_fine adc_P : Int) : Option Int :=
  let p_var1 := wrap64 (wrap64 t_fine - 128000)
  let p_var2 := wrap64 (wrap64 (p_var1 * p_var1) * wrap64 c.dig_P6)
  let p_var2 := wrap64 (p_var2 + wrap64 (wrap64 (p_var1 * wrap64 c.dig_P5) * 2 ^ 17))
  let p_var2 := wrap64 (p_var2 + wrap64 (wrap64 c.dig_P4 * 2 ^ 35))
  let p_var1 := wrap64 (shr (wrap64 (wrap64 (p_var1 * p_var1) * wrap64 c.dig_P3)) 8
                  + wrap64 (wrap64 (p_var1 * wrap64 c.dig_P2) * 2 ^ 12))
  let p_var1 := shr (wrap64 (wrap64 (wrap64 (1 * 2 ^ 47) + p_var1) * wrap64 c.dig_P1)) 33
  if p_var1 = 0 then none
  else
    let p := wrap64 (wrap32 (1048576 - adc_P))
    let p := wrap64 (Int.tdiv (wrap64 (wrap64 (wrap64 (p * 2 ^ 31) - p_var2) * 3125)) p_var1)
    let p_var1 := shr (wrap64 (wrap64 (wrap64 c.dig_P9 * shr p 13) * shr p 13)) 25
    let p_var2 := shr (wrap64 (wrap64 c.dig_P8 * p)) 19
    some (wrap64 (shr (wrap64 (wrap64 (p + p_var1) + p_var2)) 8 + wrap64 (wrap64 c.dig_P7 * 2 ^ 4)))

/-- `bmp280_read_pressure()` after the register read: the returned `float` and
the calibration data with `t_fine` updated. -/
def bmp280_compensate (c : bmp280_calib_t) (adc_P adc_T : Int) : ℚ × bmp280_calib_t :=
  let c := { c with t_fine := bmp280_t_fine c adc_T }
  match bmp280_pressure_int c c.t_fine adc_P with
  | none => (0, c)
  | some p => ((p : ℚ) / 25600, c)

/-- `bmp280_read_pressure()`, with `data` the six bytes read from the registers
`0xF7 .. 0xFC`. -/
def bmp280_read_pressure (c : bmp280_calib_t) (data : List Nat) : ℚ × bmp280_calib_t :=
  let adc_P := adc20 (data.getD 0 0) (data.getD 1 0) (data.getD 2 0)
  let adc_T := adc20 (data.getD 3 0) (data.getD 4 0) (data.getD 5 0)
  bmp280_compensate c adc_P adc_T

/-- The register writes `(register, value)` of `bmp280_init()` in order, for the
chip id read from register `0xD0`, and the returned flag. -/
def bmp280_init (chip_id : Nat) : List (Nat × Nat) × Bool :=
  if chip_id = BMP280_CHIP_ID ∨ chip_id = BME280_CHIP_ID then
    ([(BMP280_REG_RESET, BMP280_RESET_VALUE), (BMP280_REG_CTRL_MEAS, 0x00),
      (BMP280_REG_CONFIG, BMP280_CONFIG_FILTERED), (BMP280_REG_CTRL_MEAS, BMP280_CTRL_STABLE)],
     true)
  else ([], false)

end Pico

namespace Spec

open CLib

/-- Modelled from the spec: the Bosch reference `t_fine` of
`bmp280_compensate_T_int32`, over the integers. -/
def bmp280_t_fine (dig_T1 dig_T2 dig_T3 adc_T : Int) : Int :=
  shr ((shr adc_T 3 - dig_T1 * 2 ^ 1) * dig_T2) 11
    + shr (shr ((shr adc_T 4 - dig_T1) * (shr adc_T 4 - dig_T1)) 12 * dig_T3) 14

/-- Modelled from the spec: `var2` of the Bosch reference
`bmp280_compensate_P_int64` before the division. -/
def bmp280_P_var2 (dig_P4 dig_P5 dig_P6 t_fine : Int) : Int :=
  (t_fine - 128000) * (t_fine - 128000) * dig_P6 + ((t_fine - 128000) * dig_P5) * 2 ^ 17
    + dig_P4 * 2 ^ 35

/-- Modelled from the spec: the divisor `var1` of the Bosch reference
`bmp280_compensate_P_int64`. -/
def bmp280_P_var1 (dig_P1 dig_P2 dig_P3 t_fine : Int) : Int :=
  shr ((1 * 2 ^ 47 + (shr ((t_fine - 128000) * (t_fine - 128000) * dig_P3) 8
    + ((t_fine - 128000) * dig_P2) * 2 ^ 12)) * dig_P1) 33

/-- Modelled from the spec: the quotient `p` of the Bosch reference
`bmp280_compensate_P_int64`. -/
def bmp280_P_quot (var1 var2 adc_P : Int) : Int :=
  Int.tdiv ((((1048576 - adc_P) * 2 ^ 31) - var2) * 3125) var1

/-- Modelled from the spec: the last statement of the Bosch reference
`bmp280_compensate_P_int64`, from the quotient `p`. -/
def bmp280_P_final (dig_P7 dig_P8 dig_P9 p : Int) : Int :=
  shr (p + shr ((dig_P9 * shr p 13) * shr p 13) 25 + shr (dig_P8 * p) 19) 8 + dig_P7 * 2 ^ 4

/-- Modelled from the spec: the Bosch reference `bmp280_compensate_P_int64`
over the integers, in Pa * 256; 0 when the divisor `var1` is 0. -/
def bmp280_compensate_P_int64 (c : Pico.bmp280_calib_t) (t_fine adc_P : Int) : Int :=
  let var2 := bmp280_P_var2 c.dig_P4 c.dig_P5 c.dig_P6 t_fine
  let var1 := bmp280_P_var1 c.dig_P1 c.dig_P2 c.dig_P3 t_fine
  if var1 = 0 then 0
  else bmp280_P_final c.dig_P7 c.dig_P8 c.dig_P9 (bmp280_P_quot var1 var2 adc_P)

/-- Modelled from the spec: no intermediate of the 32-bit temperature routine
leaves `int32_t`. The differences `(adc_T>>3) - (dig_T1<<1)` and
`(adc_T>>4) - dig_T1` are not listed: they fit for every 20-bit code. -/
def t_fine_in_range (dig_T1 dig_T2 dig_T3 adc_T : Int) : Prop :=
  fits32 ((shr adc_T 3 - dig_T1 * 2 ^ 1) * dig_T2) ∧
  fits32 ((shr adc_T 4 - dig_T1) * (shr adc_T 4 - dig_T1)) ∧
  fits32 (shr ((shr adc_T 4 - dig_T1) * (shr adc_T 4 - dig_T1)) 12 * dig_T3) ∧
  fits32 (bmp280_t_fine dig_T1 dig_T2 dig_T3 adc_T)

instance (dig_T1 dig_T2 dig_T3 adc_T : Int) :
    Decidable (t_fine_in_range dig_T1 dig_T2 dig_T3 adc_T) := by
  unfold t_fine_in_range
  infer_instance

/-- Modelled from the spec: no intermediate of the 64-bit pressure routine
leaves `int64_t`, up to the divisor `var1`. -/
def P_vars_in_range (c : Pico.bmp280_calib_t) (t_fine : Int) : Prop :=
  fits64 ((t_fine - 128000) * (t_fine - 128000)) ∧
  fits64 ((t_fine - 128000) * (t_fine - 128000) * c.dig_P6) ∧
  fits64 ((t_fine - 128000) * c.dig_P5) ∧
  fits64 (((t_fine - 128000) * c.dig_P5) * 2 ^ 17) ∧
  fits64 ((t_fine - 128000) * (t_fine - 128000) * c.dig_P6
    + ((t_fine - 128000) * c.dig_P5) * 2 ^ 17) ∧
  fits64 (bmp280_P_var2 c.dig_P4 c.dig_P5 c.dig_P6 t_fine) ∧
  fits64 ((t_fine - 128000) * (t_fine - 128000) * c.dig_P3) ∧
  fits64 ((t_fine - 128000) * c.dig_P2) ∧
  fits64 (((t_fine - 128000) * c.dig_P2) * 2 ^ 12) ∧
  fits64 (shr ((t_fine - 128000) * (t_fine - 128000) * c.dig_P3) 8
    + ((t_fine - 128000) * c.dig_P2) * 2 ^ 12) ∧
  fits64 (1 * 2 ^ 47 + (shr ((t_fine - 128000) * (t_fine - 128000) * c.dig_P3) 8
    + ((t_fine - 128000) * c.dig_P2) * 2 ^ 12)) ∧
  fits64 ((1 * 2 ^ 47 + (shr ((t_fine - 128000) * (t_fine - 128000) * c.dig_P3) 8
    + ((t_fine - 128000) * c.dig_P2) * 2 ^ 12)) * c.dig_P1)

instance (c : Pico.bmp280_calib_t) (t_fine : Int) : Decidable (P_vars_in_range c t_fine) := by
  unfold P_vars_in_range
  infer_instance

/-- Modelled from the spec: no intermediate of the 64-bit pressure routine
leaves `int64_t`, from the subtraction of `var2` on, and the result fits the
returned `uint32_t`. The value `(1048576 - adc_P) << 31` is not listed: it fits
for every 20-bit code. -/
def P_result_in_range (c : Pico.bmp280_calib_t) (var1 var2 adc_P : Int) : Prop :=
  fits64 (((1048576 - adc_P) * 2 ^ 31) - var2) ∧
  fits64 ((((1048576 - adc_P) * 2 ^ 31) - var2) * 3125) ∧
  fits64 (bmp280_P_quot var1 var2 adc_P) ∧
  fits64 (c.dig_P9 * shr (bmp280_P_quot var1 var2 adc_P) 13) ∧
  fits64 ((c.dig_P9 * shr (bmp280_P_quot var1 var2 adc_P) 13)
    * shr (bmp280_P_quot var1 var2 adc_P) 13) ∧
  fits64 (c.dig_P8 * bmp280_P_quot var1 var2 adc_P) ∧
  fits64 (bmp280_P_quot var1 var2 adc_P
    + shr ((c.dig_P9 * shr (bmp280_P_quot var1 var2 adc_P) 13)
        * shr (bmp280_P_quot var1 var2 adc_P) 13) 25) ∧
  fits64 (bmp280_P_quot var1 var2 adc_P
    + shr ((c.dig_P9 * shr (bmp280_P_quot var1 var2 adc_P) 13)
        * shr (bmp280_P_quot var1 var2 adc_P) 13) 25
    + shr (c.dig_P8 * bmp280_P_quot var1 var2 adc_P) 19) ∧
  (0 ≤ bmp280_P_final c.dig_P7 c.dig_P8 c.dig_P9 (bmp280_P_quot var1 var2 adc_P) ∧
    bmp280_P_final c.dig_P7 c.dig_P8 c.dig_P9 (bmp280_P_quot var1 var2 adc_P) < 2 ^ 32)

instance (c : Pico.bmp280_calib_t) (var1 var2 adc_P : Int) :
    Decidable (P_result_in_range c var1 var2 adc_P) := by
  unfold P_result_in_range
  infer_instance

/-- Modelled from the spec: no intermediate of the reference compensation
leaves its declared width. -/
def bmp280_in_range (c : Pico.bmp280_calib_t) (adc_P adc_T : Int) : Prop :=
  t_fine_in_range c.dig_T1 c.dig_T2 c.dig_T3 adc_T ∧
  P_vars_in_range c (bmp280_t_fine c.dig_T1 c.dig_T2 c.dig_T3 adc_T) ∧
  (bmp280_P_var1 c.dig_P1 c.dig_P2 c.dig_P3 (bmp280_t_fine c.dig_T1 c.dig_T2 c.dig_T3 adc_T) ≠ 0 →
    P_result_in_range c
      (bmp280_P_var1 c.dig_P1 c.dig_P2 c.dig_P3 (bmp280_t_fine c.dig_T1 c.dig_T2 c.dig_T3 adc_T))
      (bmp280_P_var2 c.dig_P4 c.dig_P5 c.dig_P6 (bmp280_t_fine c.dig_T1 c.dig_T2 c.dig_T3 adc_T))
      adc_P)

instance (c : Pico.bmp280_calib_t) (adc_P adc_T : Int) :
    Decidable (bmp280_in_range c adc_P adc_T) := by
  unfold bmp280_in_range
  infer_instance

end Spec

/-- An example calibration record; with the raw codes `adc_T = 519888` and
`adc_P = 415148` it gives `t_fine = 128422` and about 1006.5 hPa. -/
def Pico.example_calib : Pico.bmp280_calib_t :=
  { dig_T1 := 27504, dig_T2 := 26435, dig_T3 := -1000, dig_P1 := 36477, dig_P2 := -10685,
    dig_P3 := 3024, dig_P4 := 2855, dig_P5 := 140, dig_P6 := -7, dig_P7 := 15500,
    dig_P8 := -14600, dig_P9 := 6000, t_fine := 0 }
/-! ## Loading the settings record -/

namespace CLib

/-- C `strcpy(dst, src)`: the array `dst` afterwards. -/
def strcpy (dst src : List Nat) : List Nat :=
  cstr_bytes src ++ [0] ++ dst.drop (strlen src + 1)

end CLib

namespace Pico

open CLib

/-- The `uint32_t` stored in the first four bytes of `mem` (little endian). -/
def read_word (mem : List Nat) : Nat :=
  mem.getD 0 0 + 256 * mem.getD 1 0 + 65536 * mem.getD 2 0 + 16777216 * mem.getD 3 0

/-- `flash_load_settings`: `settings` points at the start of the settings
sector; in the packed record `pin` is at offset 4 and `name` at offset 9. -/
def flash_load_settings (s : State) : State :=
  if read_word s.flash = SETTINGS_MAGIC then
    let s := { s with g_device_name :=
                strncpy s.g_device_name (s.flash.drop (4 + (DEVICE_PIN_LEN + 1))) DEVICE_NAME_MAX_LEN }
    let s := { s with g_device_name := s.g_device_name.set DEVICE_NAME_MAX_LEN 0 }
    let s := { s with g_device_pin := strncpy s.g_device_pin (s.flash.drop 4) DEVICE_PIN_LEN }
    { s with g_device_pin := s.g_device_pin.set DEVICE_PIN_LEN 0 }
  else
    let s := { s with g_device_name :=
                strcpy s.g_device_name [68, 105, 118, 101, 67, 104, 101, 99, 107, 101, 114] }
    { s with g_device_pin := strcpy s.g_device_pin [48, 48, 48, 48] }

/-- A Pico whose name is `Dive` and whose PIN is `1234`, with an erased
settings sector. -/
def renamed_state : State :=
  { boot with g_device_name := [68, 105, 118, 101] ++ List.replicate 21 0
              g_device_pin := [49, 50, 51, 52, 0] }

end Pico

/-! ## The two cores and the inter-core queue -/

namespace Pico

/-- One iteration of the forwarding loop of `main`: `queue_try_remove` takes the
oldest packet, if there is one, and the loop body handles it. -/
def main_forward_step (s : State) : State :=
  match s.g_pressure_queue with
  | [] => s
  | packet :: rest => main_forward_packet { s with g_pressure_queue := rest } packet

/-- The locals of `core1_sensor_task` when its loop starts. -/
def Core1.init : Core1 :=
  { sample_buffer := List.replicate (MAX_SAMPLES_PER_OUTPUT + 2) 0, sample_count := 0,
    last_sample_us := 0, last_output_ms := 0 }

/-- A step of the two-core system: one iteration of the sampling loop on core 1,
one iteration of the main loop on core 0, or a single iteration of the
forwarding loop of `main` on its own (so that pushes can fall between two
removals). -/
inductive SystemEvent where
  | core1 (now_us : Nat) (reading : ℚ)
  | core0 (t0_us : Nat) (input : Option (Nat × Nat))
  | remove

/-- The shared state, the locals of the sampling task and the local
`last_beacon_ms` of `main`. -/
structure System where
  shared : State
  core1 : Core1
  last_beacon_ms : Nat

/-- The effect of one step. -/
def system_step (env : CryptoEnv) (debug_lines : List String) (e : SystemEvent)
    (y : System) : System :=
  match e with
  | SystemEvent.core1 now_us reading =>
    { y with shared := (core1_iteration now_us reading y.shared y.core1).1
             core1 := (core1_iteration now_us reading y.shared y.core1).2 }
  | SystemEvent.core0 t0_us input =>
    { y with shared := (main_iteration env debug_lines t0_us input y.shared y.last_beacon_ms).1
             last_beacon_ms :=
               (main_iteration env debug_lines t0_us input y.shared y.last_beacon_ms).2 }
  | SystemEvent.remove => { y with shared := main_forward_step y.shared }

/-- Any interleaving of steps of the two cores. -/
def system_run (env : CryptoEnv) (debug_lines : List String) :
    List SystemEvent → System → System
  | [], y => y
  | e :: rest, y => system_run env debug_lines rest (system_step env debug_lines e y)

/-- The system after `queue_init` and before the loops start. -/
def System.init (serial : String) (flash : List Nat) : System :=
  { shared := State.init serial flash, core1 := Core1.init, last_beacon_ms := 0 }

/-- A connected Pico whose queue already holds 32 packets. -/
def full_queue_state : State :=
  { sampling_state with g_pressure_queue := List.replicate 32 7 }

end Pico
/-- A connected Pico with the sensor ready and no baseline yet. -/
def Pico.sampling_unset : Pico.State :=
  { Pico.boot with g_sensor_ready := true, g_app_connected := true }
/-- The bytes `N` followed by eighty letters `x`, each with the clock reading 0:
an `N` command whose payload is longer than the buffer. -/
def Pico.overlong_line : List (Nat × Nat) :=
  (0, 78) :: List.replicate 80 (0, 120)
/-- The MCU after the `ecdsa_init` call of `setup` succeeded. -/
def MCU.ready_state : MCU.State :=
  (MCU.ecdsa_init MCU.configured_env (MCU.State.init "")).2

/-- The bytes of one command line for the MCU: the command letter, the payload
and a newline, each paired with the clock reading 0. -/
def MCU.line (letter : Nat) (payload : List Nat) : List (Nat × Nat) :=
  ((letter :: payload) ++ [10]).map (fun c => (0, c))
/-! ## MIDI SysEx: `midi_sysex_send` -/

namespace Sysex

/-- The copy loop of `midi_sysex_send`, from index `i` on, on the array `buffer`
and the write index `idx`; `i` and `idx` are `uint8_t`. The first argument
bounds the number of iterations. -/
def send_loop (data : List Nat) (len : Nat) : Nat → Nat → List Nat × Nat → List Nat × Nat
  | 0, _, r => r
  | fuel + 1, i, r =>
    if i < len ∧ r.2 < SYSEX_MAX_SIZE - 1 then
      let buffer := r.1.set r.2 (data.getD i 0 &&& 0x7F)
      let idx := (r.2 + 1) % 256
      let r : List Nat × Nat :=
        if data.getD i 0 &&& 0x80 ≠ 0 then
          if idx < SYSEX_MAX_SIZE - 1 then (buffer.set idx 0x01, (idx + 1) % 256)
          else (buffer, idx)
        else (buffer, idx)
      send_loop data len fuel ((i + 1) % 256) r
    else r

/-- `midi_sysex_send(command, data, len)`: the bytes `buffer[0 .. idx)` it hands
to `tud_midi_stream_write`. The array starts out as zeros here; every byte
handed over has been written before. -/
def midi_sysex_send (command : Nat) (data : List Nat) (len : Nat) : List Nat :=
  let buffer := List.replicate SYSEX_MAX_SIZE 0
  let buffer := buffer.set 0 SYSEX_START
  let buffer := buffer.set 1 SYSEX_MANUFACTURER_ID
  let buffer := buffer.set 2 SYSEX_DEVICE_ID
  let buffer := buffer.set 3 command
  let r := send_loop data len len 0 (buffer, 4)
  let buffer := r.1.set r.2 SYSEX_END
  let idx := (r.2 + 1) % 256
  buffer.take idx

end Sysex
/-! ## What the two command processors have in common -/

/-- The fields the command processors of the two firmware builds share: the
parse state, name, PIN, the three rate fields, the connected flag, the last-ping
time, the baseline flag, and the ghost flag that a reboot was reached. -/
structure ParserView where
  g_cmd_type : Nat
  g_cmd_pos : Nat
  g_cmd_buffer : List Nat
  g_device_name : List Nat
  g_device_pin : List Nat
  g_output_rate : Int
  g_output_interval_ms : Int
  g_samples_per_output : Int
  connected : Bool
  g_last_ping_ms : Nat
  g_baseline_set : Bool
  rebooted : Bool
  deriving DecidableEq

/-- The shared fields of a Pico state. -/
def Pico.view (s : Pico.State) : ParserView :=
  { g_cmd_type := s.g_cmd_type, g_cmd_pos := s.g_cmd_pos, g_cmd_buffer := s.g_cmd_buffer
    g_device_name := s.g_device_name, g_device_pin := s.g_device_pin
    g_output_rate := s.g_output_rate, g_output_interval_ms := s.g_output_interval_ms
    g_samples_per_output := s.g_samples_per_output, connected := s.g_app_connected
    g_last_ping_ms := s.g_last_ping_ms, g_baseline_set := s.g_baseline_set
    rebooted := s.rebooted }

/-- The shared fields of an MCU state. -/
def MCU.view (s : MCU.State) : ParserView :=
  { g_cmd_type := s.g_cmd_type, g_cmd_pos := s.g_cmd_pos, g_cmd_buffer := s.g_cmd_buffer
    g_device_name := s.g_device_name, g_device_pin := s.g_device_pin
    g_output_rate := s.g_output_rate, g_output_interval_ms := s.g_output_interval_ms
    g_samples_per_output := s.g_samples_per_output, connected := s.g_connected
    g_last_ping_ms := s.g_last_ping_ms, g_baseline_set := s.g_baseline_set
    rebooted := s.rebooted }

/-- The clock readings of the MCU that correspond to readings of the Pico: the
Pico reads microseconds and divides by 1000, the MCU reads milliseconds. -/
def MCU.same_clock (input : List (Nat × Nat)) : List (Nat × Nat) :=
  input.map (fun x => (x.1 / 1000, x.2))

/-! ## Lemmas about the library model -/

namespace CLib

theorem truncToInt_eq (x : ℚ) : truncToInt x = Spec.round_toward_zero x := by
  unfold truncToInt Spec.round_toward_zero
  by_cases h : 0 ≤ x
  · rw [if_pos h, Rat.floor_def]
    exact Int.tdiv_eq_ediv (Rat.num_nonneg.mpr h) (Int.ofNat_nonneg _)
  · rw [if_neg h]
    have hneg : 0 ≤ (-x).num := Rat.num_nonneg.mpr (by linarith)
    have h1 : ⌈x⌉ = -⌊-x⌋ := by rw [Int.floor_neg, neg_neg]
    rw [h1, Rat.floor_def, Rat.neg_den, ← Int.tdiv_eq_ediv hneg (Int.ofNat_nonneg _),
      Rat.neg_num, Int.neg_tdiv, neg_neg]

theorem floatToInt32_of_range (x : ℚ)
    (hlo : -2147483648 ≤ Spec.round_toward_zero x)
    (hhi : Spec.round_toward_zero x ≤ 2147483647) :
    floatToInt32 x = Spec.round_toward_zero x := by
  unfold floatToInt32
  rw [truncToInt_eq]
  rw [if_neg (by omega), if_neg (by omega)]

theorem sum_range_getD (buf : List ℚ) (n : Nat) (hn : n ≤ buf.length) :
    (List.range n).foldl (fun sum i => sum + buf.getD i 0) 0 = (buf.take n).sum := by
  induction n with
  | zero => simp
  | succ k ih =>
    have hk : k < buf.length := hn
    rw [List.range_succ, List.foldl_append, ih (Nat.le_of_lt hk), List.sum_take_succ buf k hk]
    simp [List.getElem?_eq_getElem hk]

end CLib

/-! ## Output step -/

theorem Pico.average_eq_mean (l : Pico.Core1) (h : l.sample_count ≤ l.sample_buffer.length) :
    Pico.average l.sample_buffer l.sample_count
      = Spec.mean (l.sample_buffer.take l.sample_count) := by
  unfold Pico.average Spec.mean
  rw [CLib.sum_range_getD _ _ h, List.length_take, Nat.min_eq_left h]

theorem MCU.get_average_eq_mean (s : MCU.State) (h0 : s.g_sample_count ≠ 0)
    (h : s.g_sample_count ≤ s.g_sample_buffer.length) :
    MCU.get_average s = Spec.mean (s.g_sample_buffer.take s.g_sample_count) := by
  unfold MCU.get_average Spec.mean
  rw [if_neg h0, CLib.sum_range_getD _ _ h, List.length_take, Nat.min_eq_left h]

theorem Spec.noise_floor_eq (d : Int) :
    (if d > -1 ∧ d < 1 then 0 else d) = (if |d| < 1 then 0 else d) := by
  by_cases h : d > -1 ∧ d < 1
  · rw [if_pos h, if_pos (abs_lt.mpr ⟨by omega, h.2⟩)]
  · rw [if_neg h, if_neg (fun h2 => h ⟨by have := (abs_lt.mp h2).1; omega, (abs_lt.mp h2).2⟩)]

theorem example_delta : (Spec.mean example_readings - 1000) * 1000 = 50 := by
  norm_num [Spec.mean, example_readings]

theorem example_emitted : Spec.emitted_delta example_readings 1000 = 50 := by
  unfold Spec.emitted_delta
  rw [example_delta]
  have h : Spec.round_toward_zero 50 = 50 := by
    unfold Spec.round_toward_zero
    rw [if_pos (by norm_num)]
    exact Int.floor_eq_iff.mpr (by norm_num)
  rw [h]
  decide

theorem Pico.core1_output_baseline (s : Pico.State) (l : Pico.Core1) :
    (Pico.core1_output s l).1.g_baseline_set = true ∧
    (Pico.core1_output s l).1.g_baseline_pressure
      = if s.g_baseline_set then s.g_baseline_pressure
        else Pico.average l.sample_buffer l.sample_count := by
  cases h : s.g_baseline_set <;> simp [Pico.core1_output, h]

theorem MCU.process_and_send_baseline (s : MCU.State) (h0 : s.g_sample_count ≠ 0) :
    (MCU.process_and_send s).g_baseline_set = true ∧
    (MCU.process_and_send s).g_baseline_pressure
      = if s.g_baseline_set then s.g_baseline_pressure else MCU.get_average s := by
  cases h : s.g_baseline_set <;>
    simp [MCU.process_and_send, h, h0, MCU.State.print, MCU.get_average]

theorem Pico.output_cycle_nil (s : Pico.State) : Pico.output_cycle [] s = s := by
  simp [Pico.output_cycle, Pico.core1_with]

theorem MCU.mcu_output_cycle_nil (s : MCU.State) :
    (MCU.output_cycle [] s).g_baseline_set = s.g_baseline_set ∧
    (MCU.output_cycle [] s).g_baseline_pressure = s.g_baseline_pressure := by
  simp [MCU.output_cycle, MCU.process_and_send]

theorem Pico.output_cycle_baseline (r : List ℚ) (hr : r ≠ []) (s : Pico.State) :
    (Pico.output_cycle r s).g_baseline_set = true ∧
    (Pico.output_cycle r s).g_baseline_pressure
      = if s.g_baseline_set then s.g_baseline_pressure else Spec.mean r := by
  have hpos : 0 < r.length := List.length_pos.mpr hr
  have h := Pico.core1_output_baseline s (Pico.core1_with r)
  have havg := Pico.average_eq_mean (Pico.core1_with r) (le_refl _)
  simp only [Pico.core1_with, List.take_length] at havg
  simp only [Pico.output_cycle, Pico.core1_with, hpos, if_true]
  simp only [Pico.core1_with, havg] at h
  exact h

theorem MCU.mcu_output_cycle_baseline (r : List ℚ) (hr : r ≠ []) (s : MCU.State) :
    (MCU.output_cycle r s).g_baseline_set = true ∧
    (MCU.output_cycle r s).g_baseline_pressure
      = if s.g_baseline_set then s.g_baseline_pressure else Spec.mean r := by
  have hpos : 0 < r.length := List.length_pos.mpr hr
  have h := MCU.process_and_send_baseline
    { s with g_sample_buffer := r, g_sample_count := r.length } (by show r.length ≠ 0; omega)
  have havg := MCU.get_average_eq_mean
    { s with g_sample_buffer := r, g_sample_count := r.length } (by show r.length ≠ 0; omega) (le_refl _)
  simp only [List.take_length] at havg
  rw [havg] at h
  exact h

theorem Pico.output_cycles_set (cycles : List (List ℚ)) (s : Pico.State)
    (h : s.g_baseline_set = true) :
    (Pico.output_cycles cycles s).g_baseline_set = true ∧
    (Pico.output_cycles cycles s).g_baseline_pressure = s.g_baseline_pressure := by
  induction cycles generalizing s with
  | nil => exact ⟨h, rfl⟩
  | cons r rest ih =>
    by_cases hr : r = []
    · subst hr
      simp only [Pico.output_cycles, Pico.output_cycle_nil]
      exact ih s h
    · have h1 := Pico.output_cycle_baseline r hr s
      rw [h, if_pos rfl] at h1
      have h2 := ih (Pico.output_cycle r s) h1.1
      simp only [Pico.output_cycles]
      exact ⟨h2.1, h2.2.trans h1.2⟩

theorem MCU.mcu_output_cycles_set (cycles : List (List ℚ)) (s : MCU.State)
    (h : s.g_baseline_set = true) :
    (MCU.output_cycles cycles s).g_baseline_set = true ∧
    (MCU.output_cycles cycles s).g_baseline_pressure = s.g_baseline_pressure := by
  induction cycles generalizing s with
  | nil => exact ⟨h, rfl⟩
  | cons r rest ih =>
    by_cases hr : r = []
    · subst hr
      have h0 := MCU.mcu_output_cycle_nil s
      have h2 := ih (MCU.output_cycle [] s) (h0.1.trans h)
      simp only [MCU.output_cycles]
      exact ⟨h2.1, h2.2.trans h0.2⟩
    · have h1 := MCU.mcu_output_cycle_baseline r hr s
      rw [h, if_pos rfl] at h1
      have h2 := ih (MCU.output_cycle r s) h1.1
      simp only [MCU.output_cycles]
      exact ⟨h2.1, h2.2.trans h1.2⟩

theorem Pico.output_cycles_unset (cycles : List (List ℚ)) (s : Pico.State)
    (h : s.g_baseline_set = false) :
    match cycles.find? (fun r => !r.isEmpty) with
    | some r => (Pico.output_cycles cycles s).g_baseline_set = true ∧
        (Pico.output_cycles cycles s).g_baseline_pressure = Spec.mean r
    | none => (Pico.output_cycles cycles s).g_baseline_set = false := by
  induction cycles generalizing s with
  | nil => simpa [Pico.output_cycles] using h
  | cons r rest ih =>
    by_cases hr : r = []
    · subst hr
      simp only [Pico.output_cycles, Pico.output_cycle_nil, List.find?, List.isEmpty_nil,
        Bool.not_true]
      exact ih s h
    · have h1 := Pico.output_cycle_baseline r hr s
      rw [h] at h1
      have h2 := Pico.output_cycles_set rest (Pico.output_cycle r s) h1.1
      have hne : (!r.isEmpty) = true := by
        cases r with
        | nil => exact absurd rfl hr
        | cons a t => rfl
      simp only [Pico.output_cycles, List.find?, hne]
      exact ⟨h2.1, h2.2.trans (by simpa using h1.2)⟩

theorem MCU.mcu_output_cycles_unset (cycles : List (List ℚ)) (s : MCU.State)
    (h : s.g_baseline_set = false) :
    match cycles.find? (fun r => !r.isEmpty) with
    | some r => (MCU.output_cycles cycles s).g_baseline_set = true ∧
        (MCU.output_cycles cycles s).g_baseline_pressure = Spec.mean r
    | none => (MCU.output_cycles cycles s).g_baseline_set = false := by
  induction cycles generalizing s with
  | nil => simpa [MCU.output_cycles] using h
  | cons r rest ih =>
    by_cases hr : r = []
    · subst hr
      have h0 := MCU.mcu_output_cycle_nil s
      simp only [MCU.output_cycles, List.find?, List.isEmpty_nil, Bool.not_true]
      exact ih (MCU.output_cycle [] s) (h0.1.trans h)
    · have h1 := MCU.mcu_output_cycle_baseline r hr s
      rw [h] at h1
      have h2 := MCU.mcu_output_cycles_set rest (MCU.output_cycle r s) h1.1
      have hne : (!r.isEmpty) = true := by
        cases r with
        | nil => exact absurd rfl hr
        | cons a t => rfl
      simp only [MCU.output_cycles, List.find?, hne]
      exact ⟨h2.1, h2.2.trans (by simpa using h1.2)⟩

theorem Pico.ecdsa_init_placeholder (env : Pico.CryptoEnv)
    (hkey : env.ECDSA_PRIVATE_KEY = List.replicate 32 0) (s : Pico.State)
    (hinit : s.g_ecdsa_initialized = false) :
    Pico.ecdsa_init env s = (false, s.print "WARN:ECDSA keys not configured") := by
  have hz : (List.range 32).all (fun i => (List.replicate 32 0).getD i 0 == 0) = true := by
    decide
  simp only [Pico.ecdsa_init, hinit, hkey, hz, Bool.false_eq_true, if_false, if_true]

theorem Pico.sign_challenge_placeholder (env : Pico.CryptoEnv)
    (hkey : env.ECDSA_PRIVATE_KEY = List.replicate 32 0) (s : Pico.State)
    (hinit : s.g_ecdsa_initialized = false) (nonce_hex : List Nat) (nonce_len : Nat) :
    Pico.ecdsa_sign_challenge env nonce_hex nonce_len s
      = (s.print "WARN:ECDSA keys not configured").print "AUTH_ERR:ECDSA not ready" := by
  simp [Pico.ecdsa_sign_challenge, hinit, Pico.ecdsa_init_placeholder env hkey s hinit]

theorem Pico.auth_attempts_placeholder (env : Pico.CryptoEnv)
    (hkey : env.ECDSA_PRIVATE_KEY = List.replicate 32 0)
    (attempts : List (List Nat × Nat)) (s : Pico.State)
    (hinit : s.g_ecdsa_initialized = false) :
    (Pico.auth_attempts env attempts s).g_ecdsa_initialized = false ∧
    (Pico.auth_attempts env attempts s).sign_calls = s.sign_calls ∧
    (Pico.auth_attempts env attempts s).out
      = s.out ++ (attempts.map (fun _ =>
          ["WARN:ECDSA keys not configured", "AUTH_ERR:ECDSA not ready"])).flatten := by
  induction attempts generalizing s with
  | nil => simp [Pico.auth_attempts, hinit]
  | cons a rest ih =>
    obtain ⟨nonce_hex, nonce_len⟩ := a
    have h1 := Pico.sign_challenge_placeholder env hkey s hinit nonce_hex nonce_len
    have h2 := ih (Pico.ecdsa_sign_challenge env nonce_hex nonce_len s)
      (by rw [h1]; simpa [Pico.State.print] using hinit)
    simp only [Pico.auth_attempts]
    refine ⟨h2.1, ?_, ?_⟩
    · rw [h2.2.1, h1]; simp [Pico.State.print]
    · rw [h2.2.2, h1]; simp [Pico.State.print]

/-- C3: with the all-zero placeholder key and `g_ecdsa_initialized` false (as at
boot), `ecdsa_init` returns false and leaves the flag false; every call of
`ecdsa_sign_challenge`, for every payload and length, only prints the key
warning and the reply `AUTH_ERR:ECDSA not ready`, changes nothing else and does
not reach the signing call; so does the `A` command of `cmd_process_char`; and
after any number of attempts the flag is still false, no signing call was made
and every attempt printed the same two lines. -/
theorem C3_placeholder_key_never_signs (env : Pico.CryptoEnv)
    (hkey : env.ECDSA_PRIVATE_KEY = List.replicate 32 0) (s : Pico.State)
    (hinit : s.g_ecdsa_initialized = false) :
    (Pico.ecdsa_init env s).1 = false ∧
    (Pico.ecdsa_init env s).2.g_ecdsa_initialized = false ∧
    (∀ (nonce_hex : List Nat) (nonce_len : Nat),
      Pico.ecdsa_sign_challenge env nonce_hex nonce_len s
        = (s.print "WARN:ECDSA keys not configured").print "AUTH_ERR:ECDSA not ready" ∧
      (Pico.ecdsa_sign_challenge env nonce_hex nonce_len s).sign_calls = s.sign_calls ∧
      (Pico.ecdsa_sign_challenge env nonce_hex nonce_len s).g_ecdsa_initialized = false) ∧
    (∀ (debug_lines : List String) (now_us c : Nat),
      (s.g_cmd_type = 65 ∨ s.g_cmd_type = 97) → (c = 10 ∨ c = 13) →
      (Pico.cmd_process_char env debug_lines now_us c s).out
        = s.out ++ ["WARN:ECDSA keys not configured", "AUTH_ERR:ECDSA not ready"] ∧
      (Pico.cmd_process_char env debug_lines now_us c s).sign_calls = s.sign_calls ∧
      (Pico.cmd_process_char env debug_lines now_us c s).g_ecdsa_initialized = false) ∧
    (∀ (attempts : List (List Nat × Nat)),
      (Pico.auth_attempts env attempts s).g_ecdsa_initialized = false ∧
      (Pico.auth_attempts env attempts s).sign_calls = s.sign_calls ∧
      (Pico.auth_attempts env attempts s).out
        = s.out ++ (attempts.map (fun _ =>
            ["WARN:ECDSA keys not configured", "AUTH_ERR:ECDSA not ready"])).flatten) := by
  refine ⟨?_, ?_, ?_, ?_, ?_⟩
  · rw [Pico.ecdsa_init_placeholder env hkey s hinit]
  · rw [Pico.ecdsa_init_placeholder env hkey s hinit]
    simpa [Pico.State.print] using hinit
  · intro nonce_hex nonce_len
    have h := Pico.sign_challenge_placeholder env hkey s hinit nonce_hex nonce_len
    refine ⟨h, ?_, ?_⟩
    · rw [h]; simp [Pico.State.print]
    · rw [h]; simpa [Pico.State.print] using hinit
  · intro debug_lines now_us c htype hc
    have hne : s.g_cmd_type ≠ 0 := by omega
    have hN : ¬ (s.g_cmd_type = 78 ∨ s.g_cmd_type = 110) := by omega
    have hW : ¬ (s.g_cmd_type = 87 ∨ s.g_cmd_type = 119) := by omega
    have h := Pico.sign_challenge_placeholder env hkey
      { s with g_cmd_buffer := s.g_cmd_buffer.set s.g_cmd_pos 0 } hinit
      (s.g_cmd_buffer.set s.g_cmd_pos 0) s.g_cmd_pos
    simp only [Pico.cmd_process_char, hne, hc, Pico.cmd_dispatch, hN, hW, htype, ne_eq,
      not_false_eq_true, if_true, if_false, h]
    simp [Pico.State.print, hinit]
  · intro attempts
    exact Pico.auth_attempts_placeholder env hkey attempts s hinit

/-- C3 at boot: with the placeholder key, three `A` attempts (an empty payload, a
short one and 64 hex digits) from the initial state leave the flag false, make
no signing call and print the same two lines each time. -/
theorem C3_placeholder_key_never_signs_witness :
    Pico.placeholder_env.ECDSA_PRIVATE_KEY = List.replicate 32 0 ∧
    (Pico.State.init "" []).g_ecdsa_initialized = false ∧
    (Pico.auth_attempts Pico.placeholder_env
        [([], 0), ([49, 50], 2), (List.replicate 64 97, 64)]
        (Pico.State.init "" [])).sign_calls = 0 ∧
    (Pico.auth_attempts Pico.placeholder_env
        [([], 0), ([49, 50], 2), (List.replicate 64 97, 64)]
        (Pico.State.init "" [])).out
      = ["WARN:ECDSA keys not configured", "AUTH_ERR:ECDSA not ready",
         "WARN:ECDSA keys not configured", "AUTH_ERR:ECDSA not ready",
         "WARN:ECDSA keys not configured", "AUTH_ERR:ECDSA not ready"] := by
  have h := (C3_placeholder_key_never_signs Pico.placeholder_env rfl
    (Pico.State.init "" []) rfl).2.2.2.2 [([], 0), ([49, 50], 2), (List.replicate 64 97, 64)]
  exact ⟨rfl, rfl, h.2.1, h.2.2⟩

theorem Pico.sign_checked_wrong_length (env : Pico.CryptoEnv) (nonce_hex : List Nat)
    (nonce_len : Nat) (s : Pico.State) (hlen : nonce_len ≠ 64) :
    Pico.ecdsa_sign_checked env nonce_hex nonce_len s
      = s.print "AUTH_ERR:Invalid nonce length" := by
  simp [Pico.ecdsa_sign_checked, hlen]

theorem Pico.ecdsa_init_true (env : Pico.CryptoEnv) (s : Pico.State)
    (h : (Pico.ecdsa_init env s).1 = true) :
    (Pico.ecdsa_init env s).2 = { s with g_ecdsa_initialized := true } := by
  unfold Pico.ecdsa_init at h ⊢
  generalize ((List.range 32).all fun i => env.ECDSA_PRIVATE_KEY.getD i 0 == 0) = kz at h ⊢
  by_cases hi : s.g_ecdsa_initialized = true
  · simp only [hi, if_true]
    cases s
    simp_all
  · cases kz
    · by_cases h1 : env.ctr_drbg_seed_ret = 0 <;>
      by_cases h2 : env.ecp_read_key_ret = 0 <;>
      by_cases h3 : env.keypair_calc_public_ret = 0 <;>
      simp_all
    · simp_all

theorem Pico.ecdsa_init_fst_congr (env : Pico.CryptoEnv) (s t : Pico.State)
    (h : s.g_ecdsa_initialized = t.g_ecdsa_initialized) :
    (Pico.ecdsa_init env s).1 = (Pico.ecdsa_init env t).1 := by
  unfold Pico.ecdsa_init
  rw [h]
  dsimp only
  split_ifs <;> rfl

/-- C4 (as amended): with a configured key (initialisation has succeeded or
succeeds now), for every payload collected after `A` whose length is not 64 the
line terminator makes the Auth handler print exactly `AUTH_ERR:Invalid nonce
length` and make no signing call. -/
theorem C4_auth_wrong_length (env : Pico.CryptoEnv) (debug_lines : List String)
    (now_us c : Nat) (s : Pico.State)
    (htype : s.g_cmd_type = 65 ∨ s.g_cmd_type = 97) (hc : c = 10 ∨ c = 13)
    (hkey : (Pico.ecdsa_init env s).1 = true)
    (hlen : s.g_cmd_pos ≠ 64) :
    (Pico.cmd_process_char env debug_lines now_us c s).out
      = s.out ++ ["AUTH_ERR:Invalid nonce length"] ∧
    (Pico.cmd_process_char env debug_lines now_us c s).sign_calls = s.sign_calls := by
  have hne : s.g_cmd_type ≠ 0 := by omega
  have hN : ¬ (s.g_cmd_type = 78 ∨ s.g_cmd_type = 110) := by omega
  have hW : ¬ (s.g_cmd_type = 87 ∨ s.g_cmd_type = 119) := by omega
  have hkey2 : (Pico.ecdsa_init env
      { s with g_cmd_buffer := s.g_cmd_buffer.set s.g_cmd_pos 0 }).1 = true := by
    rw [← hkey]
    exact Pico.ecdsa_init_fst_congr env _ _ rfl
  have hst := Pico.ecdsa_init_true env _ hkey2
  simp only [Pico.cmd_process_char, hne, hc, Pico.cmd_dispatch, hN, hW, htype, ne_eq,
    not_false_eq_true, if_true, if_false, Pico.ecdsa_sign_challenge, hkey2, hst,
    Bool.not_true, Bool.false_eq_true]
  split <;> simp [Pico.sign_checked_wrong_length, hlen, Pico.State.print]

/-- C4 on concrete runs from boot with a configured key: a 3-character payload
and a 65-character payload are both rejected with `AUTH_ERR:Invalid nonce
length` and no signing call. -/
theorem C4_auth_wrong_length_witness :
    (Pico.cmd_process_chars Pico.configured_env []
        (Pico.line 65 [49, 50, 51]) (Pico.State.init "" [])).out
      = ["AUTH_ERR:Invalid nonce length"] ∧
    (Pico.cmd_process_chars Pico.configured_env []
        (Pico.line 65 [49, 50, 51]) (Pico.State.init "" [])).sign_calls = 0 := by
  have h := C4_auth_wrong_length Pico.configured_env [] 0 10
    (Pico.cmd_process_chars Pico.configured_env []
      ((Pico.line 65 [49, 50, 51]).take 4) (Pico.State.init "" []))
    (Or.inl rfl) (Or.inl rfl) rfl (by decide)
  exact h

set_option maxRecDepth 20000 in
/-- C4 as stated fails for a payload of length 64 that is not hexadecimal: with a
configured key, `A` followed by 64 letters `G` and a newline reaches the signing
call (one call is made) and the reply is `AUTH_OK:...`, not an `AUTH_ERR`. -/
theorem C4_counterexample :
    (Pico.cmd_process_chars Pico.configured_env []
        (Pico.line 65 (List.replicate 64 71)) (Pico.State.init "" [])).sign_calls = 1 ∧
    (Pico.cmd_process_chars Pico.configured_env []
        (Pico.line 65 (List.replicate 64 71)) (Pico.State.init "" [])).out = ["AUTH_OK:ab"] := by
  constructor
  · rfl
  · decide

/-! ## Lemmas about the string functions -/

namespace CLib

theorem strncpy_bytes_length (src : List Nat) (n : Nat) : (strncpy_bytes src n).length = n := by
  induction n generalizing src with
  | zero => simp [strncpy_bytes]
  | succ k ih =>
    cases src with
    | nil => simp [strncpy_bytes]
    | cons c cs =>
      by_cases hc : c = 0
      · simp [strncpy_bytes, hc]
      · simp [strncpy_bytes, hc, ih]

theorem strncmp_strncpy_bytes (src t b : List Nat) (n : Nat) :
    strncmp (strncpy_bytes src n ++ t) b n = strncmp src b n := by
  induction n generalizing src b with
  | zero => simp [strncmp]
  | succ k ih =>
    cases src with
    | nil => simp [strncmp, strncpy_bytes, List.replicate_succ]
    | cons c cs =>
      by_cases hc : c = 0
      · simp [strncmp, strncpy_bytes, hc, List.replicate_succ]
      · simp [strncmp, strncpy_bytes, hc, ih]

theorem strncpy_bytes_idem (src t : List Nat) (n : Nat) :
    strncpy_bytes (strncpy_bytes src n ++ t) n = strncpy_bytes src n := by
  induction n generalizing src with
  | zero => simp [strncpy_bytes]
  | succ k ih =>
    cases src with
    | nil => simp [strncpy_bytes, List.replicate_succ]
    | cons c cs =>
      by_cases hc : c = 0
      · simp [strncpy_bytes, hc, List.replicate_succ]
      · simp [strncpy_bytes, hc, ih]

theorem strncmp_of_take_eq (a b : List Nat) (n : Nat) (h : a.take n = b.take n) :
    strncmp a b n = 0 := by
  induction n generalizing a b with
  | zero => simp [strncmp]
  | succ k ih =>
    cases a with
    | nil =>
      cases b with
      | nil => simp [strncmp]
      | cons y ys => simp at h
    | cons x xs =>
      cases b with
      | nil => simp at h
      | cons y ys =>
        simp only [List.take_succ_cons, List.cons.injEq] at h
        obtain ⟨hxy, ht⟩ := h
        subst hxy
        by_cases hx : x = 0
        · simp [strncmp, hx]
        · simp [strncmp, hx, ih xs ys ht]

theorem take_eq_of_strncmp (a b : List Nat) (n : Nat) (h : strncmp a b n = 0)
    (hb : ∀ i, i < n → b.getD i 0 ≠ 0) : a.take n = b.take n := by
  induction n generalizing a b with
  | zero => simp
  | succ k ih =>
    have hb0 := hb 0 (Nat.succ_pos k)
    cases b with
    | nil => simp at hb0
    | cons y ys =>
      have hy : y ≠ 0 := by simpa using hb0
      cases a with
      | nil =>
        simp only [strncmp, List.headD_nil, List.headD_cons] at h
        split at h
        · omega
        · rename_i hne
          simp only [ne_eq, not_not] at hne
          exact absurd hne.symm hy
      | cons x xs =>
        simp only [strncmp, List.headD_cons, List.tail_cons] at h
        split at h
        · omega
        · rename_i hne
          simp only [ne_eq, not_not] at hne
          subst hne
          rw [if_neg hy] at h
          have hrec := ih xs ys h (fun i hi => by
            have := hb (i + 1) (Nat.succ_lt_succ hi)
            simpa using this)
          simp [hrec]

theorem strncpy_bytes_of_nonzero (src : List Nat) (n : Nat)
    (h : ∀ i, i < n → src.getD i 0 ≠ 0) : strncpy_bytes src n = src.take n := by
  induction n generalizing src with
  | zero => simp [strncpy_bytes]
  | succ k ih =>
    have h0 := h 0 (Nat.succ_pos k)
    cases src with
    | nil => simp at h0
    | cons c cs =>
      have hc : c ≠ 0 := by simpa using h0
      simp only [strncpy_bytes, hc, if_false, List.take_succ_cons, List.cons.injEq, true_and]
      exact ih cs (fun i hi => by
        have := h (i + 1) (Nat.succ_lt_succ hi)
        simpa using this)

/-- A local array `char a[n + 1]` after `strncpy(a, src, n); a[n] = 0`. -/
theorem local_copy_eq_gen (src : List Nat) (n : Nat) :
    (strncpy (List.replicate (n + 1) 0) src n).set n 0 = strncpy_bytes src n ++ [0] := by
  have hlen := strncpy_bytes_length src n
  unfold strncpy
  rw [List.set_append_right _ _ (by omega), hlen]
  simp

end CLib

/-! ## Settings change only behind the PIN -/

namespace Pico

open CLib

theorem take_set_ge (l : List Nat) (n m : Nat) (x : Nat) (h : m ≤ n) :
    (l.set n x).take m = l.take m := by
  induction m generalizing l n with
  | zero => simp
  | succ k ih =>
    cases l with
    | nil => simp
    | cons a t =>
      cases n with
      | zero => omega
      | succ j => simp [ih t j (Nat.le_of_succ_le_succ h)]

theorem same_settings_refl (s : State) : same_settings s s := ⟨rfl, rfl, rfl⟩

theorem same_settings_print (s : State) (line : String) : same_settings (s.print line) s :=
  ⟨rfl, rfl, rfl⟩

theorem same_settings_trans {a b c : State} (h1 : same_settings a b) (h2 : same_settings b c) :
    same_settings a c :=
  ⟨h1.1.trans h2.1, h1.2.1.trans h2.2.1, h1.2.2.trans h2.2.2⟩

theorem ecdsa_init_settings (env : CryptoEnv) (s : State) :
    same_settings (ecdsa_init env s).2 s := by
  unfold ecdsa_init
  dsimp only
  split_ifs <;> exact ⟨rfl, rfl, rfl⟩

theorem ecdsa_sign_checked_settings (env : CryptoEnv) (h : List Nat) (n : Nat) (s : State) :
    same_settings (ecdsa_sign_checked env h n s) s := by
  unfold ecdsa_sign_checked
  dsimp only
  split_ifs <;> exact ⟨rfl, rfl, rfl⟩

theorem ecdsa_sign_challenge_settings (env : CryptoEnv) (h : List Nat) (n : Nat) (s : State) :
    same_settings (ecdsa_sign_challenge env h n s) s := by
  unfold ecdsa_sign_challenge
  split_ifs
  · exact same_settings_trans (same_settings_print _ _) (ecdsa_init_settings env s)
  · exact same_settings_trans (ecdsa_sign_checked_settings env h n _) (ecdsa_init_settings env s)
  · exact ecdsa_sign_checked_settings env h n s

theorem cmd_set_rate_settings (s : State) : same_settings (cmd_set_rate s) s := by
  unfold cmd_set_rate
  dsimp only
  split_ifs <;> exact ⟨rfl, rfl, rfl⟩

theorem cmd_single_settings (dbg : List String) (now_ms c : Nat) (s : State) :
    same_settings (cmd_single dbg now_ms c s) s := by
  unfold cmd_single
  dsimp only
  split_ifs <;> exact ⟨rfl, rfl, rfl⟩

theorem pin_verify_local (s : State) (src : List Nat) :
    pin_verify s ((strncpy (List.replicate (DEVICE_PIN_LEN + 1) 0) src DEVICE_PIN_LEN).set
      DEVICE_PIN_LEN 0) = (strncmp src s.g_device_pin 4 == 0) := by
  unfold pin_verify DEVICE_PIN_LEN
  rw [CLib.local_copy_eq_gen _ 4, CLib.strncmp_strncpy_bytes]

theorem cmd_set_name_settings (s : State)
    (h : ¬ (4 ≤ s.g_cmd_pos ∧ strncmp s.g_cmd_buffer s.g_device_pin 4 = 0)) :
    same_settings (cmd_set_name s) s := by
  unfold cmd_set_name
  dsimp only
  rw [pin_verify_local]
  by_cases hpos : s.g_cmd_pos ≥ DEVICE_PIN_LEN
  · have hv : ¬ (strncmp s.g_cmd_buffer s.g_device_pin 4 = 0) := fun hv => h ⟨hpos, hv⟩
    simp only [hpos, if_true, beq_iff_eq, hv, if_false, Bool.false_eq_true]
    exact ⟨rfl, rfl, rfl⟩
  · simp only [hpos, if_false]
    exact ⟨rfl, rfl, rfl⟩

theorem cmd_change_pin_settings (s : State)
    (h : ¬ (4 ≤ s.g_cmd_pos ∧ strncmp s.g_cmd_buffer s.g_device_pin 4 = 0)) :
    same_settings (cmd_change_pin s) s := by
  unfold cmd_change_pin
  dsimp only
  rw [pin_verify_local]
  by_cases hpos : s.g_cmd_pos = DEVICE_PIN_LEN * 2
  · have hb : (strncmp s.g_cmd_buffer s.g_device_pin 4 == 0) = false := by
      simpa using fun hv => h ⟨by rw [hpos]; decide, hv⟩
    rw [if_pos hpos, hb]
    exact ⟨rfl, rfl, rfl⟩
  · simp only [hpos, if_false]
    exact ⟨rfl, rfl, rfl⟩

end Pico

namespace Pico

open CLib

theorem cmd_dispatch_settings (env : CryptoEnv) (s : State)
    (h : (s.g_cmd_type = 78 ∨ s.g_cmd_type = 110 ∨ s.g_cmd_type = 87 ∨ s.g_cmd_type = 119) →
      ¬ (4 ≤ s.g_cmd_pos ∧ strncmp s.g_cmd_buffer s.g_device_pin 4 = 0)) :
    same_settings (cmd_dispatch env s) s := by
  unfold cmd_dispatch
  split_ifs with hN hW hA hF
  · exact cmd_set_name_settings s (h (by omega))
  · exact cmd_change_pin_settings s (h (by omega))
  · exact ecdsa_sign_challenge_settings env _ _ s
  · exact cmd_set_rate_settings s
  · exact same_settings_refl s

theorem cmd_process_char_settings (env : CryptoEnv) (dbg : List String) (now_us c : Nat)
    (s : State) (hpin : ∀ i, i < 4 → s.g_device_pin.getD i 0 ≠ 0)
    (hno : ¬ presents_pin s c) :
    same_settings (cmd_process_char env dbg now_us c s) s := by
  unfold cmd_process_char
  dsimp only
  split_ifs with htype hc hroom
  · have hd := cmd_dispatch_settings env
      { s with g_cmd_buffer := s.g_cmd_buffer.set s.g_cmd_pos 0 } (by
        intro hty hboth
        apply hno
        refine ⟨hty, hc, hboth.1, ?_⟩
        have ht := take_eq_of_strncmp _ _ 4 hboth.2 hpin
        rw [← ht]
        exact (take_set_ge s.g_cmd_buffer s.g_cmd_pos 4 0 hboth.1).symm)
    exact ⟨hd.1, hd.2.1, hd.2.2⟩
  · exact ⟨rfl, rfl, rfl⟩
  · exact ⟨rfl, rfl, rfl⟩
  · exact cmd_single_settings dbg _ c s

theorem cmd_process_chars_settings (env : CryptoEnv) (dbg : List String)
    (inputs : List (Nat × Nat)) (s : State) (hpin : ∀ i, i < 4 → s.g_device_pin.getD i 0 ≠ 0)
    (hno : never_presents_pin env dbg inputs s = true) :
    same_settings (cmd_process_chars env dbg inputs s) s := by
  induction inputs generalizing s with
  | nil => exact same_settings_refl s
  | cons a rest ih =>
    obtain ⟨t, c⟩ := a
    simp only [never_presents_pin, Bool.and_eq_true, Bool.not_eq_true', decide_eq_false_iff_not]
      at hno
    obtain ⟨h1, h2⟩ := hno
    have hstep := cmd_process_char_settings env dbg t c s hpin h1
    have hpin2 : ∀ i, i < 4 → (cmd_process_char env dbg t c s).g_device_pin.getD i 0 ≠ 0 := by
      rw [hstep.2.1]
      exact hpin
    exact same_settings_trans (ih _ hpin2 h2) hstep

end Pico

/-- C5: for every state whose PIN is four non-NUL characters and every byte
given to `cmd_process_char`: if the device name, the PIN or the flash settings
sector differs after the step, then the parser was collecting an `N` or `W`
command, the byte was a line terminator, at least four payload bytes were
buffered and the first four equalled the stored PIN. Consequently an input
sequence none of whose bytes completes such a command leaves name, PIN and
flash as they were. -/
theorem C5_settings_change_requires_pin (env : Pico.CryptoEnv) (debug_lines : List String)
    (s : Pico.State) (hpin : ∀ i, i < 4 → s.g_device_pin.getD i 0 ≠ 0) :
    (∀ (now_us c : Nat),
      ((Pico.cmd_process_char env debug_lines now_us c s).g_device_name ≠ s.g_device_name ∨
       (Pico.cmd_process_char env debug_lines now_us c s).g_device_pin ≠ s.g_device_pin ∨
       (Pico.cmd_process_char env debug_lines now_us c s).flash ≠ s.flash) →
      (s.g_cmd_type = 78 ∨ s.g_cmd_type = 110 ∨ s.g_cmd_type = 87 ∨ s.g_cmd_type = 119) ∧
      (c = 10 ∨ c = 13) ∧ 4 ≤ s.g_cmd_pos ∧
      s.g_cmd_buffer.take 4 = s.g_device_pin.take 4) ∧
    (∀ (inputs : List (Nat × Nat)),
      Pico.never_presents_pin env debug_lines inputs s = true →
      (Pico.cmd_process_chars env debug_lines inputs s).g_device_name = s.g_device_name ∧
      (Pico.cmd_process_chars env debug_lines inputs s).g_device_pin = s.g_device_pin ∧
      (Pico.cmd_process_chars env debug_lines inputs s).flash = s.flash) := by
  constructor
  · intro now_us c hchg
    by_contra hno
    have h := Pico.cmd_process_char_settings env debug_lines now_us c s hpin hno
    rcases hchg with h1 | h1 | h1
    · exact h1 h.1
    · exact h1 h.2.1
    · exact h1 h.2.2
  · intro inputs hno
    exact Pico.cmd_process_chars_settings env debug_lines inputs s hpin hno

set_option maxRecDepth 20000 in
/-- C5 on concrete inputs: after `N0000X` from boot the line terminator changes
the device name, and indeed the buffered payload starts with the stored PIN;
the whole line `N1111X` with a wrong PIN changes neither name, PIN nor flash. -/
theorem C5_settings_change_requires_pin_witness :
    Pico.collecting_name.g_device_pin = [48, 48, 48, 48, 0] ∧
    (Pico.cmd_process_char Pico.configured_env [] 0 10 Pico.collecting_name).g_device_name
      ≠ Pico.collecting_name.g_device_name ∧
    Pico.collecting_name.g_cmd_buffer.take 4 = Pico.collecting_name.g_device_pin.take 4 ∧
    (Pico.cmd_process_chars Pico.configured_env [] (Pico.line 78 [49, 49, 49, 49, 88])
      Pico.boot).flash = Pico.boot.flash := by
  have hpin : ∀ i, i < 4 → Pico.collecting_name.g_device_pin.getD i 0 ≠ 0 := by decide
  have hchg : (Pico.cmd_process_char Pico.configured_env [] 0 10
      Pico.collecting_name).g_device_name ≠ Pico.collecting_name.g_device_name := by decide
  have h1 := (C5_settings_change_requires_pin Pico.configured_env [] Pico.collecting_name
    hpin).1 0 10 (Or.inl hchg)
  have h2 := (C5_settings_change_requires_pin Pico.configured_env [] Pico.boot
    (by decide)).2 (Pico.line 78 [49, 49, 49, 49, 88]) (by decide)
  exact ⟨by decide, hchg, h1.2.2.2, h2.2.2⟩

/-! ## Changing the PIN -/

namespace CLib

theorem array_copy_eq (dst src : List Nat) (n : Nat) (hdst : dst.length = n + 1) :
    (strncpy dst src n).set n 0 = strncpy_bytes src n ++ [0] := by
  have hlen := strncpy_bytes_length src n
  unfold strncpy
  rw [List.set_append_right _ _ (by omega), hlen]
  have hd : (dst.drop n).length = 1 := by simp [hdst]
  match hm : dst.drop n, hd with
  | [x], _ => simp

theorem list_length_four (q : List Nat) (h : q.length = 4) :
    ∃ a b c d, q = [a, b, c, d] := by
  match q, h with
  | [a, b, c, d], _ => exact ⟨a, b, c, d, rfl⟩

end CLib

namespace Pico

open CLib

theorem flash_save_settings_flash (s : State) :
    (flash_save_settings s).flash
      = settings_sector (strncpy_bytes s.g_device_pin 4 ++ [0])
          (strncpy_bytes s.g_device_name 24 ++ [0]) := by
  unfold flash_save_settings settings_sector device_settings_t.bytes
  simp only [DEVICE_PIN_LEN, DEVICE_NAME_MAX_LEN, FLASH_PAGE_SIZE, FLASH_SECTOR_SIZE]
  rw [local_copy_eq_gen _ 4, local_copy_eq_gen _ 24]
  rw [List.length_replicate, List.drop_replicate]

theorem flash_save_settings_other (s : State) :
    (flash_save_settings s).g_device_pin = s.g_device_pin ∧
    (flash_save_settings s).g_device_name = s.g_device_name ∧
    (flash_save_settings s).out = s.out := ⟨rfl, rfl, rfl⟩

theorem pin_is_valid_format_iff (pin : List Nat) :
    pin_is_valid_format pin = true ↔ ∀ i, i < 4 → 48 ≤ pin.getD i 0 ∧ pin.getD i 0 ≤ 57 := by
  unfold pin_is_valid_format DEVICE_PIN_LEN
  simp only [List.all_eq_true, List.mem_range, Bool.not_eq_true', Bool.or_eq_false_iff,
    decide_eq_false_iff_not, not_lt]

end Pico

namespace Pico

open CLib

theorem cmd_change_pin_accept (s : State) (hpos : s.g_cmd_pos = 8)
    (hv : strncmp s.g_cmd_buffer s.g_device_pin 4 = 0)
    (hfmt : pin_is_valid_format (strncpy_bytes (s.g_cmd_buffer.drop 4) 4 ++ [0]) = true) :
    cmd_change_pin s
      = (device_set_pin s (strncpy_bytes (s.g_cmd_buffer.drop 4) 4 ++ [0])).print
          "INFO:PIN changed" := by
  unfold cmd_change_pin
  dsimp only
  rw [pin_verify_local]
  simp only [DEVICE_PIN_LEN] at *
  rw [local_copy_eq_gen _ 4, if_pos hpos, hv, hfmt]
  rfl

theorem device_set_pin_pin (s : State) (pin : List Nat) (hlen : s.g_device_pin.length = 5) :
    (device_set_pin s pin).g_device_pin = strncpy_bytes pin 4 ++ [0] := by
  unfold device_set_pin
  dsimp only
  rw [(flash_save_settings_other _).1]
  simp only [DEVICE_PIN_LEN]
  exact array_copy_eq _ _ 4 hlen

theorem device_set_pin_flash (s : State) (pin : List Nat) (hlen : s.g_device_pin.length = 5) :
    (device_set_pin s pin).flash
      = settings_sector (strncpy_bytes pin 4 ++ [0]) (strncpy_bytes s.g_device_name 24 ++ [0]) := by
  unfold device_set_pin
  dsimp only
  rw [flash_save_settings_flash]
  dsimp only [DEVICE_PIN_LEN]
  rw [array_copy_eq _ _ 4 hlen, strncpy_bytes_idem]

theorem digits_payload (q : List Nat) (rest : List Nat) (hq : q.length = 4)
    (hdig : ∀ x, x ∈ q → 48 ≤ x ∧ x ≤ 57) :
    strncpy_bytes (q ++ rest) 4 = q := by
  obtain ⟨a, b, c, d, rfl⟩ := list_length_four q hq
  have ha := hdig a (by simp)
  have hb := hdig b (by simp)
  have hc := hdig c (by simp)
  have hd := hdig d (by simp)
  have ha0 : a ≠ 0 := by omega
  have hb0 : b ≠ 0 := by omega
  have hc0 : c ≠ 0 := by omega
  have hd0 : d ≠ 0 := by omega
  simp [strncpy_bytes, ha0, hb0, hc0, hd0]

theorem pin_verify_digits (s : State) (q : List Nat) (hq : q.length = 4)
    (hdig : ∀ x, x ∈ q → 48 ≤ x ∧ x ≤ 57) (hpin : s.g_device_pin = q ++ [0]) (x : List Nat) :
    pin_verify s x = true ↔ x.take 4 = q := by
  unfold pin_verify DEVICE_PIN_LEN
  rw [hpin, beq_iff_eq]
  have hq4 : (q ++ [0]).take 4 = q := by
    rw [List.take_append_of_le_length (by omega), List.take_of_length_le (by omega)]
  constructor
  · intro h
    have ht := take_eq_of_strncmp x (q ++ [0]) 4 h (by
      intro i hi
      obtain ⟨a, b, c, d, rfl⟩ := list_length_four q hq
      have ha := hdig a (by simp)
      have hb := hdig b (by simp)
      have hc := hdig c (by simp)
      have hd := hdig d (by simp)
      match i, hi with
      | 0, _ => simp; omega
      | 1, _ => simp; omega
      | 2, _ => simp; omega
      | 3, _ => simp; omega)
    rw [ht, hq4]
  · intro h
    exact strncmp_of_take_eq _ _ 4 (by rw [h, hq4])

end Pico

namespace Pico

open CLib

theorem cmd_process_char_W (env : CryptoEnv) (dbg : List String) (now_us c : Nat) (s : State)
    (htype : s.g_cmd_type = 87 ∨ s.g_cmd_type = 119) (hc : c = 10 ∨ c = 13) :
    cmd_process_char env dbg now_us c s
      = { cmd_change_pin { s with g_cmd_buffer := s.g_cmd_buffer.set s.g_cmd_pos 0 } with
          g_cmd_type := 0, g_cmd_pos := 0 } := by
  have hne : s.g_cmd_type ≠ 0 := by omega
  have hN : ¬ (s.g_cmd_type = 78 ∨ s.g_cmd_type = 110) := by omega
  simp only [cmd_process_char, hne, hc, cmd_dispatch, hN, htype, ne_eq, not_false_eq_true,
    if_true, if_false]

theorem cmd_process_char_N (env : CryptoEnv) (dbg : List String) (now_us c : Nat) (s : State)
    (htype : s.g_cmd_type = 78 ∨ s.g_cmd_type = 110) (hc : c = 10 ∨ c = 13) :
    cmd_process_char env dbg now_us c s
      = { cmd_set_name { s with g_cmd_buffer := s.g_cmd_buffer.set s.g_cmd_pos 0 } with
          g_cmd_type := 0, g_cmd_pos := 0 } := by
  have hne : s.g_cmd_type ≠ 0 := by omega
  simp only [cmd_process_char, hne, hc, cmd_dispatch, htype, ne_eq, not_false_eq_true,
    if_true, if_false]

theorem cmd_process_char_F (env : CryptoEnv) (dbg : List String) (now_us c : Nat) (s : State)
    (htype : s.g_cmd_type = 70 ∨ s.g_cmd_type = 102) (hc : c = 10 ∨ c = 13) :
    cmd_process_char env dbg now_us c s
      = { cmd_set_rate { s with g_cmd_buffer := s.g_cmd_buffer.set s.g_cmd_pos 0 } with
          g_cmd_type := 0, g_cmd_pos := 0 } := by
  have hne : s.g_cmd_type ≠ 0 := by omega
  have hN : ¬ (s.g_cmd_type = 78 ∨ s.g_cmd_type = 110) := by omega
  have hW : ¬ (s.g_cmd_type = 87 ∨ s.g_cmd_type = 119) := by omega
  have hA : ¬ (s.g_cmd_type = 65 ∨ s.g_cmd_type = 97) := by omega
  simp only [cmd_process_char, hne, hc, cmd_dispatch, hN, hW, hA, htype, ne_eq,
    not_false_eq_true, if_true, if_false]

/-- The buffer of a state whose first eight buffered bytes are `p ++ q`, after
the terminating NUL was stored at position 8. -/
theorem payload_split (buf p q : List Nat) (hp : p.length = 4)
    (h : buf.take 8 = p ++ q) :
    (buf.set 8 0).take 4 = p ∧ (buf.set 8 0).drop 4 = q ++ (buf.set 8 0).drop 8 := by
  have h8 : (buf.set 8 0).take 8 = p ++ q := by rw [take_set_ge _ _ _ _ (le_refl 8), h]
  have hsplit : buf.set 8 0 = (p ++ q) ++ (buf.set 8 0).drop 8 := by
    rw [← h8, List.take_append_drop]
  constructor
  · rw [hsplit, List.append_assoc, List.take_append_of_le_length (by omega),
      List.take_of_length_le (by omega)]
  · conv_lhs => rw [hsplit]
    rw [List.append_assoc, List.drop_append_of_le_length (by omega),
      List.drop_of_length_le (by omega), List.nil_append]

end Pico

/-- C6: for every current PIN (the first four characters of the 5-byte PIN
array) and every four ASCII digits `q`: if the parser is collecting `W` and the
buffered payload is exactly the eight characters PIN followed by `q`, then the
line terminator makes the stored PIN `q` with its terminator, rewrites the flash
record with `q`, prints exactly `INFO:PIN changed`, leaves the device name
unchanged, and afterwards `pin_verify(x)` holds exactly for the `x` whose first
four characters are `q`. -/
theorem C6_change_pin_accepted (env : Pico.CryptoEnv) (debug_lines : List String)
    (now_us c : Nat) (s : Pico.State) (q : List Nat)
    (htype : s.g_cmd_type = 87 ∨ s.g_cmd_type = 119) (hc : c = 10 ∨ c = 13)
    (hpinlen : s.g_device_pin.length = 5)
    (hq : q.length = 4) (hdig : ∀ x, x ∈ q → 48 ≤ x ∧ x ≤ 57)
    (hpos : s.g_cmd_pos = 8)
    (hpayload : s.g_cmd_buffer.take 8 = s.g_device_pin.take 4 ++ q) :
    (Pico.cmd_process_char env debug_lines now_us c s).g_device_pin = q ++ [0] ∧
    (Pico.cmd_process_char env debug_lines now_us c s).flash
      = Pico.settings_sector (q ++ [0]) (CLib.strncpy_bytes s.g_device_name 24 ++ [0]) ∧
    (Pico.cmd_process_char env debug_lines now_us c s).out = s.out ++ ["INFO:PIN changed"] ∧
    (Pico.cmd_process_char env debug_lines now_us c s).g_device_name = s.g_device_name ∧
    (∀ x : List Nat,
      Pico.pin_verify (Pico.cmd_process_char env debug_lines now_us c s) x = true
        ↔ x.take 4 = q) := by
  have hp : (s.g_device_pin.take 4).length = 4 := by simp [hpinlen]
  obtain ⟨h4, hdrop⟩ := Pico.payload_split s.g_cmd_buffer _ q hp hpayload
  have hv : CLib.strncmp (s.g_cmd_buffer.set 8 0) s.g_device_pin 4 = 0 :=
    CLib.strncmp_of_take_eq _ _ 4 h4
  have hnew : CLib.strncpy_bytes ((s.g_cmd_buffer.set 8 0).drop 4) 4 = q := by
    rw [hdrop]
    exact Pico.digits_payload q _ hq hdig
  have hq0 : CLib.strncpy_bytes (q ++ [0]) 4 = q := Pico.digits_payload q _ hq hdig
  have hfmt : Pico.pin_is_valid_format (q ++ [0]) = true := by
    rw [Pico.pin_is_valid_format_iff]
    intro i hi
    obtain ⟨a, b, c, d, rfl⟩ := CLib.list_length_four q hq
    have ha := hdig a (by simp)
    have hb := hdig b (by simp)
    have hc := hdig c (by simp)
    have hd := hdig d (by simp)
    match i, hi with
    | 0, _ => simpa using ha
    | 1, _ => simpa using hb
    | 2, _ => simpa using hc
    | 3, _ => simpa using hd
  have hstep := Pico.cmd_process_char_W env debug_lines now_us c s htype hc
  have hacc := Pico.cmd_change_pin_accept
    { s with g_cmd_buffer := s.g_cmd_buffer.set s.g_cmd_pos 0 } hpos
    (by simpa [hpos] using hv) (by simpa [hpos, hnew] using hfmt)
  have hpin' : (Pico.cmd_process_char env debug_lines now_us c s).g_device_pin = q ++ [0] := by
    rw [hstep, hacc]
    have := Pico.device_set_pin_pin
      { s with g_cmd_buffer := s.g_cmd_buffer.set s.g_cmd_pos 0 }
      (CLib.strncpy_bytes ((s.g_cmd_buffer.set s.g_cmd_pos 0).drop 4) 4 ++ [0]) hpinlen
    simp only [hpos, hnew, hq0] at this
    simpa [Pico.State.print, hpos, hnew] using this
  refine ⟨hpin', ?_, ?_, ?_, ?_⟩
  · rw [hstep, hacc]
    have := Pico.device_set_pin_flash
      { s with g_cmd_buffer := s.g_cmd_buffer.set s.g_cmd_pos 0 }
      (CLib.strncpy_bytes ((s.g_cmd_buffer.set s.g_cmd_pos 0).drop 4) 4 ++ [0]) hpinlen
    simp only [hpos, hnew, hq0] at this
    simpa [Pico.State.print, hpos, hnew] using this
  · rw [hstep, hacc]
    rfl
  · rw [hstep, hacc]
    rfl
  · intro x
    exact Pico.pin_verify_digits _ q hq hdig hpin' x

set_option maxRecDepth 20000 in
/-- C6 on a concrete run: after `W00001234` from boot (default PIN `0000`), the
newline makes the PIN `1234`, prints `INFO:PIN changed`, and afterwards `1234`
verifies while `0000` no longer does. -/
theorem C6_change_pin_accepted_witness :
    (Pico.cmd_process_char Pico.configured_env [] 0 10 Pico.collecting_pin_change).g_device_pin
      = [49, 50, 51, 52, 0] ∧
    (Pico.cmd_process_char Pico.configured_env [] 0 10 Pico.collecting_pin_change).out
      = ["INFO:PIN changed"] ∧
    Pico.pin_verify (Pico.cmd_process_char Pico.configured_env [] 0 10 Pico.collecting_pin_change)
      [49, 50, 51, 52] = true ∧
    Pico.pin_verify (Pico.cmd_process_char Pico.configured_env [] 0 10 Pico.collecting_pin_change)
      [48, 48, 48, 48] = false := by
  have h := C6_change_pin_accepted Pico.configured_env [] 0 10 Pico.collecting_pin_change
    [49, 50, 51, 52] (by decide) (by decide) (by decide) (by decide) (by decide) (by decide)
    (by decide)
  refine ⟨h.1, h.2.2.1, (h.2.2.2.2 _).mpr (by decide), ?_⟩
  have hn := (h.2.2.2.2 [48, 48, 48, 48]).not.mpr (by decide)
  simpa using hn

/-! ## Rejected PIN changes -/

namespace CLib

theorem nonzero_of_strncpy_bytes (src : List Nat) (n : Nat)
    (h : ∀ i, i < n → (strncpy_bytes src n).getD i 0 ≠ 0) :
    ∀ i, i < n → src.getD i 0 ≠ 0 := by
  induction n generalizing src with
  | zero => intro i hi; omega
  | succ k ih =>
    have h0 := h 0 (Nat.succ_pos k)
    cases src with
    | nil => simp [strncpy_bytes, List.replicate_succ] at h0
    | cons c cs =>
      by_cases hc : c = 0
      · simp [strncpy_bytes, hc, List.replicate_succ] at h0
      · intro i hi
        cases i with
        | zero => simpa using hc
        | succ j =>
          have hrec := ih cs (fun m hm => by
            have := h (m + 1) (Nat.succ_lt_succ hm)
            simpa [strncpy_bytes, hc] using this) j (Nat.lt_of_succ_lt_succ hi)
          simpa using hrec

end CLib

namespace Pico

open CLib

theorem valid_format_copy (src : List Nat)
    (h : pin_is_valid_format (strncpy_bytes src 4 ++ [0]) = true) :
    ∀ i, i < 4 → 48 ≤ src.getD i 0 ∧ src.getD i 0 ≤ 57 := by
  rw [pin_is_valid_format_iff] at h
  have hlen := strncpy_bytes_length src 4
  have hX : ∀ i, i < 4 → 48 ≤ (strncpy_bytes src 4).getD i 0 ∧
      (strncpy_bytes src 4).getD i 0 ≤ 57 := by
    intro i hi
    have := h i hi
    rwa [List.getD_append _ _ _ _ (by omega)] at this
  have hnz := nonzero_of_strncpy_bytes src 4 (fun i hi => by have := hX i hi; omega)
  have heq := strncpy_bytes_of_nonzero src 4 hnz
  intro i hi
  have := hX i hi
  rw [heq] at this
  simpa [List.getD_eq_getElem?_getD, List.getElem?_take, hi] using this

theorem cmd_change_pin_wrong (s : State) (hpos : s.g_cmd_pos = 8)
    (hv : strncmp s.g_cmd_buffer s.g_device_pin 4 ≠ 0) :
    cmd_change_pin s = s.print "ERR:Wrong PIN" := by
  unfold cmd_change_pin
  dsimp only
  rw [pin_verify_local]
  have hb : (strncmp s.g_cmd_buffer s.g_device_pin 4 == 0) = false := by simpa using hv
  simp only [DEVICE_PIN_LEN] at *
  rw [if_pos hpos, hb]
  rfl

theorem cmd_change_pin_malformed (s : State) (hpos : s.g_cmd_pos = 8)
    (hv : strncmp s.g_cmd_buffer s.g_device_pin 4 = 0)
    (hfmt : pin_is_valid_format (strncpy_bytes (s.g_cmd_buffer.drop 4) 4 ++ [0]) = false) :
    cmd_change_pin s = s.print "ERR:PIN must be 4 digits" := by
  unfold cmd_change_pin
  dsimp only
  rw [pin_verify_local]
  simp only [DEVICE_PIN_LEN] at *
  rw [local_copy_eq_gen _ 4, if_pos hpos, hv, hfmt]
  rfl

end Pico

/-- C7: while the parser is collecting `W` with eight bytes buffered, at the line
terminator: if the stored PIN is four non-NUL characters and the first four
buffered bytes differ from it, then PIN, device name and flash are unchanged and
the only reply is `ERR:Wrong PIN`, whatever the last four bytes are; if the
first four bytes equal the stored PIN but one of the last four is not an ASCII
digit, PIN, name and flash are likewise unchanged and the only reply is
`ERR:PIN must be 4 digits`. -/
theorem C7_change_pin_rejected (env : Pico.CryptoEnv) (debug_lines : List String)
    (now_us c : Nat) (s : Pico.State)
    (htype : s.g_cmd_type = 87 ∨ s.g_cmd_type = 119) (hc : c = 10 ∨ c = 13)
    (hpos : s.g_cmd_pos = 8) :
    ((∀ i, i < 4 → s.g_device_pin.getD i 0 ≠ 0) →
      s.g_cmd_buffer.take 4 ≠ s.g_device_pin.take 4 →
      (Pico.cmd_process_char env debug_lines now_us c s).out = s.out ++ ["ERR:Wrong PIN"] ∧
      (Pico.cmd_process_char env debug_lines now_us c s).g_device_pin = s.g_device_pin ∧
      (Pico.cmd_process_char env debug_lines now_us c s).g_device_name = s.g_device_name ∧
      (Pico.cmd_process_char env debug_lines now_us c s).flash = s.flash) ∧
    (s.g_cmd_buffer.take 4 = s.g_device_pin.take 4 →
      (∃ i, i < 4 ∧ ¬ (48 ≤ s.g_cmd_buffer.getD (4 + i) 0 ∧ s.g_cmd_buffer.getD (4 + i) 0 ≤ 57)) →
      (Pico.cmd_process_char env debug_lines now_us c s).out
        = s.out ++ ["ERR:PIN must be 4 digits"] ∧
      (Pico.cmd_process_char env debug_lines now_us c s).g_device_pin = s.g_device_pin ∧
      (Pico.cmd_process_char env debug_lines now_us c s).g_device_name = s.g_device_name ∧
      (Pico.cmd_process_char env debug_lines now_us c s).flash = s.flash) := by
  have hstep := Pico.cmd_process_char_W env debug_lines now_us c s htype hc
  have htake : (s.g_cmd_buffer.set s.g_cmd_pos 0).take 4 = s.g_cmd_buffer.take 4 :=
    Pico.take_set_ge _ _ _ _ (by omega)
  constructor
  · intro hpin hdiff
    have hv : CLib.strncmp (s.g_cmd_buffer.set s.g_cmd_pos 0) s.g_device_pin 4 ≠ 0 := by
      intro h0
      apply hdiff
      rw [← htake]
      exact CLib.take_eq_of_strncmp _ _ 4 h0 hpin
    have hw := Pico.cmd_change_pin_wrong
      { s with g_cmd_buffer := s.g_cmd_buffer.set s.g_cmd_pos 0 } hpos hv
    rw [hstep, hw]
    exact ⟨rfl, rfl, rfl, rfl⟩
  · intro hsame hbad
    have hv : CLib.strncmp (s.g_cmd_buffer.set s.g_cmd_pos 0) s.g_device_pin 4 = 0 :=
      CLib.strncmp_of_take_eq _ _ 4 (by rw [htake, hsame])
    have hfmt : Pico.pin_is_valid_format
        (CLib.strncpy_bytes ((s.g_cmd_buffer.set s.g_cmd_pos 0).drop 4) 4 ++ [0]) = false := by
      rw [Bool.eq_false_iff]
      intro hvalid
      obtain ⟨i, hi, hnd⟩ := hbad
      apply hnd
      have := Pico.valid_format_copy _ hvalid i hi
      rw [List.getD_eq_getElem?_getD, List.getElem?_drop,
        List.getElem?_set_ne (by omega)] at this
      rw [List.getD_eq_getElem?_getD]
      exact this
    have hm := Pico.cmd_change_pin_malformed
      { s with g_cmd_buffer := s.g_cmd_buffer.set s.g_cmd_pos 0 } hpos hv hfmt
    rw [hstep, hm]
    exact ⟨rfl, rfl, rfl, rfl⟩

set_option maxRecDepth 20000 in
/-- C7 on concrete runs from boot (PIN `0000`): `W1111abcd` is answered with
`ERR:Wrong PIN` only, `W000012a4` with `ERR:PIN must be 4 digits` only, and the
PIN stays `0000` in both. -/
theorem C7_change_pin_rejected_witness :
    (Pico.cmd_process_char Pico.configured_env [] 0 10 Pico.collecting_wrong_pin).out
      = ["ERR:Wrong PIN"] ∧
    (Pico.cmd_process_char Pico.configured_env [] 0 10 Pico.collecting_wrong_pin).g_device_pin
      = [48, 48, 48, 48, 0] ∧
    (Pico.cmd_process_char Pico.configured_env [] 0 10 Pico.collecting_bad_new_pin).out
      = ["ERR:PIN must be 4 digits"] ∧
    (Pico.cmd_process_char Pico.configured_env [] 0 10 Pico.collecting_bad_new_pin).g_device_pin
      = [48, 48, 48, 48, 0] := by
  have h1 := (C7_change_pin_rejected Pico.configured_env [] 0 10 Pico.collecting_wrong_pin
    (by decide) (by decide) (by decide)).1 (by decide) (by decide)
  have h2 := (C7_change_pin_rejected Pico.configured_env [] 0 10 Pico.collecting_bad_new_pin
    (by decide) (by decide) (by decide)).2 (by decide) ⟨2, by decide, by decide⟩
  exact ⟨h1.1, h1.2.1, h2.1, h2.2.1⟩

/-! ## The PIN stays four digits -/

namespace Pico

open CLib

theorem cmd_set_name_pin (s : State) : (cmd_set_name s).g_device_pin = s.g_device_pin := by
  unfold cmd_set_name
  dsimp only
  split_ifs <;> rfl

theorem cmd_change_pin_pin_wf (s : State) (h : pin_wf s.g_device_pin) :
    pin_wf (cmd_change_pin s).g_device_pin := by
  unfold cmd_change_pin
  dsimp only
  simp only [DEVICE_PIN_LEN]
  rw [local_copy_eq_gen _ 4, local_copy_eq_gen _ 4]
  split_ifs with hpos hv hfmt
  · exact h
  · exact h
  · have hfmt : pin_is_valid_format (strncpy_bytes (s.g_cmd_buffer.drop 4) 4 ++ [0]) = true := by
      simpa using hfmt
    have hdig := (pin_is_valid_format_iff _).mp hfmt
    have hp := device_set_pin_pin s (strncpy_bytes (s.g_cmd_buffer.drop 4) 4 ++ [0]) h.1
    rw [strncpy_bytes_idem] at hp
    show pin_wf (device_set_pin s _).g_device_pin
    rw [hp]
    have hlen := strncpy_bytes_length (s.g_cmd_buffer.drop 4) 4
    refine ⟨by simp [hlen], hdig, ?_⟩
    rw [List.getD_append_right _ _ _ _ (by omega), hlen]
    rfl
  · exact h

theorem cmd_dispatch_pin_wf (env : CryptoEnv) (s : State) (h : pin_wf s.g_device_pin) :
    pin_wf (cmd_dispatch env s).g_device_pin := by
  unfold cmd_dispatch
  split_ifs
  · rw [cmd_set_name_pin]; exact h
  · exact cmd_change_pin_pin_wf s h
  · rw [(ecdsa_sign_challenge_settings env _ _ s).2.1]; exact h
  · rw [(cmd_set_rate_settings s).2.1]; exact h
  · exact h

theorem cmd_process_char_pin_wf (env : CryptoEnv) (dbg : List String) (now_us c : Nat)
    (s : State) (h : pin_wf s.g_device_pin) :
    pin_wf (cmd_process_char env dbg now_us c s).g_device_pin := by
  unfold cmd_process_char
  dsimp only
  split_ifs
  · exact cmd_dispatch_pin_wf env { s with g_cmd_buffer := s.g_cmd_buffer.set s.g_cmd_pos 0 } h
  · exact h
  · exact h
  · rw [(cmd_single_settings dbg _ c s).2.1]; exact h

end Pico

/-- C8: starting from any state whose PIN array is four ASCII digits followed by
the terminator (such as the default `0000`), after every finite sequence of
bytes fed to `cmd_process_char`, at any clock readings, the stored PIN is still
exactly four ASCII digits followed by the terminator. -/
theorem C8_pin_stays_four_digits (env : Pico.CryptoEnv) (debug_lines : List String)
    (inputs : List (Nat × Nat)) (s : Pico.State) (h : Pico.pin_wf s.g_device_pin) :
    Pico.pin_wf (Pico.cmd_process_chars env debug_lines inputs s).g_device_pin := by
  induction inputs generalizing s with
  | nil => exact h
  | cons a rest ih =>
    obtain ⟨t, c⟩ := a
    exact ih _ (Pico.cmd_process_char_pin_wf env debug_lines t c s h)

/-- C8 on a concrete run: the default PIN is well formed, and so is the PIN
after a session of accepted and rejected commands from boot. -/
theorem C8_pin_stays_four_digits_witness :
    Pico.pin_wf Pico.boot.g_device_pin ∧
    Pico.pin_wf
      (Pico.cmd_process_chars Pico.configured_env [] Pico.pin_session Pico.boot).g_device_pin :=
  ⟨by decide, C8_pin_stays_four_digits Pico.configured_env [] Pico.pin_session Pico.boot
    (by decide)⟩

/-! ## Setting the device name -/

namespace CLib

theorem strlen_append_nul (name rest : List Nat) (h : ∀ x, x ∈ name → x ≠ 0) :
    strlen (name ++ 0 :: rest) = name.length := by
  induction name with
  | nil => simp [strlen]
  | cons c cs ih =>
    have hc : c ≠ 0 := h c (by simp)
    simp [strlen, hc, ih (fun x hx => h x (by simp [hx]))]

theorem strncpy_bytes_append_nul (name rest : List Nat) (n : Nat) (h : ∀ x, x ∈ name → x ≠ 0) :
    strncpy_bytes (name ++ 0 :: rest) n = name.take n ++ List.replicate (n - name.length) 0 := by
  induction n generalizing name with
  | zero => simp [strncpy_bytes]
  | succ k ih =>
    cases name with
    | nil => simp [strncpy_bytes]
    | cons c cs =>
      have hc : c ≠ 0 := h c (by simp)
      simp [strncpy_bytes, hc, ih cs (fun x hx => h x (by simp [hx]))]

theorem cstr_bytes_padded (name pad : List Nat) (h : ∀ x, x ∈ name → x ≠ 0) :
    cstr_bytes (name ++ 0 :: pad) = name := by
  unfold cstr_bytes
  induction name with
  | nil => simp
  | cons c cs ih =>
    have hc : c ≠ 0 := h c (by simp)
    have hb : (c != 0) = true := by simpa using hc
    rw [List.cons_append, List.takeWhile_cons, hb]
    simp only [if_true, List.cons.injEq, true_and]
    exact ih (fun x hx => h x (by simp [hx]))

theorem strlen_le_of_nul (a : List Nat) (n : Nat) (h : a.getD n 0 = 0) : strlen a ≤ n := by
  induction n generalizing a with
  | zero =>
    cases a with
    | nil => simp [strlen]
    | cons c cs =>
      have hc : c = 0 := by simpa using h
      simp [strlen, hc]
  | succ k ih =>
    cases a with
    | nil => simp [strlen]
    | cons c cs =>
      by_cases hc : c = 0
      · simp [strlen, hc]
      · have := ih cs (by simpa using h)
        simp [strlen, hc, this]

theorem strlen_eq_cstr_bytes (a : List Nat) : strlen a = (cstr_bytes a).length := by
  unfold cstr_bytes
  induction a with
  | nil => simp [strlen]
  | cons c cs ih =>
    by_cases hc : c = 0
    · subst hc
      simp [strlen, List.takeWhile_cons]
    · have hb : (c != 0) = true := by simpa using hc
      rw [List.takeWhile_cons, hb]
      simp [strlen, hc, ih]

end CLib

namespace Pico

open CLib

theorem device_set_name_name (s : State) (src : List Nat) (hlen : s.g_device_name.length = 25) :
    (device_set_name s src).g_device_name = strncpy_bytes src 24 ++ [0] := by
  unfold device_set_name
  dsimp only
  rw [(flash_save_settings_other _).2.1]
  simp only [DEVICE_NAME_MAX_LEN]
  exact array_copy_eq _ _ 24 hlen

theorem device_set_name_flash (s : State) (src : List Nat) (hlen : s.g_device_name.length = 25) :
    (device_set_name s src).flash
      = settings_sector (strncpy_bytes s.g_device_pin 4 ++ [0]) (strncpy_bytes src 24 ++ [0]) := by
  unfold device_set_name
  dsimp only
  rw [flash_save_settings_flash]
  dsimp only [DEVICE_NAME_MAX_LEN]
  rw [array_copy_eq _ _ 24 hlen, strncpy_bytes_idem]

theorem cmd_set_name_accept (s : State) (hpos : 4 ≤ s.g_cmd_pos)
    (hv : strncmp s.g_cmd_buffer s.g_device_pin 4 = 0)
    (hlen : strlen (s.g_cmd_buffer.drop 4) > 0) :
    cmd_set_name s = (device_set_name s (s.g_cmd_buffer.drop 4)).print "INFO:Name saved" := by
  unfold cmd_set_name
  dsimp only
  rw [pin_verify_local]
  simp only [DEVICE_PIN_LEN] at *
  rw [if_pos hpos, hv, if_pos hlen]
  rfl

/-- The buffer after the terminating NUL was stored at the write position. -/
theorem name_payload_split (buf : List Nat) (pos : Nat) (hpos4 : 4 ≤ pos)
    (hlt : pos < buf.length) :
    (buf.set pos 0).drop 4 = (buf.take pos).drop 4 ++ 0 :: buf.drop (pos + 1) := by
  rw [List.set_eq_take_append_cons_drop, if_pos hlt,
    List.drop_append_of_le_length (by rw [List.length_take]; omega)]

theorem cmd_change_pin_name (s : State) :
    (cmd_change_pin s).g_device_name = s.g_device_name := by
  unfold cmd_change_pin
  dsimp only
  split_ifs <;> rfl

theorem cmd_set_name_name_wf (s : State) (h : name_wf s.g_device_name) :
    name_wf (cmd_set_name s).g_device_name := by
  unfold cmd_set_name
  dsimp only
  split_ifs
  · show name_wf (device_set_name s _).g_device_name
    rw [device_set_name_name s _ h.1]
    have hlen := strncpy_bytes_length (s.g_cmd_buffer.drop DEVICE_PIN_LEN) 24
    refine ⟨by simp [hlen], ?_⟩
    rw [List.getD_append_right _ _ _ _ (by omega), hlen]
    rfl
  · exact h
  · exact h
  · exact h

theorem cmd_dispatch_name_wf (env : CryptoEnv) (s : State) (h : name_wf s.g_device_name) :
    name_wf (cmd_dispatch env s).g_device_name := by
  unfold cmd_dispatch
  split_ifs
  · exact cmd_set_name_name_wf s h
  · rw [cmd_change_pin_name]; exact h
  · rw [(ecdsa_sign_challenge_settings env _ _ s).1]; exact h
  · rw [(cmd_set_rate_settings s).1]; exact h
  · exact h

theorem cmd_process_char_name_wf (env : CryptoEnv) (dbg : List String) (now_us c : Nat)
    (s : State) (h : name_wf s.g_device_name) :
    name_wf (cmd_process_char env dbg now_us c s).g_device_name := by
  unfold cmd_process_char
  dsimp only
  split_ifs
  · exact cmd_dispatch_name_wf env { s with g_cmd_buffer := s.g_cmd_buffer.set s.g_cmd_pos 0 } h
  · exact h
  · exact h
  · rw [(cmd_single_settings dbg _ c s).1]; exact h

theorem cmd_process_chars_name_wf (env : CryptoEnv) (dbg : List String)
    (inputs : List (Nat × Nat)) (s : State) (h : name_wf s.g_device_name) :
    name_wf (cmd_process_chars env dbg inputs s).g_device_name := by
  induction inputs generalizing s with
  | nil => exact h
  | cons a rest ih =>
    obtain ⟨t, c⟩ := a
    exact ih _ (cmd_process_char_name_wf env dbg t c s h)

end Pico

/-- C9: if the parser is collecting `N`, at least four bytes are buffered, the
first four equal the stored PIN and the remainder of the payload is non-empty
and free of NUL bytes, then the line terminator makes the device name the first
24 bytes of the remainder (all of it when it has at most 24 bytes), NUL-padded
in its 25-byte array; the PIN is unchanged, the flash record holds the new name,
the only reply is `INFO:Name saved`, and the name has at most 24 bytes. More
generally, from any state whose name array is 25 bytes ending in NUL, after any
input sequence the device name has at most 24 bytes. -/
theorem C9_set_name_accepted (env : Pico.CryptoEnv) (debug_lines : List String) :
    (∀ (now_us c : Nat) (s : Pico.State) (name : List Nat),
      (s.g_cmd_type = 78 ∨ s.g_cmd_type = 110) → (c = 10 ∨ c = 13) →
      s.g_device_name.length = 25 →
      4 ≤ s.g_cmd_pos → s.g_cmd_pos < s.g_cmd_buffer.length →
      s.g_cmd_buffer.take 4 = s.g_device_pin.take 4 →
      (s.g_cmd_buffer.take s.g_cmd_pos).drop 4 = name →
      name ≠ [] → (∀ x, x ∈ name → x ≠ 0) →
      (Pico.cmd_process_char env debug_lines now_us c s).g_device_name
        = name.take 24 ++ List.replicate (24 - name.length) 0 ++ [0] ∧
      CLib.cstr_bytes (Pico.cmd_process_char env debug_lines now_us c s).g_device_name
        = name.take 24 ∧
      (Pico.cmd_process_char env debug_lines now_us c s).g_device_pin = s.g_device_pin ∧
      (Pico.cmd_process_char env debug_lines now_us c s).flash
        = Pico.settings_sector (CLib.strncpy_bytes s.g_device_pin 4 ++ [0])
            (name.take 24 ++ List.replicate (24 - name.length) 0 ++ [0]) ∧
      (Pico.cmd_process_char env debug_lines now_us c s).out = s.out ++ ["INFO:Name saved"] ∧
      CLib.strlen (Pico.cmd_process_char env debug_lines now_us c s).g_device_name ≤ 24) ∧
    (∀ (inputs : List (Nat × Nat)) (s : Pico.State),
      s.g_device_name.length = 25 → s.g_device_name.getD 24 0 = 0 →
      CLib.strlen (Pico.cmd_process_chars env debug_lines inputs s).g_device_name ≤ 24) := by
  refine ⟨?_, fun inputs s h1 h2 => CLib.strlen_le_of_nul _ 24
    (Pico.cmd_process_chars_name_wf env debug_lines inputs s ⟨h1, h2⟩).2⟩
  intro now_us c s name htype hc hnamelen hpos4 hlt hpin hname hne hnul
  have hstep := Pico.cmd_process_char_N env debug_lines now_us c s htype hc
  have htake : (s.g_cmd_buffer.set s.g_cmd_pos 0).take 4 = s.g_cmd_buffer.take 4 :=
    Pico.take_set_ge _ _ _ _ hpos4
  have hv : CLib.strncmp (s.g_cmd_buffer.set s.g_cmd_pos 0) s.g_device_pin 4 = 0 :=
    CLib.strncmp_of_take_eq _ _ 4 (by rw [htake, hpin])
  have hdrop := Pico.name_payload_split s.g_cmd_buffer s.g_cmd_pos hpos4 hlt
  rw [hname] at hdrop
  have hstrlen : CLib.strlen ((s.g_cmd_buffer.set s.g_cmd_pos 0).drop 4) > 0 := by
    rw [hdrop, CLib.strlen_append_nul _ _ hnul]
    exact List.length_pos.mpr hne
  have hacc := Pico.cmd_set_name_accept
    { s with g_cmd_buffer := s.g_cmd_buffer.set s.g_cmd_pos 0 } hpos4 hv hstrlen
  have hcopy : CLib.strncpy_bytes ((s.g_cmd_buffer.set s.g_cmd_pos 0).drop 4) 24
      = name.take 24 ++ List.replicate (24 - name.length) 0 := by
    rw [hdrop]
    exact CLib.strncpy_bytes_append_nul _ _ 24 hnul
  have hn : (Pico.cmd_process_char env debug_lines now_us c s).g_device_name
      = name.take 24 ++ List.replicate (24 - name.length) 0 ++ [0] := by
    rw [hstep, hacc]
    have := Pico.device_set_name_name
      { s with g_cmd_buffer := s.g_cmd_buffer.set s.g_cmd_pos 0 }
      ((s.g_cmd_buffer.set s.g_cmd_pos 0).drop 4) hnamelen
    rw [hcopy] at this
    exact this
  have hcs : CLib.cstr_bytes (Pico.cmd_process_char env debug_lines now_us c s).g_device_name
      = name.take 24 := by
    rw [hn]
    have hpad : List.replicate (24 - name.length) 0 ++ [0]
        = 0 :: List.replicate (24 - name.length) 0 := by
      rw [← List.replicate_succ', List.replicate_succ]
    rw [List.append_assoc, hpad]
    exact CLib.cstr_bytes_padded _ _ (fun x hx => hnul x (List.mem_of_mem_take hx))
  refine ⟨hn, hcs, ?_, ?_, ?_, ?_⟩
  · rw [hstep, hacc]
    rfl
  · rw [hstep, hacc]
    have := Pico.device_set_name_flash
      { s with g_cmd_buffer := s.g_cmd_buffer.set s.g_cmd_pos 0 }
      ((s.g_cmd_buffer.set s.g_cmd_pos 0).drop 4) hnamelen
    rw [hcopy] at this
    exact this
  · rw [hstep, hacc]
    rfl
  · rw [CLib.strlen_eq_cstr_bytes, hcs, List.length_take]
    omega

set_option maxRecDepth 20000 in
/-- C9 on concrete runs from boot: `N0000X` renames the device to `X`, and
`N0000` followed by the 26 letters `A`..`Z` renames it to the first 24 of them,
`A`..`X`; both print `INFO:Name saved` and leave the PIN `0000`. -/
theorem C9_set_name_accepted_witness :
    CLib.cstr_bytes
        (Pico.cmd_process_char Pico.configured_env [] 0 10 Pico.collecting_name).g_device_name
      = [88] ∧
    CLib.cstr_bytes
        (Pico.cmd_process_char Pico.configured_env [] 0 10 Pico.collecting_long_name).g_device_name
      = (List.range 24).map (fun i => 65 + i) ∧
    (Pico.cmd_process_char Pico.configured_env [] 0 10 Pico.collecting_long_name).out
      = ["INFO:Name saved"] ∧
    (Pico.cmd_process_char Pico.configured_env [] 0 10 Pico.collecting_long_name).g_device_pin
      = [48, 48, 48, 48, 0] := by
  have h1 := (C9_set_name_accepted Pico.configured_env []).1 0 10 Pico.collecting_name [88]
    (by decide) (by decide) (by decide) (by decide) (by decide) (by decide) (by decide)
    (by decide) (by decide)
  have h2 := (C9_set_name_accepted Pico.configured_env []).1 0 10 Pico.collecting_long_name
    ((List.range 26).map (fun i => 65 + i))
    (by decide) (by decide) (by decide) (by decide) (by decide) (by decide) (by decide)
    (by decide) (by decide)
  exact ⟨h1.2.1, h2.2.1, h2.2.2.2.2.1, h2.2.2.1⟩

/-! ## Setting the output rate -/

namespace CLib

theorem skipSpace_append_nul (p r : List Nat) :
    skipSpace (p ++ 0 :: r) = skipSpace p ++ 0 :: r := by
  induction p with
  | nil => simp [skipSpace, isspace]
  | cons c cs ih =>
    by_cases hc : isspace c = true
    · simp [skipSpace, hc, ih]
    · simp [skipSpace, hc]

theorem digitsVal_append_nul (p r : List Nat) (acc : Nat) :
    digitsVal (p ++ 0 :: r) acc = digitsVal p acc := by
  induction p generalizing acc with
  | nil => simp [digitsVal, isdigit]
  | cons c cs ih =>
    by_cases hc : isdigit c = true
    · simp [digitsVal, hc, ih]
    · simp [digitsVal, hc]

theorem atoi_append_nul (p r : List Nat) : atoi (p ++ 0 :: r) = atoi p := by
  unfold atoi
  rw [skipSpace_append_nul]
  cases hs : skipSpace p with
  | nil => simp [digitsVal, isdigit]
  | cons c cs =>
    by_cases h45 : c = 45
    · subst h45
      simp [digitsVal_append_nul]
    · by_cases h43 : c = 43
      · subst h43
        simp [digitsVal_append_nul]
      · have := digitsVal_append_nul (c :: cs) r 0
        simp only [List.cons_append] at this ⊢
        split <;> rename_i heq <;> split <;> rename_i heq2 <;>
          simp_all

theorem atoi_set_nul (buf : List Nat) (pos : Nat) (h : pos < buf.length) :
    atoi (buf.set pos 0) = atoi (buf.take pos) := by
  rw [List.set_eq_take_append_cons_drop, if_pos h, atoi_append_nul]

end CLib

theorem MCU.process_command_F (env : MCU.CryptoEnv) (dbg : List String) (now_ms c : Nat)
    (s : MCU.State) (htype : s.g_cmd_type = 70 ∨ s.g_cmd_type = 102) (hc : c = 10 ∨ c = 13) :
    MCU.process_command env dbg now_ms c s
      = { MCU.cmd_set_rate { s with g_cmd_buffer := s.g_cmd_buffer.set s.g_cmd_pos 0 } with
          g_cmd_type := 0, g_cmd_pos := 0 } := by
  have hne : s.g_cmd_type ≠ 0 := by omega
  have hN : ¬ (s.g_cmd_type = 78 ∨ s.g_cmd_type = 110) := by omega
  have hW : ¬ (s.g_cmd_type = 87 ∨ s.g_cmd_type = 119) := by omega
  have hA : ¬ (s.g_cmd_type = 65 ∨ s.g_cmd_type = 97) := by omega
  simp only [MCU.process_command, hne, hc, MCU.cmd_dispatch, hN, hW, hA, htype, ne_eq,
    not_false_eq_true, if_true, if_false]

theorem Pico.rate_error_line :
    "ERR:Rate must be " ++ toString Pico.MIN_OUTPUT_RATE_HZ ++ "-" ++
      toString Pico.MAX_OUTPUT_RATE_HZ ++ "Hz" = "ERR:Rate must be 4-50Hz" := by
  decide

theorem MCU.mcu_rate_error_line :
    "ERR:Rate must be " ++ toString MCU.MIN_OUTPUT_RATE ++ "-" ++
      toString MCU.MAX_OUTPUT_RATE ++ "Hz" = "ERR:Rate must be 4-50Hz" := by
  decide

theorem Pico.cmd_set_rate_accept (s : Pico.State)
    (h : 4 ≤ CLib.atoi s.g_cmd_buffer ∧ CLib.atoi s.g_cmd_buffer ≤ 50) :
    Pico.cmd_set_rate s
      = ({ s with g_output_rate := CLib.atoi s.g_cmd_buffer
                  g_output_interval_ms := Int.tdiv 1000 (CLib.atoi s.g_cmd_buffer)
                  g_samples_per_output := Int.tdiv 100 (CLib.atoi s.g_cmd_buffer) }).print
          ("INFO:Output rate " ++ toString (CLib.atoi s.g_cmd_buffer) ++ "Hz (" ++
            toString (Int.tdiv 100 (CLib.atoi s.g_cmd_buffer)) ++ " samples avg)") := by
  unfold Pico.cmd_set_rate
  simp only [Pico.MIN_OUTPUT_RATE_HZ, Pico.MAX_OUTPUT_RATE_HZ, Pico.INTERNAL_SAMPLE_RATE_HZ,
    ge_iff_le]
  rw [if_pos h]

theorem Pico.cmd_set_rate_reject (s : Pico.State)
    (h : ¬ (4 ≤ CLib.atoi s.g_cmd_buffer ∧ CLib.atoi s.g_cmd_buffer ≤ 50)) :
    Pico.cmd_set_rate s = s.print "ERR:Rate must be 4-50Hz" := by
  unfold Pico.cmd_set_rate
  rw [Pico.rate_error_line]
  simp only [Pico.MIN_OUTPUT_RATE_HZ, Pico.MAX_OUTPUT_RATE_HZ, ge_iff_le]
  rw [if_neg h]

theorem MCU.mcu_cmd_set_rate_accept (s : MCU.State)
    (h : 4 ≤ CLib.atoi s.g_cmd_buffer ∧ CLib.atoi s.g_cmd_buffer ≤ 50) :
    MCU.cmd_set_rate s
      = ({ s with g_output_rate := CLib.atoi s.g_cmd_buffer
                  g_output_interval_ms := Int.tdiv 1000 (CLib.atoi s.g_cmd_buffer)
                  g_samples_per_output := Int.tdiv 100 (CLib.atoi s.g_cmd_buffer)
                  g_sample_count := 0 }).print
          ("INFO:Output rate " ++ toString (CLib.atoi s.g_cmd_buffer) ++ "Hz (" ++
            toString (Int.tdiv 100 (CLib.atoi s.g_cmd_buffer)) ++ " samples avg)") := by
  unfold MCU.cmd_set_rate
  simp only [MCU.MIN_OUTPUT_RATE, MCU.MAX_OUTPUT_RATE, MCU.INTERNAL_SAMPLE_RATE, ge_iff_le]
  rw [if_pos h]

theorem MCU.mcu_cmd_set_rate_reject (s : MCU.State)
    (h : ¬ (4 ≤ CLib.atoi s.g_cmd_buffer ∧ CLib.atoi s.g_cmd_buffer ≤ 50)) :
    MCU.cmd_set_rate s = s.print "ERR:Rate must be 4-50Hz" := by
  unfold MCU.cmd_set_rate
  rw [MCU.mcu_rate_error_line]
  simp only [MCU.MIN_OUTPUT_RATE, MCU.MAX_OUTPUT_RATE, ge_iff_le]
  rw [if_neg h]

theorem Pico.cmd_config_idle (env : Pico.CryptoEnv) (dbg : List String) (t c : Nat)
    (s : Pico.State) (hidle : s.g_cmd_type = 0) (hc : c = 67 ∨ c = 99) :
    (Pico.cmd_process_char env dbg t c s).out = s.out ++ ["CFG:" ++ toString s.g_output_rate] := by
  have c1 : ¬ (c = 80 ∨ c = 112) := by omega
  have c2 : ¬ (c = 82 ∨ c = 114) := by omega
  simp only [Pico.cmd_process_char, hidle, ne_eq, not_true_eq_false, if_false, Pico.cmd_single,
    c1, c2, hc, if_true, Pico.State.print]

theorem MCU.mcu_cmd_config_idle (env : MCU.CryptoEnv) (dbg : List String) (t c : Nat)
    (s : MCU.State) (hidle : s.g_cmd_type = 0) (hc : c = 67 ∨ c = 99) :
    (MCU.process_command env dbg t c s).out = s.out ++ ["CFG:" ++ toString s.g_output_rate] := by
  have c1 : ¬ (c = 80 ∨ c = 112) := by omega
  have c2 : ¬ (c = 82 ∨ c = 114) := by omega
  simp only [MCU.process_command, hidle, ne_eq, not_true_eq_false, if_false, MCU.cmd_single,
    c1, c2, hc, if_true, MCU.State.print]

/-- C10: for every payload collected after `F` and ended by a line terminator,
with `r` the integer `atoi` parses from the payload: if `4 ≤ r ≤ 50`, output
rate, output interval and samples-per-output become `r`, `1000 / r` and
`100 / r`, and a following `C` command prints `CFG:r`; otherwise the three
values are unchanged and the only reply is `ERR:Rate must be 4-50Hz`. This holds
for `cmd_process_char` (Pico) and `process_command` (MCU). -/
theorem C10_set_output_rate :
    (∀ (env : Pico.CryptoEnv) (debug_lines : List String) (now_us t2 c c2 : Nat) (s : Pico.State),
      (s.g_cmd_type = 70 ∨ s.g_cmd_type = 102) → (c = 10 ∨ c = 13) →
      s.g_cmd_pos < s.g_cmd_buffer.length → (c2 = 67 ∨ c2 = 99) →
      ((4 ≤ CLib.atoi (s.g_cmd_buffer.take s.g_cmd_pos) ∧
          CLib.atoi (s.g_cmd_buffer.take s.g_cmd_pos) ≤ 50) →
        (Pico.cmd_process_char env debug_lines now_us c s).g_output_rate
          = CLib.atoi (s.g_cmd_buffer.take s.g_cmd_pos) ∧
        (Pico.cmd_process_char env debug_lines now_us c s).g_output_interval_ms
          = 1000 / CLib.atoi (s.g_cmd_buffer.take s.g_cmd_pos) ∧
        (Pico.cmd_process_char env debug_lines now_us c s).g_samples_per_output
          = 100 / CLib.atoi (s.g_cmd_buffer.take s.g_cmd_pos) ∧
        (Pico.cmd_process_char env debug_lines t2 c2
            (Pico.cmd_process_char env debug_lines now_us c s)).out
          = (Pico.cmd_process_char env debug_lines now_us c s).out
            ++ ["CFG:" ++ toString (CLib.atoi (s.g_cmd_buffer.take s.g_cmd_pos))]) ∧
      (¬ (4 ≤ CLib.atoi (s.g_cmd_buffer.take s.g_cmd_pos) ∧
          CLib.atoi (s.g_cmd_buffer.take s.g_cmd_pos) ≤ 50) →
        (Pico.cmd_process_char env debug_lines now_us c s).g_output_rate = s.g_output_rate ∧
        (Pico.cmd_process_char env debug_lines now_us c s).g_output_interval_ms
          = s.g_output_interval_ms ∧
        (Pico.cmd_process_char env debug_lines now_us c s).g_samples_per_output
          = s.g_samples_per_output ∧
        (Pico.cmd_process_char env debug_lines now_us c s).out
          = s.out ++ ["ERR:Rate must be 4-50Hz"])) ∧
    (∀ (env : MCU.CryptoEnv) (debug_lines : List String) (now_ms t2 c c2 : Nat) (s : MCU.State),
      (s.g_cmd_type = 70 ∨ s.g_cmd_type = 102) → (c = 10 ∨ c = 13) →
      s.g_cmd_pos < s.g_cmd_buffer.length → (c2 = 67 ∨ c2 = 99) →
      ((4 ≤ CLib.atoi (s.g_cmd_buffer.take s.g_cmd_pos) ∧
          CLib.atoi (s.g_cmd_buffer.take s.g_cmd_pos) ≤ 50) →
        (MCU.process_command env debug_lines now_ms c s).g_output_rate
          = CLib.atoi (s.g_cmd_buffer.take s.g_cmd_pos) ∧
        (MCU.process_command env debug_lines now_ms c s).g_output_interval_ms
          = 1000 / CLib.atoi (s.g_cmd_buffer.take s.g_cmd_pos) ∧
        (MCU.process_command env debug_lines now_ms c s).g_samples_per_output
          = 100 / CLib.atoi (s.g_cmd_buffer.take s.g_cmd_pos) ∧
        (MCU.process_command env debug_lines t2 c2
            (MCU.process_command env debug_lines now_ms c s)).out
          = (MCU.process_command env debug_lines now_ms c s).out
            ++ ["CFG:" ++ toString (CLib.atoi (s.g_cmd_buffer.take s.g_cmd_pos))]) ∧
      (¬ (4 ≤ CLib.atoi (s.g_cmd_buffer.take s.g_cmd_pos) ∧
          CLib.atoi (s.g_cmd_buffer.take s.g_cmd_pos) ≤ 50) →
        (MCU.process_command env debug_lines now_ms c s).g_output_rate = s.g_output_rate ∧
        (MCU.process_command env debug_lines now_ms c s).g_output_interval_ms
          = s.g_output_interval_ms ∧
        (MCU.process_command env debug_lines now_ms c s).g_samples_per_output
          = s.g_samples_per_output ∧
        (MCU.process_command env debug_lines now_ms c s).out
          = s.out ++ ["ERR:Rate must be 4-50Hz"])) := by
  constructor
  · intro env debug_lines now_us t2 c c2 s htype hc hlt hc2
    have hstep := Pico.cmd_process_char_F env debug_lines now_us c s htype hc
    have hatoi := CLib.atoi_set_nul s.g_cmd_buffer s.g_cmd_pos hlt
    constructor
    · intro hr
      have h0 : (0 : Int) ≤ CLib.atoi (s.g_cmd_buffer.take s.g_cmd_pos) := by omega
      have hacc := Pico.cmd_set_rate_accept
        { s with g_cmd_buffer := s.g_cmd_buffer.set s.g_cmd_pos 0 } (by rw [hatoi]; exact hr)
      rw [hatoi] at hacc
      have hcfg := Pico.cmd_config_idle env debug_lines t2 c2
        (Pico.cmd_process_char env debug_lines now_us c s) (by rw [hstep]) hc2
      rw [hcfg]
      rw [hstep, hacc]
      exact ⟨rfl, Int.tdiv_eq_ediv (by decide) h0, Int.tdiv_eq_ediv (by decide) h0, rfl⟩
    · intro hr
      have hrej := Pico.cmd_set_rate_reject
        { s with g_cmd_buffer := s.g_cmd_buffer.set s.g_cmd_pos 0 } (by rw [hatoi]; exact hr)
      rw [hstep, hrej]
      exact ⟨rfl, rfl, rfl, rfl⟩
  · intro env debug_lines now_ms t2 c c2 s htype hc hlt hc2
    have hstep := MCU.process_command_F env debug_lines now_ms c s htype hc
    have hatoi := CLib.atoi_set_nul s.g_cmd_buffer s.g_cmd_pos hlt
    constructor
    · intro hr
      have h0 : (0 : Int) ≤ CLib.atoi (s.g_cmd_buffer.take s.g_cmd_pos) := by omega
      have hacc := MCU.mcu_cmd_set_rate_accept
        { s with g_cmd_buffer := s.g_cmd_buffer.set s.g_cmd_pos 0 } (by rw [hatoi]; exact hr)
      rw [hatoi] at hacc
      have hcfg := MCU.mcu_cmd_config_idle env debug_lines t2 c2
        (MCU.process_command env debug_lines now_ms c s) (by rw [hstep]) hc2
      rw [hcfg]
      rw [hstep, hacc]
      exact ⟨rfl, Int.tdiv_eq_ediv (by decide) h0, Int.tdiv_eq_ediv (by decide) h0, rfl⟩
    · intro hr
      have hrej := MCU.mcu_cmd_set_rate_reject
        { s with g_cmd_buffer := s.g_cmd_buffer.set s.g_cmd_pos 0 } (by rw [hatoi]; exact hr)
      rw [hstep, hrej]
      exact ⟨rfl, rfl, rfl, rfl⟩

set_option maxRecDepth 20000 in
/-- C10 on concrete runs: `F8` from boot sets rate 8, interval 125 ms and 12
samples per output on the Pico, and a following `C` prints `CFG:8`; `F3` on the
MCU leaves rate 8 and prints `ERR:Rate must be 4-50Hz`. -/
theorem C10_set_output_rate_witness :
    (Pico.cmd_process_char Pico.configured_env [] 0 10 Pico.collecting_rate).g_output_rate = 8 ∧
    (Pico.cmd_process_char Pico.configured_env [] 0 10 Pico.collecting_rate).g_output_interval_ms
      = 125 ∧
    (Pico.cmd_process_char Pico.configured_env [] 0 10 Pico.collecting_rate).g_samples_per_output
      = 12 ∧
    (Pico.cmd_process_char Pico.configured_env [] 0 67
      (Pico.cmd_process_char Pico.configured_env [] 0 10 Pico.collecting_rate)).out
      = ["INFO:Output rate 8Hz (12 samples avg)", "CFG:8"] ∧
    (MCU.process_command MCU.configured_env [] 0 10 MCU.collecting_rate).g_output_rate = 8 ∧
    (MCU.process_command MCU.configured_env [] 0 10 MCU.collecting_rate).out
      = ["ERR:Rate must be 4-50Hz"] := by
  have hP := (C10_set_output_rate.1 Pico.configured_env [] 0 0 10 67 Pico.collecting_rate
    (by decide) (by decide) (by decide) (by decide)).1 (by decide)
  have hM := (C10_set_output_rate.2 MCU.configured_env [] 0 0 10 67 MCU.collecting_rate
    (by decide) (by decide) (by decide) (by decide)).2 (by decide)
  refine ⟨hP.1, hP.2.1, hP.2.2.1, ?_, hM.1, hM.2.2.2⟩
  rw [hP.2.2.2]
  decide

/-! ## Every reachable state is well formed -/

namespace Pico

theorem ecdsa_init_buf (env : CryptoEnv) (s : State) :
    (ecdsa_init env s).2.g_cmd_buffer = s.g_cmd_buffer := by
  unfold ecdsa_init
  dsimp only
  split_ifs <;> rfl

theorem ecdsa_sign_checked_buf (env : CryptoEnv) (h : List Nat) (n : Nat) (s : State) :
    (ecdsa_sign_checked env h n s).g_cmd_buffer = s.g_cmd_buffer := by
  unfold ecdsa_sign_checked
  dsimp only
  split_ifs <;> rfl

theorem ecdsa_sign_challenge_buf (env : CryptoEnv) (h : List Nat) (n : Nat) (s : State) :
    (ecdsa_sign_challenge env h n s).g_cmd_buffer = s.g_cmd_buffer := by
  unfold ecdsa_sign_challenge
  split_ifs
  · exact ecdsa_init_buf env s
  · exact (ecdsa_sign_checked_buf env h n _).trans (ecdsa_init_buf env s)
  · exact ecdsa_sign_checked_buf env h n s

theorem cmd_set_name_buf (s : State) : (cmd_set_name s).g_cmd_buffer = s.g_cmd_buffer := by
  unfold cmd_set_name
  dsimp only
  split_ifs <;> rfl

theorem cmd_change_pin_buf (s : State) : (cmd_change_pin s).g_cmd_buffer = s.g_cmd_buffer := by
  unfold cmd_change_pin
  dsimp only
  split_ifs <;> rfl

theorem cmd_set_rate_buf (s : State) : (cmd_set_rate s).g_cmd_buffer = s.g_cmd_buffer := by
  unfold cmd_set_rate
  dsimp only
  split_ifs <;> rfl

theorem cmd_dispatch_buf (env : CryptoEnv) (s : State) :
    (cmd_dispatch env s).g_cmd_buffer = s.g_cmd_buffer := by
  unfold cmd_dispatch
  split_ifs
  · exact cmd_set_name_buf s
  · exact cmd_change_pin_buf s
  · exact ecdsa_sign_challenge_buf env _ _ s
  · exact cmd_set_rate_buf s
  · rfl

theorem cmd_single_buf (dbg : List String) (now_ms c : Nat) (s : State) :
    (cmd_single dbg now_ms c s).g_cmd_buffer = s.g_cmd_buffer := by
  unfold cmd_single
  dsimp only
  split_ifs <;> rfl

theorem cmd_single_pos (dbg : List String) (now_ms c : Nat) (s : State) :
    (cmd_single dbg now_ms c s).g_cmd_pos = s.g_cmd_pos ∨
    (cmd_single dbg now_ms c s).g_cmd_pos = 0 := by
  unfold cmd_single
  dsimp only
  split_ifs
  all_goals first | exact Or.inl rfl | exact Or.inr rfl

theorem state_wf_init (serial : String) (flash : List Nat) :
    state_wf (State.init serial flash) := by
  unfold state_wf State.init
  dsimp only
  exact ⟨by decide, by decide, by decide, by decide⟩

theorem cmd_process_char_state_wf (env : CryptoEnv) (dbg : List String) (now_us c : Nat)
    (s : State) (h : state_wf s) : state_wf (cmd_process_char env dbg now_us c s) := by
  refine ⟨cmd_process_char_name_wf env dbg now_us c s h.1,
    cmd_process_char_pin_wf env dbg now_us c s h.2.1, ?_, ?_⟩
  · unfold cmd_process_char
    dsimp only
    split_ifs
    · show (cmd_dispatch env _).g_cmd_buffer.length = _
      rw [cmd_dispatch_buf]
      simpa using h.2.2.1
    · simpa using h.2.2.1
    · exact h.2.2.1
    · rw [cmd_single_buf]
      exact h.2.2.1
  · unfold cmd_process_char
    dsimp only
    split_ifs with h1 h2 h3
    · show 0 < CMD_BUFFER_SIZE
      decide
    · show s.g_cmd_pos + 1 < CMD_BUFFER_SIZE
      unfold CMD_BUFFER_SIZE at h3 ⊢
      omega
    · exact h.2.2.2
    · rcases cmd_single_pos dbg (now_us / 1000) c s with hp | hp
      · rw [hp]; exact h.2.2.2
      · rw [hp]; decide

theorem cmd_process_chars_state_wf (env : CryptoEnv) (dbg : List String)
    (inputs : List (Nat × Nat)) (s : State) (h : state_wf s) :
    state_wf (cmd_process_chars env dbg inputs s) := by
  induction inputs generalizing s with
  | nil => exact h
  | cons a rest ih =>
    obtain ⟨t, c⟩ := a
    exact ih _ (cmd_process_char_state_wf env dbg t c s h)

end Pico

namespace MCU

theorem mcu_ecdsa_sign_nonce_buf (env : CryptoEnv) (h : List Nat) (s : State) :
    (ecdsa_sign_nonce env h s).g_cmd_buffer = s.g_cmd_buffer := by
  unfold ecdsa_sign_nonce
  dsimp only
  split_ifs <;> rfl

theorem mcu_cmd_auth_buf (env : CryptoEnv) (s : State) :
    (cmd_auth env s).g_cmd_buffer = s.g_cmd_buffer := by
  unfold cmd_auth
  split_ifs
  · exact mcu_ecdsa_sign_nonce_buf env _ s
  · rfl

theorem mcu_cmd_set_name_buf (s : State) : (cmd_set_name s).g_cmd_buffer = s.g_cmd_buffer := by
  unfold cmd_set_name
  dsimp only
  split_ifs <;> rfl

theorem mcu_cmd_change_pin_buf (s : State) :
    (cmd_change_pin s).g_cmd_buffer = s.g_cmd_buffer := by
  unfold cmd_change_pin
  dsimp only
  split_ifs <;> rfl

theorem mcu_cmd_set_rate_buf (s : State) : (cmd_set_rate s).g_cmd_buffer = s.g_cmd_buffer := by
  unfold cmd_set_rate
  dsimp only
  split_ifs <;> rfl

theorem mcu_cmd_dispatch_buf (env : CryptoEnv) (s : State) :
    (cmd_dispatch env s).g_cmd_buffer = s.g_cmd_buffer := by
  unfold cmd_dispatch
  split_ifs
  · exact mcu_cmd_set_name_buf s
  · exact mcu_cmd_change_pin_buf s
  · exact mcu_cmd_auth_buf env s
  · exact mcu_cmd_set_rate_buf s
  · rfl

theorem mcu_sensor_debug_test_frame (dbg : List String) (s : State) :
    (sensor_debug_test dbg s).g_cmd_buffer = s.g_cmd_buffer ∧
    (sensor_debug_test dbg s).g_cmd_pos = s.g_cmd_pos := by
  unfold sensor_debug_test
  dsimp only
  split_ifs <;> exact ⟨rfl, rfl⟩

set_option maxHeartbeats 800000 in
theorem mcu_cmd_single_buf (dbg : List String) (now_ms c : Nat) (s : State) :
    (cmd_single dbg now_ms c s).g_cmd_buffer = s.g_cmd_buffer := by
  unfold cmd_single
  dsimp only
  split_ifs
  iterate 7 rfl
  · exact (mcu_sensor_debug_test_frame dbg s).1
  all_goals rfl

set_option maxHeartbeats 800000 in
theorem mcu_cmd_single_pos (dbg : List String) (now_ms c : Nat) (s : State) :
    (cmd_single dbg now_ms c s).g_cmd_pos = s.g_cmd_pos ∨
    (cmd_single dbg now_ms c s).g_cmd_pos = 0 := by
  unfold cmd_single
  dsimp only
  split_ifs
  iterate 4 exact Or.inl rfl
  · exact Or.inr rfl
  iterate 2 exact Or.inl rfl
  · exact Or.inl (mcu_sensor_debug_test_frame dbg s).2
  · exact Or.inr rfl
  all_goals exact Or.inl rfl

theorem cmd_wf_init (serial : String) : cmd_wf (State.init serial) := by
  unfold cmd_wf State.init
  dsimp only
  exact ⟨by decide, by decide⟩

theorem process_command_cmd_wf (env : CryptoEnv) (dbg : List String) (now_ms c : Nat)
    (s : State) (h : cmd_wf s) : cmd_wf (process_command env dbg now_ms c s) := by
  constructor
  · unfold process_command
    split_ifs
    · show (cmd_dispatch env _).g_cmd_buffer.length = _
      rw [mcu_cmd_dispatch_buf]
      simpa using h.1
    · simpa using h.1
    · exact h.1
    · rw [mcu_cmd_single_buf]
      exact h.1
  · unfold process_command
    split_ifs with h1 h2 h3
    · show 0 < CMD_BUFFER_SIZE
      decide
    · show s.g_cmd_pos + 1 < CMD_BUFFER_SIZE
      unfold CMD_BUFFER_SIZE at h3 ⊢
      omega
    · exact h.2
    · rcases mcu_cmd_single_pos dbg now_ms c s with hp | hp
      · rw [hp]; exact h.2
      · rw [hp]; decide

theorem process_commands_cmd_wf (env : CryptoEnv) (dbg : List String)
    (inputs : List (Nat × Nat)) (s : State) (h : cmd_wf s) :
    cmd_wf (process_commands env dbg inputs s) := by
  induction inputs generalizing s with
  | nil => exact h
  | cons a rest ih =>
    obtain ⟨t, c⟩ := a
    exact ih _ (process_command_cmd_wf env dbg t c s h)

end MCU


/-! ## Rate change and the sample buffer -/

theorem take_set_self {α : Type} (l : List α) (n : Nat) (a : α) :
    (l.set n a).take n = l.take n := by
  induction l generalizing n with
  | nil => simp
  | cons x xs ih =>
    cases n with
    | zero => simp
    | succ m => simp [List.set, ih]


/-! ## The sample buffer of the MCU firmware stays within bounds -/

namespace MCU

theorem sample_frame_refl (s : State) : sample_frame s s := ⟨rfl, rfl, Or.inl rfl⟩

theorem sample_inv_of_frame {a b : State} (h : sample_inv b) (f : sample_frame a b) :
    sample_inv a := by
  obtain ⟨h1, h2, h3⟩ := h
  obtain ⟨f1, f2, f3⟩ := f
  refine ⟨?_, by rw [f1]; exact h2, by rw [f2]; exact h3⟩
  rcases f3 with f3 | f3
  · rw [f1, f3]; exact h1
  · rw [f1, f3]
    have : (0 : Int) ≤ (b.g_sample_count : Int) := Int.ofNat_nonneg _
    simp only [Nat.cast_zero]
    omega

theorem collect_sample_inv (reading : ℚ) (s : State) (h : sample_inv s) :
    sample_inv (collect_sample reading s) := by
  unfold collect_sample
  split_ifs with hlt
  · obtain ⟨h1, h2, h3⟩ := h
    refine ⟨?_, h2, ?_⟩
    · show ((s.g_sample_count + 1 : Nat) : Int) ≤ s.g_samples_per_output
      push_cast
      omega
    · show (s.g_sample_buffer.set s.g_sample_count reading).length = _
      rw [List.length_set]
      exact h3
  · exact h

theorem process_and_send_frame (s : State) : sample_frame (process_and_send s) s := by
  unfold process_and_send
  dsimp only
  split_ifs
  · exact sample_frame_refl s
  all_goals exact ⟨rfl, rfl, Or.inr rfl⟩

theorem ecdsa_sign_nonce_frame (env : CryptoEnv) (h : List Nat) (s : State) :
    sample_frame (ecdsa_sign_nonce env h s) s := by
  unfold ecdsa_sign_nonce
  dsimp only
  split_ifs <;> exact ⟨rfl, rfl, Or.inl rfl⟩

theorem cmd_auth_frame (env : CryptoEnv) (s : State) : sample_frame (cmd_auth env s) s := by
  unfold cmd_auth
  split_ifs
  · exact ecdsa_sign_nonce_frame env _ s
  · exact ⟨rfl, rfl, Or.inl rfl⟩

theorem mcu_cmd_set_name_frame (s : State) : sample_frame (cmd_set_name s) s := by
  unfold cmd_set_name
  dsimp only
  split_ifs <;> exact ⟨rfl, rfl, Or.inl rfl⟩

theorem mcu_cmd_change_pin_frame (s : State) : sample_frame (cmd_change_pin s) s := by
  unfold cmd_change_pin
  dsimp only
  split_ifs <;> exact ⟨rfl, rfl, Or.inl rfl⟩

theorem samples_per_output_bound (r : Int) (h : 4 ≤ r ∧ r ≤ 50) :
    0 ≤ Int.tdiv 100 r ∧ Int.tdiv 100 r ≤ 25 := by
  obtain ⟨h1, h2⟩ := h
  interval_cases r <;> decide

theorem mcu_cmd_set_rate_inv (s : State) (h : sample_inv s) : sample_inv (cmd_set_rate s) := by
  by_cases hr : 4 ≤ CLib.atoi s.g_cmd_buffer ∧ CLib.atoi s.g_cmd_buffer ≤ 50
  · rw [mcu_cmd_set_rate_accept s hr]
    have hb := samples_per_output_bound _ hr
    exact ⟨by simpa [State.print] using hb.1, hb.2, h.2.2⟩
  · rw [mcu_cmd_set_rate_reject s hr]
    exact h

theorem cmd_dispatch_inv (env : CryptoEnv) (s : State) (h : sample_inv s) :
    sample_inv (cmd_dispatch env s) := by
  unfold cmd_dispatch
  split_ifs
  · exact sample_inv_of_frame h (mcu_cmd_set_name_frame s)
  · exact sample_inv_of_frame h (mcu_cmd_change_pin_frame s)
  · exact sample_inv_of_frame h (cmd_auth_frame env s)
  · exact mcu_cmd_set_rate_inv s h
  · exact h

theorem sensor_debug_test_frame (dbg : List String) (s : State) :
    sample_frame (sensor_debug_test dbg s) s := by
  unfold sensor_debug_test
  dsimp only
  split_ifs <;> exact ⟨rfl, rfl, Or.inl rfl⟩

theorem print_frame (s : State) (line : String) : sample_frame (s.print line) s :=
  ⟨rfl, rfl, Or.inl rfl⟩

theorem sample_frame_trans {a b c : State} (h1 : sample_frame a b) (h2 : sample_frame b c) :
    sample_frame a c := by
  obtain ⟨a1, a2, a3⟩ := h1
  obtain ⟨b1, b2, b3⟩ := h2
  refine ⟨a1.trans b1, a2.trans b2, ?_⟩
  rcases a3 with a3 | a3
  · rcases b3 with b3 | b3
    · exact Or.inl (a3.trans b3)
    · exact Or.inr (a3.trans b3)
  · exact Or.inr a3

theorem mcu_cmd_single_frame (dbg : List String) (now_ms c : Nat) (s : State) :
    sample_frame (cmd_single dbg now_ms c s) s := by
  unfold cmd_single
  dsimp only
  split_ifs
  · exact ⟨rfl, rfl, Or.inr rfl⟩
  · exact ⟨rfl, rfl, Or.inl rfl⟩
  · exact ⟨rfl, rfl, Or.inr rfl⟩
  · exact ⟨rfl, rfl, Or.inl rfl⟩
  · exact ⟨rfl, rfl, Or.inl rfl⟩
  · exact sample_frame_trans (print_frame _ _) (sample_frame_trans (print_frame _ _)
      (sample_frame_trans (print_frame _ _) (print_frame _ _)))
  · exact sample_frame_trans (print_frame _ _) (sample_frame_trans (print_frame _ _)
      (sample_frame_trans (print_frame _ _) (print_frame _ _)))
  · exact sensor_debug_test_frame dbg s
  · exact ⟨rfl, rfl, Or.inl rfl⟩
  · exact ⟨rfl, rfl, Or.inl rfl⟩
  · exact ⟨rfl, rfl, Or.inl rfl⟩

theorem process_command_inv (env : CryptoEnv) (dbg : List String) (now_ms c : Nat)
    (s : State) (h : sample_inv s) : sample_inv (process_command env dbg now_ms c s) := by
  unfold process_command
  split_ifs
  · have hd := cmd_dispatch_inv env
      { s with g_cmd_buffer := s.g_cmd_buffer.set s.g_cmd_pos 0 } h
    exact hd
  · exact h
  · exact h
  · exact sample_inv_of_frame h (mcu_cmd_single_frame dbg now_ms c s)

theorem step_inv (env : CryptoEnv) (dbg : List String) (e : Event) (s : State)
    (h : sample_inv s) : sample_inv (step env dbg e s) := by
  cases e with
  | command now_ms c => exact process_command_inv env dbg now_ms c s h
  | sample reading => exact collect_sample_inv reading s h
  | send => exact sample_inv_of_frame h (process_and_send_frame s)

theorem run_inv (env : CryptoEnv) (dbg : List String) (events : List Event) (s : State)
    (h : sample_inv s) : sample_inv (run env dbg events s) := by
  induction events generalizing s with
  | nil => exact h
  | cons e rest ih => exact ih _ (step_inv env dbg e s h)

theorem sample_inv_init (serial : String) : sample_inv (State.init serial) := by
  unfold sample_inv State.init
  dsimp only
  exact ⟨by decide, by decide, by decide⟩

end MCU

/-- C12: in every state the MCU firmware reaches from its initial state by any
interleaving of `process_command` bytes, `collect_sample` calls and
`process_and_send` calls, `0 ≤ g_sample_count ≤ g_samples_per_output ≤ 25`;
hence the write of `collect_sample` lands inside the 27-entry buffer and leaves
the entries stored before it untouched, and a sample arriving when the count
has reached samples-per-output changes nothing at all. -/
theorem C12_sample_buffer_bounds (env : MCU.CryptoEnv) (debug_lines : List String)
    (serial : String) (events : List MCU.Event) :
    (0 : Int) ≤ (MCU.run env debug_lines events (MCU.State.init serial)).g_sample_count ∧
    ((MCU.run env debug_lines events (MCU.State.init serial)).g_sample_count : Int)
      ≤ (MCU.run env debug_lines events (MCU.State.init serial)).g_samples_per_output ∧
    (MCU.run env debug_lines events (MCU.State.init serial)).g_samples_per_output ≤ 25 ∧
    (MCU.run env debug_lines events (MCU.State.init serial)).g_sample_buffer.length = 27 ∧
    (∀ reading : ℚ,
      ((MCU.run env debug_lines events (MCU.State.init serial)).g_sample_count : Int)
          < (MCU.run env debug_lines events (MCU.State.init serial)).g_samples_per_output →
        (MCU.run env debug_lines events (MCU.State.init serial)).g_sample_count < 27 ∧
        (MCU.collect_sample reading
            (MCU.run env debug_lines events (MCU.State.init serial))).g_sample_buffer
          = (MCU.run env debug_lines events (MCU.State.init serial)).g_sample_buffer.set
              (MCU.run env debug_lines events (MCU.State.init serial)).g_sample_count reading ∧
        (MCU.collect_sample reading
            (MCU.run env debug_lines events (MCU.State.init serial))).g_sample_buffer.take
            (MCU.run env debug_lines events (MCU.State.init serial)).g_sample_count
          = (MCU.run env debug_lines events (MCU.State.init serial)).g_sample_buffer.take
              (MCU.run env debug_lines events (MCU.State.init serial)).g_sample_count) ∧
    (∀ reading : ℚ,
      ¬ ((MCU.run env debug_lines events (MCU.State.init serial)).g_sample_count : Int)
          < (MCU.run env debug_lines events (MCU.State.init serial)).g_samples_per_output →
        MCU.collect_sample reading (MCU.run env debug_lines events (MCU.State.init serial))
          = MCU.run env debug_lines events (MCU.State.init serial)) := by
  have hinv := MCU.run_inv env debug_lines events _ (MCU.sample_inv_init serial)
  generalize MCU.run env debug_lines events (MCU.State.init serial) = s at hinv
  obtain ⟨h1, h2, h3⟩ := hinv
  refine ⟨Int.ofNat_nonneg _, h1, h2, h3, ?_, ?_⟩
  · intro reading hlt
    have hset : (MCU.collect_sample reading s).g_sample_buffer
        = s.g_sample_buffer.set s.g_sample_count reading := by
      unfold MCU.collect_sample
      rw [if_pos hlt]
    refine ⟨by omega, hset, ?_⟩
    rw [hset]
    exact take_set_self _ _ _
  · intro reading hge
    unfold MCU.collect_sample
    rw [if_neg hge]
set_option maxRecDepth 20000 in
/-- C12 at the session `MCU.sample_session`: thirty samples after `F4` leave the
count at 25 = samples-per-output, and one more sample changes nothing. -/
theorem C12_sample_buffer_bounds_witness :
    (MCU.run MCU.configured_env [] MCU.sample_session (MCU.State.init "")).g_sample_count = 25 ∧
    (MCU.run MCU.configured_env [] MCU.sample_session
      (MCU.State.init "")).g_samples_per_output = 25 ∧
    MCU.collect_sample 1002
        (MCU.run MCU.configured_env [] MCU.sample_session (MCU.State.init ""))
      = MCU.run MCU.configured_env [] MCU.sample_session (MCU.State.init "") := by
  have hc : (MCU.run MCU.configured_env [] MCU.sample_session
      (MCU.State.init "")).g_sample_count = 25 := by decide
  have hs : (MCU.run MCU.configured_env [] MCU.sample_session
      (MCU.State.init "")).g_samples_per_output = 25 := by decide
  refine ⟨hc, hs, ?_⟩
  refine (C12_sample_buffer_bounds MCU.configured_env [] "" MCU.sample_session).2.2.2.2.2
    1002 ?_
  rw [hc, hs]
  decide
/-! ## Connection timeout and ping -/

theorem main_timeout_check_fire (now_ms : Nat) (s : Pico.State)
    (hc : s.g_app_connected = true)
    (ht : CLib.usub64 now_ms s.g_last_ping_ms > Pico.CONNECTION_TIMEOUT_MS) :
    Pico.main_timeout_check now_ms s
      = Pico.State.print { s with g_app_connected := false, g_baseline_printed := false,
                                  led := Pico.led_state_t.LED_STATE_USB_READY }
          "INFO:Disconnected" := by
  unfold Pico.main_timeout_check
  rw [if_pos ⟨hc, ht⟩]

theorem main_timeout_check_idle (now_ms : Nat) (s : Pico.State)
    (h : ¬ (s.g_app_connected = true ∧
      CLib.usub64 now_ms s.g_last_ping_ms > Pico.CONNECTION_TIMEOUT_MS)) :
    Pico.main_timeout_check now_ms s = s := by
  unfold Pico.main_timeout_check
  rw [if_neg h]

theorem loop_timeout_check_fire (now_ms : Nat) (s : MCU.State)
    (hc : s.g_connected = true)
    (ht : CLib.usub32 now_ms s.g_last_ping_ms > MCU.CONNECTION_TIMEOUT_MS) :
    MCU.loop_timeout_check now_ms s
      = MCU.State.print { s with g_connected := false, led := MCU.LedState.LED_USB_READY }
          "INFO:Disconnected" := by
  unfold MCU.loop_timeout_check
  rw [if_pos ⟨hc, ht⟩]

theorem loop_timeout_check_idle (now_ms : Nat) (s : MCU.State)
    (h : ¬ (s.g_connected = true ∧
      CLib.usub32 now_ms s.g_last_ping_ms > MCU.CONNECTION_TIMEOUT_MS)) :
    MCU.loop_timeout_check now_ms s = s := by
  unfold MCU.loop_timeout_check
  rw [if_neg h]

/-- C13 fails at the boundary: a connected device whose last ping came at 0 ms
is still connected after the timeout check of an iteration whose clock reads
3000 ms, so that `now_ms - last_ping_ms >= 3000` holds; on the Pico and on the
MCU alike. -/
theorem C13_counterexample :
    Pico.connected_state.g_app_connected = true ∧
    CLib.usub64 3000 Pico.connected_state.g_last_ping_ms ≥ 3000 ∧
    (Pico.main_timeout_check 3000 Pico.connected_state).g_app_connected = true ∧
    MCU.connected_state.g_connected = true ∧
    CLib.usub32 3000 MCU.connected_state.g_last_ping_ms ≥ 3000 ∧
    (MCU.loop_timeout_check 3000 MCU.connected_state).g_connected = true := by
  refine ⟨rfl, by decide, ?_, rfl, by decide, ?_⟩
  · rw [main_timeout_check_idle]
    · rfl
    · rintro ⟨_, h⟩
      revert h
      decide
  · rw [loop_timeout_check_idle]
    · rfl
    · rintro ⟨_, h⟩
      revert h
      decide

/-- C13, amended: for a connected device the timeout check of `main` (Pico) and
of `loop` (MCU) disconnects exactly when the unsigned difference
`now_ms - last_ping_ms` (64-bit on the Pico, 32-bit on the MCU) is strictly
greater than 3000; when it is at most 3000 the check changes nothing. -/
theorem C13_timeout_after_more_than_3000 (now_ms : Nat) (s : Pico.State) (m : MCU.State)
    (hs : s.g_app_connected = true) (hm : m.g_connected = true) :
    (CLib.usub64 now_ms s.g_last_ping_ms > 3000 →
      (Pico.main_timeout_check now_ms s).g_app_connected = false) ∧
    (CLib.usub64 now_ms s.g_last_ping_ms ≤ 3000 → Pico.main_timeout_check now_ms s = s) ∧
    (CLib.usub32 now_ms m.g_last_ping_ms > 3000 →
      (MCU.loop_timeout_check now_ms m).g_connected = false) ∧
    (CLib.usub32 now_ms m.g_last_ping_ms ≤ 3000 → MCU.loop_timeout_check now_ms m = m) := by
  refine ⟨fun h => ?_, fun h => ?_, fun h => ?_, fun h => ?_⟩
  · rw [main_timeout_check_fire now_ms s hs h]
    rfl
  · exact main_timeout_check_idle now_ms s (fun hh => absurd hh.2 (Nat.not_lt.mpr h))
  · rw [loop_timeout_check_fire now_ms m hm h]
    rfl
  · exact loop_timeout_check_idle now_ms m (fun hh => absurd hh.2 (Nat.not_lt.mpr h))

/-- C13 amended, at the clock reading 3001 ms with the last ping at 0 ms: both
devices disconnect. -/
theorem C13_timeout_after_more_than_3000_witness :
    Pico.connected_state.g_app_connected = true ∧
    MCU.connected_state.g_connected = true ∧
    CLib.usub64 3001 Pico.connected_state.g_last_ping_ms > 3000 ∧
    (Pico.main_timeout_check 3001 Pico.connected_state).g_app_connected = false ∧
    CLib.usub32 3001 MCU.connected_state.g_last_ping_ms > 3000 ∧
    (MCU.loop_timeout_check 3001 MCU.connected_state).g_connected = false :=
  ⟨rfl, rfl, by decide,
    (C13_timeout_after_more_than_3000 3001 Pico.connected_state MCU.connected_state
      rfl rfl).1 (by decide),
    by decide,
    (C13_timeout_after_more_than_3000 3001 Pico.connected_state MCU.connected_state
      rfl rfl).2.2.1 (by decide)⟩

/-- C14 fails: the connected Pico whose last ping came at 0 ms and whose
baseline is set times out at the clock reading 5000 ms, and `g_baseline_set` is
still true after the transition. -/
theorem C14_counterexample :
    Pico.connected_state.g_app_connected = true ∧
    Pico.connected_state.g_baseline_set = true ∧
    (Pico.main_timeout_check 5000 Pico.connected_state).g_app_connected = false ∧
    (Pico.main_timeout_check 5000 Pico.connected_state).out = ["INFO:Disconnected"] ∧
    (Pico.main_timeout_check 5000 Pico.connected_state).g_baseline_set = true := by
  have h := main_timeout_check_fire 5000 Pico.connected_state rfl (by decide)
  rw [h]
  exact ⟨rfl, rfl, rfl, rfl, rfl⟩

/-- C14, amended: when the timeout transition fires in the Pico main loop it
clears the connected flag and `g_baseline_printed`, shows the USB-ready status
and prints `INFO:Disconnected`; the flag `g_baseline_set` and the baseline value
keep the values they had. The flag `g_baseline_set` is cleared by the ping that
next connects the device. -/
theorem C14_timeout_keeps_baseline_set (env : Pico.CryptoEnv) (debug_lines : List String)
    (now_ms t_us c : Nat) (s : Pico.State)
    (hc : s.g_app_connected = true)
    (ht : CLib.usub64 now_ms s.g_last_ping_ms > 3000)
    (hidle : s.g_cmd_type = 0) (hp : c = 80 ∨ c = 112) :
    (Pico.main_timeout_check now_ms s).g_app_connected = false ∧
    (Pico.main_timeout_check now_ms s).g_baseline_printed = false ∧
    (Pico.main_timeout_check now_ms s).led = Pico.led_state_t.LED_STATE_USB_READY ∧
    (Pico.main_timeout_check now_ms s).out = s.out ++ ["INFO:Disconnected"] ∧
    (Pico.main_timeout_check now_ms s).g_baseline_set = s.g_baseline_set ∧
    (Pico.main_timeout_check now_ms s).g_baseline_pressure = s.g_baseline_pressure ∧
    (Pico.cmd_process_char env debug_lines t_us c
      (Pico.main_timeout_check now_ms s)).g_app_connected = true ∧
    (Pico.cmd_process_char env debug_lines t_us c
      (Pico.main_timeout_check now_ms s)).g_baseline_set = false := by
  rw [main_timeout_check_fire now_ms s hc ht]
  refine ⟨rfl, rfl, rfl, rfl, rfl, rfl, ?_, ?_⟩
  · unfold Pico.cmd_process_char
    dsimp only
    rw [if_neg (by simpa [Pico.State.print] using hidle)]
    unfold Pico.cmd_single
    rw [if_pos hp]
    rfl
  · unfold Pico.cmd_process_char
    dsimp only
    rw [if_neg (by simpa [Pico.State.print] using hidle)]
    unfold Pico.cmd_single
    rw [if_pos hp]
    rfl

/-- C14 amended, at the connected Pico with the last ping at 0 ms, the clock
reading 5000 ms and a ping `P` at 6000000 µs. -/
theorem C14_timeout_keeps_baseline_set_witness :
    (Pico.main_timeout_check 5000 Pico.connected_state).g_baseline_set = true ∧
    (Pico.cmd_process_char Pico.configured_env [] 6000000 80
      (Pico.main_timeout_check 5000 Pico.connected_state)).g_baseline_set = false :=
  ⟨(C14_timeout_keeps_baseline_set Pico.configured_env [] 5000 6000000 80
      Pico.connected_state rfl (by decide) rfl (Or.inl rfl)).2.2.2.2.1,
   (C14_timeout_keeps_baseline_set Pico.configured_env [] 5000 6000000 80
      Pico.connected_state rfl (by decide) rfl (Or.inl rfl)).2.2.2.2.2.2.2⟩

/-- C15: `cmd_process_char` in the Idle parse state receiving `P` or `p` at the
clock reading `now_us` (in µs) sets the last-ping timestamp to the reading in
ms; a disconnected device becomes connected, its baseline flag is cleared and
it replies `INFO:Connected` then `PONG`; a connected device keeps the connected
flag, the baseline flag and the baseline value and replies `PONG` only. Name,
PIN, output rate and parse state are unchanged in both cases. -/
theorem C15_ping (env : Pico.CryptoEnv) (debug_lines : List String) (now_us c : Nat)
    (s : Pico.State) (hidle : s.g_cmd_type = 0) (hp : c = 80 ∨ c = 112) :
    (Pico.cmd_process_char env debug_lines now_us c s).g_last_ping_ms = now_us / 1000 ∧
    (s.g_app_connected = false →
      (Pico.cmd_process_char env debug_lines now_us c s).g_app_connected = true ∧
      (Pico.cmd_process_char env debug_lines now_us c s).g_baseline_set = false ∧
      (Pico.cmd_process_char env debug_lines now_us c s).out
        = s.out ++ ["INFO:Connected", "PONG"]) ∧
    (s.g_app_connected = true →
      (Pico.cmd_process_char env debug_lines now_us c s).g_app_connected = true ∧
      (Pico.cmd_process_char env debug_lines now_us c s).g_baseline_set = s.g_baseline_set ∧
      (Pico.cmd_process_char env debug_lines now_us c s).g_baseline_pressure
        = s.g_baseline_pressure ∧
      (Pico.cmd_process_char env debug_lines now_us c s).out = s.out ++ ["PONG"]) ∧
    (Pico.cmd_process_char env debug_lines now_us c s).g_device_name = s.g_device_name ∧
    (Pico.cmd_process_char env debug_lines now_us c s).g_device_pin = s.g_device_pin ∧
    (Pico.cmd_process_char env debug_lines now_us c s).flash = s.flash ∧
    (Pico.cmd_process_char env debug_lines now_us c s).g_output_rate = s.g_output_rate ∧
    (Pico.cmd_process_char env debug_lines now_us c s).g_output_interval_ms
      = s.g_output_interval_ms ∧
    (Pico.cmd_process_char env debug_lines now_us c s).g_samples_per_output
      = s.g_samples_per_output ∧
    (Pico.cmd_process_char env debug_lines now_us c s).g_cmd_type = 0 ∧
    (Pico.cmd_process_char env debug_lines now_us c s).g_cmd_pos = s.g_cmd_pos ∧
    (Pico.cmd_process_char env debug_lines now_us c s).g_cmd_buffer = s.g_cmd_buffer := by
  have h : Pico.cmd_process_char env debug_lines now_us c s
      = Pico.State.print
          (if (!s.g_app_connected) = true then
            Pico.State.print
              { s with g_last_ping_ms := now_us / 1000, g_app_connected := true,
                       g_baseline_set := false, g_baseline_printed := false,
                       led := Pico.led_state_t.LED_STATE_APP_CONNECTED }
              "INFO:Connected"
          else { s with g_last_ping_ms := now_us / 1000 }) "PONG" := by
    unfold Pico.cmd_process_char
    dsimp only
    rw [if_neg (by simpa using hidle)]
    unfold Pico.cmd_single
    rw [if_pos hp]
  rw [h]
  cases hconn : s.g_app_connected
  · refine ⟨rfl, ?_, ?_, rfl, rfl, rfl, rfl, rfl, rfl, hidle, rfl, rfl⟩
    · intro _
      refine ⟨rfl, rfl, ?_⟩
      simp [Pico.State.print]
    · intro hh
      cases hh
  · refine ⟨rfl, ?_, ?_, rfl, rfl, rfl, rfl, rfl, rfl, hidle, rfl, rfl⟩
    · intro hh
      cases hh
    · intro _
      exact ⟨rfl, rfl, rfl, rfl⟩

/-- C15 at the freshly booted (disconnected) Pico receiving `P` at 1234567 µs. -/
theorem C15_ping_witness :
    (Pico.cmd_process_char Pico.configured_env [] 1234567 80 Pico.boot).g_last_ping_ms = 1234 ∧
    (Pico.cmd_process_char Pico.configured_env [] 1234567 80 Pico.boot).g_app_connected = true ∧
    (Pico.cmd_process_char Pico.configured_env [] 1234567 80 Pico.boot).out
      = Pico.boot.out ++ ["INFO:Connected", "PONG"] :=
  ⟨(C15_ping Pico.configured_env [] 1234567 80 Pico.boot rfl (Or.inl rfl)).1,
   ((C15_ping Pico.configured_env [] 1234567 80 Pico.boot rfl (Or.inl rfl)).2.1 rfl).1,
   ((C15_ping Pico.configured_env [] 1234567 80 Pico.boot rfl (Or.inl rfl)).2.1 rfl).2.2⟩
/-! ## MIDI SysEx: framing and the pressure encoding -/

namespace CLib

theorem or_eq_add (x y i : Nat) (hx : 2 ^ i ∣ x) (hy : y < 2 ^ i) : x ||| y = x + y := by
  obtain ⟨k, rfl⟩ := hx
  exact (Nat.mul_add_lt_is_or hy k).symm

theorem and_15 (x : Nat) : x &&& 0x0F = x % 16 := Nat.and_pow_two_sub_one_eq_mod x 4

theorem and_127 (x : Nat) : x &&& 0x7F = x % 128 := Nat.and_pow_two_sub_one_eq_mod x 7

theorem septets_join (a b1 b2 b3 b4 : Nat) (h1 : b1 < 128) (h2 : b2 < 128)
    (h3 : b3 < 128) (h4 : b4 < 128) :
    a <<< 28 ||| b1 <<< 21 ||| b2 <<< 14 ||| b3 <<< 7 ||| b4
      = a * 268435456 + b1 * 2097152 + b2 * 16384 + b3 * 128 + b4 := by
  simp only [Nat.shiftLeft_eq]
  norm_num
  have e1 : a * 268435456 ||| b1 * 2097152 = a * 268435456 + b1 * 2097152 :=
    or_eq_add _ _ 28 (by norm_num) (by norm_num; omega)
  rw [e1]
  have e2 : (a * 268435456 + b1 * 2097152) ||| b2 * 16384
      = a * 268435456 + b1 * 2097152 + b2 * 16384 :=
    or_eq_add _ _ 21 (by norm_num; omega) (by norm_num; omega)
  rw [e2]
  have e3 : (a * 268435456 + b1 * 2097152 + b2 * 16384) ||| b3 * 128
      = a * 268435456 + b1 * 2097152 + b2 * 16384 + b3 * 128 :=
    or_eq_add _ _ 14 (by norm_num; omega) (by norm_num; omega)
  rw [e3]
  exact or_eq_add _ _ 7 (by norm_num; omega) (by norm_num; omega)

theorem septets_split (val : Nat) (h : val < 2 ^ 32) :
    (val >>> 28 &&& 0x0F) * 268435456 + (val >>> 21 &&& 0x7F) * 2097152
      + (val >>> 14 &&& 0x7F) * 16384 + (val >>> 7 &&& 0x7F) * 128 + (val &&& 0x7F) = val := by
  simp only [and_15, and_127, Nat.shiftRight_eq_div_pow]
  norm_num at h ⊢
  omega

theorem sign_bit_facts : ∀ x : Nat, x < 16 →
    (x ||| 0x40) &&& 0x0F = x ∧ (x ||| 0x40).testBit 6 = true ∧ x.testBit 6 = false ∧
    x ||| 0x40 ≤ 0x7F := by
  decide

end CLib

namespace Sysex

open CLib

theorem receive_bytes_append (a b : List Nat) (r : Rx) :
    receive_bytes (a ++ b) r
      = ((receive_bytes b (receive_bytes a r).1).1,
         (receive_bytes a r).2 ++ (receive_bytes b (receive_bytes a r).1).2) := by
  induction a generalizing r with
  | nil => rfl
  | cons x xs ih =>
    show receive_bytes (x :: (xs ++ b)) r = _
    simp only [receive_bytes, ih, List.cons_append]

theorem receive_data_byte (b : Nat) (r : Rx) (hb : b ≤ 0x7F)
    (hs : r.g_rx_state = sysex_state_t.SYSEX_STATE_DATA)
    (hl : r.g_rx_message.data_len < 251) :
    midi_sysex_receive_byte b r
      = ({ r with g_rx_message :=
            { r.g_rx_message with
              data := r.g_rx_message.data.set r.g_rx_message.data_len b
              data_len := r.g_rx_message.data_len + 1 } }, false) := by
  unfold midi_sysex_receive_byte
  rw [if_neg (by omega), if_neg (by omega), hs]
  dsimp only
  rw [if_neg (by unfold SYSEX_END; omega), if_pos (by unfold SYSEX_MAX_SIZE; omega)]
  rw [Nat.mod_eq_of_lt (by omega)]

theorem take_succ_set {α : Type} (l : List α) (n : Nat) (a : α) (h : n < l.length) :
    (l.set n a).take (n + 1) = l.take n ++ [a] := by
  induction l generalizing n with
  | nil => simp at h
  | cons x xs ih =>
    cases n with
    | zero => simp
    | succ m =>
      simp only [List.length_cons, Nat.add_lt_add_iff_right] at h
      simp [List.set, ih m h]

theorem receive_data_bytes (d : List Nat) (r : Rx) (hb : ∀ b ∈ d, b ≤ 0x7F)
    (hs : r.g_rx_state = sysex_state_t.SYSEX_STATE_DATA)
    (hlen : r.g_rx_message.data.length = 251)
    (hl : r.g_rx_message.data_len + d.length ≤ 251) :
    (receive_bytes d r).2 = List.replicate d.length false ∧
    (receive_bytes d r).1.g_rx_state = sysex_state_t.SYSEX_STATE_DATA ∧
    (receive_bytes d r).1.g_message_ready = r.g_message_ready ∧
    (receive_bytes d r).1.g_rx_message.command = r.g_rx_message.command ∧
    (receive_bytes d r).1.g_rx_message.data_len = r.g_rx_message.data_len + d.length ∧
    (receive_bytes d r).1.g_rx_message.data.length = 251 ∧
    (receive_bytes d r).1.g_rx_message.data.take (r.g_rx_message.data_len + d.length)
      = r.g_rx_message.data.take r.g_rx_message.data_len ++ d := by
  induction d generalizing r with
  | nil => exact ⟨rfl, hs, rfl, rfl, rfl, hlen, by simp [receive_bytes]⟩
  | cons x xs ih =>
    have hx : x ≤ 0x7F := hb x (List.mem_cons_self _ _)
    have hxs : ∀ b ∈ xs, b ≤ 0x7F := fun b hbm => hb b (List.mem_cons_of_mem _ hbm)
    simp only [List.length_cons] at hl
    have hstep := receive_data_byte x r hx hs (by omega)
    simp only [receive_bytes, hstep]
    have h := ih { r with g_rx_message :=
            { r.g_rx_message with
              data := r.g_rx_message.data.set r.g_rx_message.data_len x
              data_len := r.g_rx_message.data_len + 1 } } hxs hs
      (by simp [hlen]) (by simp only; omega)
    obtain ⟨h1, h2, h3, h4, h5, h6, h7⟩ := h
    refine ⟨?_, h2, h3, h4, ?_, h6, ?_⟩
    · rw [h1]
      rfl
    · rw [h5]
      simp only [List.length_cons]
      omega
    · simp only at h7
      rw [take_succ_set _ _ _ (by omega)] at h7
      simp only [List.length_cons]
      rw [show r.g_rx_message.data_len + (xs.length + 1)
          = r.g_rx_message.data_len + 1 + xs.length by omega, h7]
      simp

theorem receive_header (c : Nat) (r : Rx) (hc : c ≤ 0x7F)
    (hidle : r.g_rx_state = sysex_state_t.SYSEX_STATE_IDLE) :
    receive_bytes [0xF0, 0x7D, 0x01, c] r
      = ({ g_rx_state := sysex_state_t.SYSEX_STATE_DATA
           g_rx_message := { command := c, data := r.g_rx_message.data, data_len := 0 }
           g_message_ready := false }, [false, false, false, false]) := by
  have h1 : midi_sysex_receive_byte 0xF0 r
      = ({ r with g_rx_state := sysex_state_t.SYSEX_STATE_MANUFACTURER
                  g_message_ready := false
                  g_rx_message := { r.g_rx_message with data_len := 0 } }, false) := by
    unfold midi_sysex_receive_byte
    rw [if_neg (by decide), if_neg (by decide), hidle]
    rfl
  have h4 : ∀ r4 : Rx, r4.g_rx_state = sysex_state_t.SYSEX_STATE_COMMAND →
      midi_sysex_receive_byte c r4
        = ({ r4 with g_rx_message := { r4.g_rx_message with command := c }
                     g_rx_state := sysex_state_t.SYSEX_STATE_DATA }, false) := by
    intro r4 h
    unfold midi_sysex_receive_byte
    rw [if_neg (by omega), if_neg (by omega), h]
  simp only [receive_bytes, h1]
  rw [h4 _ rfl]
  rfl

theorem receive_end (r : Rx) (hs : r.g_rx_state = sysex_state_t.SYSEX_STATE_DATA) :
    receive_bytes [0xF7] r
      = ({ r with g_message_ready := true
                  g_rx_state := sysex_state_t.SYSEX_STATE_IDLE }, [true]) := by
  have h : midi_sysex_receive_byte 0xF7 r
      = ({ r with g_message_ready := true
                  g_rx_state := sysex_state_t.SYSEX_STATE_IDLE }, true) := by
    unfold midi_sysex_receive_byte
    rw [if_neg (by decide), if_neg (by decide), hs]
    rfl
  simp only [receive_bytes, h]

/-- Receiving the frame `F0 7D 01 c d F7` from an idle receiver. -/
theorem receive_frame (c : Nat) (d : List Nat) (r : Rx) (hc : c ≤ 0x7F)
    (hd : d.length ≤ 251) (hb : ∀ b ∈ d, b ≤ 0x7F)
    (hidle : r.g_rx_state = sysex_state_t.SYSEX_STATE_IDLE)
    (hlen : r.g_rx_message.data.length = 251) :
    (receive_bytes (Spec.sysex_frame c d) r).2 = List.replicate (d.length + 4) false ++ [true] ∧
    (receive_bytes (Spec.sysex_frame c d) r).1.g_rx_state = sysex_state_t.SYSEX_STATE_IDLE ∧
    (receive_bytes (Spec.sysex_frame c d) r).1.g_message_ready = true ∧
    (receive_bytes (Spec.sysex_frame c d) r).1.g_rx_message.command = c ∧
    (receive_bytes (Spec.sysex_frame c d) r).1.g_rx_message.data_len = d.length ∧
    (receive_bytes (Spec.sysex_frame c d) r).1.g_rx_message.data.take d.length = d := by
  unfold Spec.sysex_frame
  rw [receive_bytes_append, receive_bytes_append, receive_header c r hc hidle]
  dsimp only
  have h := receive_data_bytes d
    { g_rx_state := sysex_state_t.SYSEX_STATE_DATA
      g_rx_message := { command := c, data := r.g_rx_message.data, data_len := 0 }
      g_message_ready := false } hb rfl hlen (by simpa using hd)
  obtain ⟨h1, h2, h3, h4, h5, h6, h7⟩ := h
  rw [receive_end _ h2]
  refine ⟨?_, rfl, rfl, h4, ?_, ?_⟩
  · rw [h1]
    show _ = List.replicate (d.length + 1 + 1 + 1 + 1) false ++ [true]
    simp only [List.replicate_succ, List.cons_append]
    rfl
  · simpa using h5
  · simpa using h7

theorem send_raw_loop_all (data : List Nat) (fuel i : Nat) (buffer : List Nat)
    (hf : data.length - i ≤ fuel) (hi : i ≤ data.length)
    (hroom : buffer.length + (data.length - i) ≤ 255) :
    send_raw_loop data data.length fuel i buffer = buffer ++ data.drop i := by
  induction fuel generalizing i buffer with
  | zero =>
    have : data.length ≤ i := by omega
    simp [send_raw_loop, List.drop_of_length_le this]
  | succ n ih =>
    unfold send_raw_loop
    by_cases hlt : i < data.length
    · have hroom2 : (buffer ++ [data.getD i 0]).length + (data.length - (i + 1)) ≤ 255 := by
        rw [List.length_append, List.length_singleton]
        omega
      rw [if_pos ⟨hlt, by unfold SYSEX_MAX_SIZE; omega⟩]
      rw [ih (i + 1) _ (by omega) (by omega) hroom2]
      rw [List.append_assoc]
      congr 1
      rw [List.getD_eq_getElem _ _ hlt, List.singleton_append, List.drop_eq_getElem_cons hlt]
    · rw [if_neg (fun h => hlt h.1)]
      simp [List.drop_of_length_le (Nat.le_of_not_lt hlt)]

theorem send_raw_frame (c : Nat) (d : List Nat) (hd : d.length ≤ 251) :
    midi_sysex_send_raw c d d.length = Spec.sysex_frame c d := by
  unfold midi_sysex_send_raw Spec.sysex_frame
  dsimp only
  rw [send_raw_loop_all d d.length 0 _ (by omega) (by omega) (by simp; omega)]
  rfl

theorem pressure_data_length (v : Int) : (pressure_data v).length = 5 := rfl

theorem pressure_data_le (v : Int) : ∀ b ∈ pressure_data v, b ≤ 0x7F := by
  intro b hbm
  have h127 : ∀ x : Nat, x &&& 0x7F ≤ 0x7F := fun x => by
    rw [and_127]
    omega
  have h15 : ∀ x : Nat, x &&& 0x0F < 16 := fun x => by
    rw [and_15]
    omega
  unfold pressure_data at hbm
  by_cases hneg : v < 0
  · simp only [hneg, if_true, decide_True, List.mem_cons, List.mem_singleton,
      List.not_mem_nil, or_false] at hbm
    rcases hbm with h | h | h | h | h
    · rw [h]
      exact (sign_bit_facts _ (h15 _)).2.2.2
    all_goals rw [h]; exact h127 _
  · simp only [hneg, if_false, decide_False, List.mem_cons, List.mem_singleton,
      List.not_mem_nil, or_false] at hbm
    rcases hbm with h | h | h | h | h
    · rw [h]
      have := h15 ((v % 2 ^ 32).toNat >>> 28)
      omega
    all_goals rw [h]; exact h127 _

theorem decode_pressure_data (v : Int) (hlo : -2 ^ 31 ≤ v) (hhi : v < 2 ^ 31) :
    Spec.decode_pressure (pressure_data v) = v := by
  have h15 : ∀ x : Nat, x &&& 0x0F < 16 := fun x => by
    rw [and_15]
    omega
  have h127 : ∀ x : Nat, x &&& 0x7F < 128 := fun x => by
    rw [and_127]
    omega
  by_cases hneg : v < 0
  · obtain ⟨val, hval⟩ : ∃ val : Nat, ((-v) % 2 ^ 32).toNat = val := ⟨_, rfl⟩
    have hvv : (val : Int) = -v := by
      rw [← hval, Int.toNat_of_nonneg (Int.emod_nonneg _ (by norm_num))]
      exact Int.emod_eq_of_lt (by omega) (by omega)
    have hlt : val < 2 ^ 32 := by
      have : (val : Int) < 2 ^ 32 := by omega
      exact_mod_cast this
    unfold pressure_data Spec.decode_pressure
    simp only [hneg, if_true, decide_True, hval, List.getD_cons_zero, List.getD_cons_succ]
    have hs := sign_bit_facts _ (h15 (val >>> 28))
    rw [hs.2.1, if_pos rfl, hs.1]
    rw [septets_join _ _ _ _ _ (h127 _) (h127 _) (h127 _) (h127 _), septets_split val hlt]
    omega
  · obtain ⟨val, hval⟩ : ∃ val : Nat, (v % 2 ^ 32).toNat = val := ⟨_, rfl⟩
    have hvv : (val : Int) = v := by
      rw [← hval, Int.toNat_of_nonneg (Int.emod_nonneg _ (by norm_num))]
      exact Int.emod_eq_of_lt (by omega) (by omega)
    have hlt : val < 2 ^ 32 := by
      have : (val : Int) < 2 ^ 32 := by omega
      exact_mod_cast this
    unfold pressure_data Spec.decode_pressure
    simp only [hneg, if_false, decide_False, hval, List.getD_cons_zero, List.getD_cons_succ]
    have hs := sign_bit_facts _ (h15 (val >>> 28))
    rw [hs.2.2.1]
    have hidem : (val >>> 28 &&& 0x0F) &&& 0x0F = val >>> 28 &&& 0x0F := by
      rw [and_15 (val >>> 28 &&& 0x0F), Nat.mod_eq_of_lt (h15 _)]
    rw [hidem, septets_join _ _ _ _ _ (h127 _) (h127 _) (h127 _) (h127 _),
      septets_split val hlt]
    simpa using hvv

end Sysex
/-- C16: for every signed 32-bit `v`, the frame `midi_sysex_send_pressure v`
sends, fed byte by byte to `midi_sysex_receive_byte` from an idle receiver,
completes exactly at its last byte; `midi_sysex_get_message` then returns one
`CMD_PRESSURE` message with `data_len = 5` whose five data bytes decode (sign in
bit 6 of byte 0, magnitude from the low 4 bits of byte 0 and the four septets)
to `v`; the data bytes for -5 are 40 00 00 00 05. -/
theorem C16_pressure_roundtrip (v : Int) (r : Sysex.Rx) (hlo : -2 ^ 31 ≤ v) (hhi : v < 2 ^ 31)
    (hidle : r.g_rx_state = Sysex.sysex_state_t.SYSEX_STATE_IDLE)
    (hlen : r.g_rx_message.data.length = 251) :
    (Sysex.receive_bytes (Sysex.midi_sysex_send_pressure v) r).2
      = [false, false, false, false, false, false, false, false, false, true] ∧
    (∃ m : Sysex.sysex_message_t,
      (Sysex.midi_sysex_get_message
        (Sysex.receive_bytes (Sysex.midi_sysex_send_pressure v) r).1).2 = some m ∧
      m.command = Sysex.CMD_PRESSURE ∧ m.data_len = 5 ∧
      Spec.decode_pressure (m.data.take m.data_len) = v) ∧
    (Sysex.midi_sysex_get_message (Sysex.midi_sysex_get_message
      (Sysex.receive_bytes (Sysex.midi_sysex_send_pressure v) r).1).1).2 = none ∧
    Sysex.pressure_data (-5) = [0x40, 0x00, 0x00, 0x00, 0x05] := by
  have hsend : Sysex.midi_sysex_send_pressure v
      = Spec.sysex_frame Sysex.CMD_PRESSURE (Sysex.pressure_data v) :=
    Sysex.send_raw_frame Sysex.CMD_PRESSURE (Sysex.pressure_data v)
      (by rw [Sysex.pressure_data_length]; decide)
  have h := Sysex.receive_frame Sysex.CMD_PRESSURE (Sysex.pressure_data v) r (by decide)
    (by rw [Sysex.pressure_data_length]; decide) (Sysex.pressure_data_le v) hidle hlen
  rw [← hsend] at h
  obtain ⟨h1, _, h3, h4, h5, h6⟩ := h
  refine ⟨h1, ⟨_, ?_, h4, h5, ?_⟩, ?_, by decide⟩
  · unfold Sysex.midi_sysex_get_message
    rw [if_pos h3]
  · rw [h5, h6]
    exact Sysex.decode_pressure_data v hlo hhi
  · unfold Sysex.midi_sysex_get_message
    rw [if_pos h3]
    rfl

/-- C16 at `v = -5` and the receiver as `midi_sysex_init` leaves it. -/
theorem C16_pressure_roundtrip_witness :
    Sysex.midi_sysex_send_pressure (-5) = [0xF0, 0x7D, 0x01, 0x01, 0x40, 0, 0, 0, 5, 0xF7] ∧
    ∃ m : Sysex.sysex_message_t,
      (Sysex.midi_sysex_get_message
        (Sysex.receive_bytes (Sysex.midi_sysex_send_pressure (-5))
          Sysex.midi_sysex_init).1).2 = some m ∧
      m.command = Sysex.CMD_PRESSURE ∧ m.data_len = 5 ∧
      Spec.decode_pressure (m.data.take m.data_len) = -5 :=
  ⟨by decide,
   (C16_pressure_roundtrip (-5) Sysex.midi_sysex_init (by decide) (by decide) rfl
    (List.length_replicate _ _)).2.1⟩

/-- C17: for a command byte `c <= 0x7F` and a payload `d` of at most 251 bytes,
each `<= 0x7F`, `midi_sysex_send_raw` builds the frame `F0 7D 01 c d F7`;
feeding that frame to `midi_sysex_receive_byte` from an idle receiver returns
false for every byte but the last and true for the last; `midi_sysex_get_message`
then returns a message with command `c`, `data_len = |d|` and data `d`, and a
second call returns `NULL`. -/
theorem C17_frame_roundtrip (c : Nat) (d : List Nat) (r : Sysex.Rx) (hc : c ≤ 0x7F)
    (hd : d.length ≤ 251) (hb : ∀ b ∈ d, b ≤ 0x7F)
    (hidle : r.g_rx_state = Sysex.sysex_state_t.SYSEX_STATE_IDLE)
    (hlen : r.g_rx_message.data.length = 251) :
    Sysex.midi_sysex_send_raw c d d.length = [0xF0, 0x7D, 0x01, c] ++ d ++ [0xF7] ∧
    (Sysex.receive_bytes (Sysex.midi_sysex_send_raw c d d.length) r).2
      = List.replicate (d.length + 4) false ++ [true] ∧
    (∃ m : Sysex.sysex_message_t,
      (Sysex.midi_sysex_get_message
        (Sysex.receive_bytes (Sysex.midi_sysex_send_raw c d d.length) r).1).2 = some m ∧
      m.command = c ∧ m.data_len = d.length ∧ m.data.take m.data_len = d) ∧
    (Sysex.midi_sysex_get_message (Sysex.midi_sysex_get_message
      (Sysex.receive_bytes (Sysex.midi_sysex_send_raw c d d.length) r).1).1).2 = none := by
  have hsend := Sysex.send_raw_frame c d hd
  have h := Sysex.receive_frame c d r hc hd hb hidle hlen
  rw [← hsend] at h
  obtain ⟨h1, _, h3, h4, h5, h6⟩ := h
  refine ⟨hsend, h1, ⟨_, ?_, h4, h5, ?_⟩, ?_⟩
  · unfold Sysex.midi_sysex_get_message
    rw [if_pos h3]
  · rw [h5, h6]
  · unfold Sysex.midi_sysex_get_message
    rw [if_pos h3]
    rfl

/-- C17 at the command byte 0x21 with the payload `41 42`, received after
`midi_sysex_init`. -/
theorem C17_frame_roundtrip_witness :
    Sysex.midi_sysex_send_raw 0x21 [0x41, 0x42] 2 = [0xF0, 0x7D, 0x01, 0x21, 0x41, 0x42, 0xF7] ∧
    (Sysex.receive_bytes (Sysex.midi_sysex_send_raw 0x21 [0x41, 0x42] 2)
      Sysex.midi_sysex_init).2 = [false, false, false, false, false, false, true] ∧
    ∃ m : Sysex.sysex_message_t,
      (Sysex.midi_sysex_get_message
        (Sysex.receive_bytes (Sysex.midi_sysex_send_raw 0x21 [0x41, 0x42] 2)
          Sysex.midi_sysex_init).1).2 = some m ∧
      m.command = 0x21 ∧ m.data_len = 2 ∧ m.data.take m.data_len = [0x41, 0x42] :=
  ⟨(C17_frame_roundtrip 0x21 [0x41, 0x42] Sysex.midi_sysex_init (by decide) (by decide)
      (by decide) rfl (List.length_replicate _ _)).1,
   (C17_frame_roundtrip 0x21 [0x41, 0x42] Sysex.midi_sysex_init (by decide) (by decide)
      (by decide) rfl (List.length_replicate _ _)).2.1,
   (C17_frame_roundtrip 0x21 [0x41, 0x42] Sysex.midi_sysex_init (by decide) (by decide)
      (by decide) rfl (List.length_replicate _ _)).2.2.1⟩
/-! ## BMP280: the compensation pipeline against the reference -/

namespace CLib

theorem wrap32_of_fits {x : Int} (h : fits32 x) : wrap32 x = x := by
  unfold fits32 at h
  unfold wrap32
  rw [Int.emod_eq_of_lt (by omega) (by omega)]
  omega

theorem wrap64_of_fits {x : Int} (h : fits64 x) : wrap64 x = x := by
  unfold fits64 at h
  unfold wrap64
  rw [Int.emod_eq_of_lt (by omega) (by omega)]
  omega

theorem fits32_of_int16 {x : Int} (h : -2 ^ 15 ≤ x ∧ x < 2 ^ 15) : fits32 x := by
  unfold fits32
  omega

theorem fits32_of_uint16 {x : Int} (h : 0 ≤ x ∧ x < 2 ^ 16) : fits32 x := by
  unfold fits32
  omega

theorem fits64_of_int16 {x : Int} (h : -2 ^ 15 ≤ x ∧ x < 2 ^ 15) : fits64 x := by
  unfold fits64
  omega

theorem fits64_of_uint16 {x : Int} (h : 0 ≤ x ∧ x < 2 ^ 16) : fits64 x := by
  unfold fits64
  omega

theorem fits64_of_fits32 {x : Int} (h : fits32 x) : fits64 x := by
  unfold fits32 at h
  unfold fits64
  omega

end CLib

namespace Pico

open CLib

theorem bmp280_t_fine_eq (c : bmp280_calib_t) (adc_T : Int) (ht : calib_typed c)
    (hT : 0 ≤ adc_T ∧ adc_T < 2 ^ 20)
    (h : Spec.t_fine_in_range c.dig_T1 c.dig_T2 c.dig_T3 adc_T) :
    bmp280_t_fine c adc_T = Spec.bmp280_t_fine c.dig_T1 c.dig_T2 c.dig_T3 adc_T := by
  obtain ⟨t1, _, t2, t3, _⟩ := ht
  obtain ⟨h3, h5, h6, h7⟩ := h
  have h1 : fits32 (c.dig_T1 * 2 ^ 1) := by
    unfold fits32
    omega
  have h2 : fits32 (shr adc_T 3 - c.dig_T1 * 2 ^ 1) := by
    unfold fits32 shr
    rw [Int.shiftRight_eq_div_pow]
    norm_num
    omega
  have h4 : fits32 (shr adc_T 4 - c.dig_T1) := by
    unfold fits32 shr
    rw [Int.shiftRight_eq_div_pow]
    norm_num
    omega
  unfold Spec.bmp280_t_fine at h7
  unfold bmp280_t_fine Spec.bmp280_t_fine
  simp only [wrap32_of_fits (fits32_of_uint16 t1), wrap32_of_fits (fits32_of_int16 t2),
    wrap32_of_fits (fits32_of_int16 t3), wrap32_of_fits h1, wrap32_of_fits h2,
    wrap32_of_fits h3, wrap32_of_fits h4, wrap32_of_fits h5, wrap32_of_fits h6,
    wrap32_of_fits h7]

theorem bmp280_pressure_int_eq (c : bmp280_calib_t) (t_fine adc_P : Int) (ht : calib_typed c)
    (hP : 0 ≤ adc_P ∧ adc_P < 2 ^ 20) (hf : fits32 t_fine) (hv : Spec.P_vars_in_range c t_fine)
    (hr : Spec.bmp280_P_var1 c.dig_P1 c.dig_P2 c.dig_P3 t_fine ≠ 0 →
      Spec.P_result_in_range c (Spec.bmp280_P_var1 c.dig_P1 c.dig_P2 c.dig_P3 t_fine)
        (Spec.bmp280_P_var2 c.dig_P4 c.dig_P5 c.dig_P6 t_fine) adc_P) :
    bmp280_pressure_int c t_fine adc_P
      = if Spec.bmp280_P_var1 c.dig_P1 c.dig_P2 c.dig_P3 t_fine = 0 then none
        else some (Spec.bmp280_P_final c.dig_P7 c.dig_P8 c.dig_P9
          (Spec.bmp280_P_quot (Spec.bmp280_P_var1 c.dig_P1 c.dig_P2 c.dig_P3 t_fine)
            (Spec.bmp280_P_var2 c.dig_P4 c.dig_P5 c.dig_P6 t_fine) adc_P)) := by
  obtain ⟨_, p1, _, _, p2, p3, p4, p5, p6, p7, p8, p9⟩ := ht
  obtain ⟨v2, v3, v4, v5, v6, v8, v9, v10, v11, v12, v13, v14⟩ := hv
  have v1 : fits64 (t_fine - 128000) := by
    unfold fits32 at hf
    unfold fits64
    omega
  have v7 : fits64 (c.dig_P4 * 2 ^ 35) := by
    unfold fits64
    omega
  unfold Spec.bmp280_P_var2 at v8
  have hvar2 : wrap64 (wrap64 (wrap64 (wrap64 (wrap64 (wrap64 t_fine - 128000)
        * wrap64 (wrap64 t_fine - 128000)) * wrap64 c.dig_P6)
        + wrap64 (wrap64 (wrap64 (wrap64 t_fine - 128000) * wrap64 c.dig_P5) * 2 ^ 17))
        + wrap64 (wrap64 c.dig_P4 * 2 ^ 35))
      = Spec.bmp280_P_var2 c.dig_P4 c.dig_P5 c.dig_P6 t_fine := by
    unfold Spec.bmp280_P_var2
    simp only [wrap64_of_fits (fits64_of_fits32 hf), wrap64_of_fits (fits64_of_int16 p4),
      wrap64_of_fits (fits64_of_int16 p5), wrap64_of_fits (fits64_of_int16 p6),
      wrap64_of_fits v1, wrap64_of_fits v2, wrap64_of_fits v3, wrap64_of_fits v4,
      wrap64_of_fits v5, wrap64_of_fits v6, wrap64_of_fits v7, wrap64_of_fits v8]
  have hvar1 : shr (wrap64 (wrap64 (wrap64 (1 * 2 ^ 47)
        + wrap64 (shr (wrap64 (wrap64 (wrap64 (wrap64 t_fine - 128000)
            * wrap64 (wrap64 t_fine - 128000)) * wrap64 c.dig_P3)) 8
          + wrap64 (wrap64 (wrap64 (wrap64 t_fine - 128000) * wrap64 c.dig_P2) * 2 ^ 12)))
        * wrap64 c.dig_P1)) 33
      = Spec.bmp280_P_var1 c.dig_P1 c.dig_P2 c.dig_P3 t_fine := by
    unfold Spec.bmp280_P_var1
    have h47 : fits64 (1 * 2 ^ 47) := by
      unfold fits64
      norm_num
    simp only [wrap64_of_fits (fits64_of_fits32 hf), wrap64_of_fits (fits64_of_uint16 p1),
      wrap64_of_fits (fits64_of_int16 p2), wrap64_of_fits (fits64_of_int16 p3),
      wrap64_of_fits v1, wrap64_of_fits v2, wrap64_of_fits v9, wrap64_of_fits v10,
      wrap64_of_fits v11, wrap64_of_fits v12, wrap64_of_fits v13, wrap64_of_fits v14,
      wrap64_of_fits h47]
  unfold bmp280_pressure_int
  dsimp only
  rw [hvar1, hvar2]
  by_cases h0 : Spec.bmp280_P_var1 c.dig_P1 c.dig_P2 c.dig_P3 t_fine = 0
  · rw [if_pos h0, if_pos h0]
  · rw [if_neg h0, if_neg h0]
    obtain ⟨r3, r4, r5, r6, r7, r8, r9, r10, r12⟩ := hr h0
    have r0 : fits32 (1048576 - adc_P) := by
      unfold fits32
      omega
    have r1 : fits64 (1048576 - adc_P) := by
      unfold fits64
      omega
    have r2 : fits64 ((1048576 - adc_P) * 2 ^ 31) := by
      unfold fits64
      omega
    have r11 : fits64 (c.dig_P7 * 2 ^ 4) := by
      unfold fits64
      omega
    have hfin : fits64 (Spec.bmp280_P_final c.dig_P7 c.dig_P8 c.dig_P9
        (Spec.bmp280_P_quot (Spec.bmp280_P_var1 c.dig_P1 c.dig_P2 c.dig_P3 t_fine)
          (Spec.bmp280_P_var2 c.dig_P4 c.dig_P5 c.dig_P6 t_fine) adc_P)) := by
      unfold fits64
      omega
    unfold Spec.bmp280_P_final at hfin ⊢
    unfold Spec.bmp280_P_quot at r5 r6 r7 r8 r9 r10 hfin ⊢
    simp only [wrap64_of_fits (fits64_of_int16 p7), wrap64_of_fits (fits64_of_int16 p8),
      wrap64_of_fits (fits64_of_int16 p9), wrap32_of_fits r0, wrap64_of_fits r1,
      wrap64_of_fits r2,
      wrap64_of_fits r3, wrap64_of_fits r4, wrap64_of_fits r5, wrap64_of_fits r6,
      wrap64_of_fits r7, wrap64_of_fits r8, wrap64_of_fits r9, wrap64_of_fits r10,
      wrap64_of_fits r11, wrap64_of_fits hfin]

end Pico

theorem adc20_range (msb lsb xlsb : Nat) (h0 : msb < 256) (h1 : lsb < 256) (h2 : xlsb < 256) :
    0 ≤ Pico.adc20 msb lsb xlsb ∧ Pico.adc20 msb lsb xlsb < 2 ^ 20 := by
  unfold Pico.adc20
  refine ⟨Int.ofNat_nonneg _, ?_⟩
  have hlt : msb <<< 12 ||| lsb <<< 4 ||| xlsb >>> 4 < 2 ^ 20 := by
    apply Nat.or_lt_two_pow
    · apply Nat.or_lt_two_pow
      · rw [Nat.shiftLeft_eq]
        omega
      · rw [Nat.shiftLeft_eq]
        omega
    · rw [Nat.shiftRight_eq_div_pow]
      omega
  exact_mod_cast hlt

/-- C19 fails: `bmp280_init` (for either accepted chip id) writes
`BMP280_CTRL_STABLE = 0x57` to the ctrl_meas register 0xF4 as its last write, but
`(0b001 << 5) | (0b101 << 2) | 0b11` is 0x37, not 0x57: bits 7..5 of 0x57
(`osrs_t`) are 010, not 001, while bits 4..2 (`osrs_p`) are 101 and bits 1..0
(`mode`) are 11, so that `0x57 = (0b010 << 5) | (0b101 << 2) | 0b11`. -/
theorem C19_ctrl_meas_osrs_t_is_010 :
    Pico.bmp280_init 0x58
      = ([(0xE0, 0xB6), (0xF4, 0x00), (0xF5, 0x04), (0xF4, Pico.BMP280_CTRL_STABLE)], true) ∧
    Pico.bmp280_init 0x60
      = ([(0xE0, 0xB6), (0xF4, 0x00), (0xF5, 0x04), (0xF4, Pico.BMP280_CTRL_STABLE)], true) ∧
    Pico.BMP280_CTRL_STABLE = 0x57 ∧
    (0b001 <<< 5) ||| (0b101 <<< 2) ||| 0b11 = 0x37 ∧
    Pico.BMP280_CTRL_STABLE ≠ (0b001 <<< 5) ||| (0b101 <<< 2) ||| 0b11 ∧
    Pico.BMP280_CTRL_STABLE = (0b010 <<< 5) ||| (0b101 <<< 2) ||| 0b11 ∧
    (Pico.BMP280_CTRL_STABLE >>> 5) &&& 0b111 = 0b010 ∧
    (Pico.BMP280_CTRL_STABLE >>> 2) &&& 0b111 = 0b101 ∧
    Pico.BMP280_CTRL_STABLE &&& 0b11 = 0b11 := by
  decide
/-! ## The settings record: save, then load -/

namespace Pico

open CLib

theorem word_bytes_magic : word_bytes SETTINGS_MAGIC = [0x46, 0x56, 0x49, 0x44] := by
  decide

theorem read_word_settings_sector (pin_field name_field : List Nat) :
    read_word (settings_sector pin_field name_field) = SETTINGS_MAGIC := by
  unfold settings_sector
  rw [word_bytes_magic]
  generalize List.replicate (FLASH_SECTOR_SIZE - FLASH_PAGE_SIZE) 0xFF = tail
  generalize List.replicate 222 0xFF = res
  simp only [List.append_assoc, List.cons_append, List.nil_append]
  unfold read_word
  simp only [List.getD_cons_zero, List.getD_cons_succ]
  decide

theorem drop_settings_sector_pin (pin_field name_field : List Nat) :
    (settings_sector pin_field name_field).drop 4
      = pin_field ++ (name_field ++ (List.replicate 222 0xFF
          ++ List.replicate (FLASH_SECTOR_SIZE - FLASH_PAGE_SIZE) 0xFF)) := by
  unfold settings_sector
  rw [word_bytes_magic]
  generalize List.replicate (FLASH_SECTOR_SIZE - FLASH_PAGE_SIZE) 0xFF = tail
  generalize List.replicate 222 0xFF = res
  simp only [List.append_assoc, List.cons_append, List.nil_append, List.drop_succ_cons,
    List.drop_zero]

theorem drop_settings_sector_name (pin_field name_field : List Nat) (h : pin_field.length = 5) :
    (settings_sector pin_field name_field).drop 9
      = name_field ++ (List.replicate 222 0xFF
          ++ List.replicate (FLASH_SECTOR_SIZE - FLASH_PAGE_SIZE) 0xFF) := by
  have h9 : (9 : Nat) = 4 + 5 := rfl
  rw [h9, ← List.drop_drop, drop_settings_sector_pin, ← h, List.drop_left]

theorem take_settings_sector (pin_field name_field : List Nat) (hp : pin_field.length = 5)
    (hn : name_field.length = 25) :
    (settings_sector pin_field name_field).take 256
      = word_bytes SETTINGS_MAGIC ++ pin_field ++ name_field ++ List.replicate 222 0xFF := by
  unfold settings_sector
  rw [word_bytes_magic]
  generalize List.replicate (FLASH_SECTOR_SIZE - FLASH_PAGE_SIZE) 0xFF = tail
  have hl : ([0x46, 0x56, 0x49, 0x44] ++ pin_field ++ name_field
      ++ List.replicate 222 0xFF).length = 256 := by
    simp only [List.length_append, List.length_replicate, List.length_cons, List.length_nil,
      hp, hn]
  rw [← hl, List.take_left]

theorem padded_name_eq (name : List Nat) (n : Nat) :
    name ++ List.replicate n 0 ++ [0] = name ++ 0 :: List.replicate n 0 := by
  rw [List.append_assoc]
  congr 1
  induction n with
  | zero => rfl
  | succ k ih => rw [List.replicate_succ, List.cons_append, ih]

end Pico

/-- C20: with the settings sector a byte array, for a device name of at most 24
bytes without NUL and a PIN of 4 characters held in memory, the record
`flash_save_settings` writes is 256 bytes: the magic 0x44495646 (little endian),
the 5-byte PIN field, the 25-byte name field and 222 bytes 0xFF; a
`flash_load_settings` reading that sector stores exactly that name and PIN,
whatever the arrays held before; and the save changes neither the in-memory name
nor the PIN. -/
theorem C20_settings_roundtrip (s t : Pico.State) (name pin rest_name rest_pin : List Nat)
    (hname : s.g_device_name = name ++ 0 :: rest_name) (hn : name.length ≤ 24)
    (hn0 : ∀ x, x ∈ name → x ≠ 0)
    (hpin : s.g_device_pin = pin ++ 0 :: rest_pin) (hp : pin.length = 4)
    (hp0 : ∀ x, x ∈ pin → x ≠ 0)
    (htn : t.g_device_name.length = 25) (htp : t.g_device_pin.length = 5)
    (hflash : t.flash = (Pico.flash_save_settings s).flash) :
    (Pico.flash_save_settings s).flash.take 256
      = [0x46, 0x56, 0x49, 0x44] ++ (pin ++ [0])
        ++ (name ++ List.replicate (25 - name.length) 0) ++ List.replicate 222 0xFF ∧
    ((Pico.flash_save_settings s).flash.take 256).length = 256 ∧
    (Pico.flash_load_settings t).g_device_name
      = name ++ List.replicate (25 - name.length) 0 ∧
    (Pico.flash_load_settings t).g_device_pin = pin ++ [0] ∧
    CLib.cstr_bytes (Pico.flash_load_settings t).g_device_name = name ∧
    CLib.cstr_bytes (Pico.flash_load_settings t).g_device_pin = pin ∧
    (Pico.flash_save_settings s).g_device_name = s.g_device_name ∧
    (Pico.flash_save_settings s).g_device_pin = s.g_device_pin := by
  have hsave := Pico.flash_save_settings_flash s
  have hpf : CLib.strncpy_bytes s.g_device_pin 4 = pin := by
    rw [hpin, CLib.strncpy_bytes_append_nul pin rest_pin 4 hp0, ← hp]
    simp
  have hnf : CLib.strncpy_bytes s.g_device_name 24
      = name ++ List.replicate (24 - name.length) 0 := by
    rw [hname, CLib.strncpy_bytes_append_nul name rest_name 24 hn0, List.take_of_length_le hn]
  rw [hpf, hnf] at hsave
  have hpl : (pin ++ [0]).length = 5 := by simp [hp]
  have hnl : (name ++ List.replicate (24 - name.length) 0 ++ [0]).length = 25 := by
    simp only [List.length_append, List.length_replicate, List.length_singleton]
    omega
  have hpad : name ++ List.replicate (24 - name.length) 0 ++ [0]
      = name ++ List.replicate (25 - name.length) 0 := by
    rw [List.append_assoc]
    congr 1
    rw [show 25 - name.length = (24 - name.length) + 1 by omega, List.replicate_succ']
  have hrec : (Pico.flash_save_settings s).flash.take 256
      = [0x46, 0x56, 0x49, 0x44] ++ (pin ++ [0])
        ++ (name ++ List.replicate (25 - name.length) 0) ++ List.replicate 222 0xFF := by
    rw [hsave, Pico.take_settings_sector _ _ hpl hnl, hpad]
    rfl
  have hload_name : (Pico.flash_load_settings t).g_device_name
      = name ++ List.replicate (25 - name.length) 0 := by
    unfold Pico.flash_load_settings
    rw [hflash, hsave, if_pos (Pico.read_word_settings_sector _ _)]
    show (CLib.strncpy t.g_device_name (List.drop 9 _) 24).set 24 0 = _
    rw [CLib.array_copy_eq _ _ 24 htn, Pico.drop_settings_sector_name _ _ hpl]
    rw [Pico.padded_name_eq, List.append_assoc, List.cons_append,
      CLib.strncpy_bytes_append_nul name _ 24 hn0, List.take_of_length_le hn, hpad]
  have hload_pin : (Pico.flash_load_settings t).g_device_pin = pin ++ [0] := by
    unfold Pico.flash_load_settings
    rw [hflash, hsave, if_pos (Pico.read_word_settings_sector _ _)]
    show (CLib.strncpy t.g_device_pin (List.drop 4 _) 4).set 4 0 = _
    rw [CLib.array_copy_eq _ _ 4 htp, Pico.drop_settings_sector_pin]
    rw [List.append_assoc, List.singleton_append,
      CLib.strncpy_bytes_append_nul pin _ 4 hp0, ← hp]
    simp
  refine ⟨hrec, ?_, hload_name, hload_pin, ?_, ?_, rfl, rfl⟩
  · rw [hrec]
    simp only [List.length_append, List.length_replicate, List.length_singleton,
      List.length_cons, List.length_nil]
    omega
  · rw [hload_name]
    by_cases h25 : name.length = 25
    · omega
    · rw [show 25 - name.length = (24 - name.length) + 1 by omega, List.replicate_succ]
      exact CLib.cstr_bytes_padded name _ hn0
  · rw [hload_pin]
    exact CLib.cstr_bytes_padded pin [] hp0

set_option maxRecDepth 20000 in
/-- C20 at a Pico named `Dive` with PIN `1234`: the record is saved, and a
freshly booted device (default name and PIN in memory) loads it. -/
theorem C20_settings_roundtrip_witness :
    (Pico.flash_load_settings
      { Pico.boot with flash := (Pico.flash_save_settings Pico.renamed_state).flash }).g_device_name
      = [68, 105, 118, 101] ++ List.replicate 21 0 ∧
    (Pico.flash_load_settings
      { Pico.boot with flash := (Pico.flash_save_settings Pico.renamed_state).flash }).g_device_pin
      = [49, 50, 51, 52, 0] :=
  ⟨(C20_settings_roundtrip Pico.renamed_state
      { Pico.boot with flash := (Pico.flash_save_settings Pico.renamed_state).flash }
      [68, 105, 118, 101] [49, 50, 51, 52] (List.replicate 20 0) [] rfl (by decide) (by decide)
      rfl rfl (by decide) rfl rfl rfl).2.2.1,
   (C20_settings_roundtrip Pico.renamed_state
      { Pico.boot with flash := (Pico.flash_save_settings Pico.renamed_state).flash }
      [68, 105, 118, 101] [49, 50, 51, 52] (List.replicate 20 0) [] rfl (by decide) (by decide)
      rfl rfl (by decide) rfl rfl rfl).2.2.2.1⟩

/-! ## Loading defaults when the magic word does not match -/

theorem flash_load_settings_flash (s : Pico.State) : (Pico.flash_load_settings s).flash = s.flash := by
  unfold Pico.flash_load_settings
  split_ifs <;> rfl

theorem cstr_bytes_strcpy (dst src : List Nat) (h : ∀ x, x ∈ src → x ≠ 0) :
    CLib.cstr_bytes (CLib.strcpy dst src) = src := by
  have hsrc : CLib.cstr_bytes src = src := by
    unfold CLib.cstr_bytes
    induction src with
    | nil => rfl
    | cons c cs ih =>
      have hc : (c != 0) = true := by simpa using h c (List.mem_cons_self _ _)
      rw [List.takeWhile_cons, hc, if_pos rfl, ih (fun x hx => h x (List.mem_cons_of_mem _ hx))]
  unfold CLib.strcpy
  rw [hsrc, List.append_assoc]
  exact CLib.cstr_bytes_padded src _ h

/-- C21: when the first 32-bit word of the settings sector is not the magic
0x44495646, `flash_load_settings` stores the C strings `DiveChecker` and `0000`
in the name and PIN arrays; and in every case it leaves the settings sector as
it was. -/
theorem C21_load_defaults (s : Pico.State)
    (hmagic : Pico.read_word s.flash ≠ Pico.SETTINGS_MAGIC) :
    Pico.SETTINGS_MAGIC = 0x44495646 ∧
    CLib.cstring (Pico.flash_load_settings s).g_device_name = "DiveChecker" ∧
    CLib.cstring (Pico.flash_load_settings s).g_device_pin = "0000" ∧
    CLib.cstr_bytes (Pico.flash_load_settings s).g_device_name
      = [68, 105, 118, 101, 67, 104, 101, 99, 107, 101, 114] ∧
    CLib.cstr_bytes (Pico.flash_load_settings s).g_device_pin = [48, 48, 48, 48] ∧
    (Pico.flash_load_settings s).flash = s.flash := by
  have hname : CLib.cstr_bytes (Pico.flash_load_settings s).g_device_name
      = [68, 105, 118, 101, 67, 104, 101, 99, 107, 101, 114] := by
    unfold Pico.flash_load_settings
    rw [if_neg hmagic]
    exact cstr_bytes_strcpy _ _ (by decide)
  have hpin : CLib.cstr_bytes (Pico.flash_load_settings s).g_device_pin = [48, 48, 48, 48] := by
    unfold Pico.flash_load_settings
    rw [if_neg hmagic]
    exact cstr_bytes_strcpy _ _ (by decide)
  refine ⟨rfl, ?_, ?_, hname, hpin, flash_load_settings_flash s⟩
  · unfold CLib.cstring
    rw [hname]
    decide
  · unfold CLib.cstring
    rw [hpin]
    decide

set_option maxRecDepth 20000 in
/-- C21 at a fully erased sector (4096 bytes 0xFF), loaded into a device whose
arrays hold the name `Dive` and the PIN `1234`. -/
theorem C21_load_defaults_witness :
    Pico.read_word Pico.renamed_state.flash = 0xFFFFFFFF ∧
    CLib.cstring (Pico.flash_load_settings Pico.renamed_state).g_device_name = "DiveChecker" ∧
    CLib.cstring (Pico.flash_load_settings Pico.renamed_state).g_device_pin = "0000" ∧
    (Pico.flash_load_settings Pico.renamed_state).flash = Pico.renamed_state.flash :=
  ⟨by decide,
   (C21_load_defaults Pico.renamed_state (by decide)).2.1,
   (C21_load_defaults Pico.renamed_state (by decide)).2.2.1,
   (C21_load_defaults Pico.renamed_state (by decide)).2.2.2.2.2⟩

/-! ## The inter-core queue never exceeds its capacity -/

namespace Pico

theorem queue_try_add_le (q : List Int) (v : Int) (h : q.length ≤ PRESSURE_QUEUE_SIZE) :
    (queue_try_add q v).length ≤ PRESSURE_QUEUE_SIZE := by
  unfold queue_try_add
  split_ifs with hlt
  · rw [List.length_append, List.length_singleton]
    omega
  · exact h

theorem core1_output_queue (s : State) (l : Core1) :
    (core1_output s l).1.g_pressure_queue
      = queue_try_add s.g_pressure_queue (core1_output s l).2.2 := by
  unfold core1_output
  dsimp only
  split_ifs <;> rfl

theorem core1_iteration_queue (now_us : Nat) (reading : ℚ) (s : State) (l : Core1)
    (h : s.g_pressure_queue.length ≤ PRESSURE_QUEUE_SIZE) :
    (core1_iteration now_us reading s l).1.g_pressure_queue.length ≤ PRESSURE_QUEUE_SIZE := by
  unfold core1_iteration
  dsimp only
  split_ifs
  all_goals first
    | exact h
    | (rw [core1_output_queue]; exact queue_try_add_le _ _ h)

theorem ecdsa_init_queue (env : CryptoEnv) (s : State) :
    (ecdsa_init env s).2.g_pressure_queue = s.g_pressure_queue := by
  unfold ecdsa_init
  dsimp only
  split_ifs <;> rfl

theorem ecdsa_sign_checked_queue (env : CryptoEnv) (h : List Nat) (n : Nat) (s : State) :
    (ecdsa_sign_checked env h n s).g_pressure_queue = s.g_pressure_queue := by
  unfold ecdsa_sign_checked
  dsimp only
  split_ifs <;> rfl

theorem ecdsa_sign_challenge_queue (env : CryptoEnv) (h : List Nat) (n : Nat) (s : State) :
    (ecdsa_sign_challenge env h n s).g_pressure_queue = s.g_pressure_queue := by
  unfold ecdsa_sign_challenge
  split_ifs
  · exact ecdsa_init_queue env s
  · exact (ecdsa_sign_checked_queue env h n _).trans (ecdsa_init_queue env s)
  · exact ecdsa_sign_checked_queue env h n s

theorem cmd_set_name_queue (s : State) :
    (cmd_set_name s).g_pressure_queue = s.g_pressure_queue := by
  unfold cmd_set_name
  dsimp only
  split_ifs <;> rfl

theorem cmd_change_pin_queue (s : State) :
    (cmd_change_pin s).g_pressure_queue = s.g_pressure_queue := by
  unfold cmd_change_pin
  dsimp only
  split_ifs <;> rfl

theorem cmd_set_rate_queue (s : State) :
    (cmd_set_rate s).g_pressure_queue = s.g_pressure_queue := by
  unfold cmd_set_rate
  dsimp only
  split_ifs <;> rfl

theorem cmd_dispatch_queue (env : CryptoEnv) (s : State) :
    (cmd_dispatch env s).g_pressure_queue = s.g_pressure_queue := by
  unfold cmd_dispatch
  split_ifs
  · exact cmd_set_name_queue s
  · exact cmd_change_pin_queue s
  · exact ecdsa_sign_challenge_queue env _ _ s
  · exact cmd_set_rate_queue s
  · rfl

theorem cmd_single_queue (dbg : List String) (now_ms c : Nat) (s : State) :
    (cmd_single dbg now_ms c s).g_pressure_queue = s.g_pressure_queue := by
  unfold cmd_single
  dsimp only
  split_ifs <;> rfl

theorem cmd_process_char_queue (env : CryptoEnv) (dbg : List String) (now_us c : Nat)
    (s : State) : (cmd_process_char env dbg now_us c s).g_pressure_queue = s.g_pressure_queue := by
  unfold cmd_process_char
  dsimp only
  split_ifs
  · show (cmd_dispatch env _).g_pressure_queue = _
    rw [cmd_dispatch_queue]
  · rfl
  · rfl
  · exact cmd_single_queue dbg _ c s

theorem main_forward_packet_queue (s : State) (v : Int) :
    (main_forward_packet s v).g_pressure_queue = s.g_pressure_queue := by
  unfold main_forward_packet
  dsimp only
  split_ifs <;> rfl

theorem foldl_forward_queue (packets : List Int) (s : State) :
    (packets.foldl main_forward_packet s).g_pressure_queue = s.g_pressure_queue := by
  induction packets generalizing s with
  | nil => rfl
  | cons v vs ih => rw [List.foldl_cons, ih, main_forward_packet_queue]

theorem main_forward_queue (s : State) : (main_forward s).g_pressure_queue = [] := by
  unfold main_forward
  rw [foldl_forward_queue]

theorem main_iteration_queue (env : CryptoEnv) (dbg : List String) (t0_us : Nat)
    (input : Option (Nat × Nat)) (s : State) (b : Nat) :
    (main_iteration env dbg t0_us input s b).1.g_pressure_queue = [] := by
  unfold main_iteration
  exact main_forward_queue _

theorem main_forward_step_queue (s : State)
    (h : s.g_pressure_queue.length ≤ PRESSURE_QUEUE_SIZE) :
    (main_forward_step s).g_pressure_queue.length ≤ PRESSURE_QUEUE_SIZE := by
  unfold main_forward_step
  split
  · exact h
  · rename_i packet rest heq
    rw [main_forward_packet_queue]
    rw [heq, List.length_cons] at h
    exact Nat.le_of_succ_le h

theorem system_step_queue (env : CryptoEnv) (dbg : List String) (e : SystemEvent) (y : System)
    (h : y.shared.g_pressure_queue.length ≤ PRESSURE_QUEUE_SIZE) :
    (system_step env dbg e y).shared.g_pressure_queue.length ≤ PRESSURE_QUEUE_SIZE := by
  cases e with
  | core1 now_us reading => exact core1_iteration_queue now_us reading _ _ h
  | core0 t0_us input =>
    show (main_iteration env dbg t0_us input y.shared y.last_beacon_ms).1.g_pressure_queue.length
      ≤ PRESSURE_QUEUE_SIZE
    rw [main_iteration_queue]
    exact Nat.zero_le _
  | remove => exact main_forward_step_queue _ h

theorem system_run_queue (env : CryptoEnv) (dbg : List String) (events : List SystemEvent)
    (y : System) (h : y.shared.g_pressure_queue.length ≤ PRESSURE_QUEUE_SIZE) :
    (system_run env dbg events y).shared.g_pressure_queue.length ≤ PRESSURE_QUEUE_SIZE := by
  induction events generalizing y with
  | nil => exact h
  | cons e rest ih => exact ih _ (system_step_queue env dbg e y h)

end Pico

/-- C22: the push of the sampling task is `queue_try_add`, which returns
without waiting. In every state reached from the initial one by any interleaving
of iterations of the sampling loop, iterations of the main loop and single
removals, the queue holds at most 32 packets. When the output step finds the
queue full, the queue is left as it is (the packet of that cycle is dropped)
and the step still completes with the sample count reset to 0, so the loop goes
on with its next iteration; when the queue is not full the packet is appended. -/
theorem C22_queue_push_never_blocks (env : Pico.CryptoEnv) (debug_lines : List String)
    (serial : String) (flash : List Nat) (events : List Pico.SystemEvent)
    (s : Pico.State) (l : Pico.Core1) :
    (Pico.system_run env debug_lines events
      (Pico.System.init serial flash)).shared.g_pressure_queue.length ≤ 32 ∧
    (s.g_pressure_queue.length = 32 →
      (Pico.core1_output s l).1.g_pressure_queue = s.g_pressure_queue ∧
      (Pico.core1_output s l).2.1.sample_count = 0) ∧
    (s.g_pressure_queue.length < 32 →
      (Pico.core1_output s l).1.g_pressure_queue
        = s.g_pressure_queue ++ [(Pico.core1_output s l).2.2]) := by
  refine ⟨Pico.system_run_queue env debug_lines events _ (Nat.zero_le _), ?_, ?_⟩
  · intro hfull
    refine ⟨?_, ?_⟩
    · rw [Pico.core1_output_queue]
      unfold Pico.queue_try_add
      rw [if_neg (by rw [hfull]; decide)]
    · unfold Pico.core1_output
      rfl
  · intro hroom
    rw [Pico.core1_output_queue]
    unfold Pico.queue_try_add
    rw [if_pos (by unfold Pico.PRESSURE_QUEUE_SIZE; exact hroom)]

set_option maxRecDepth 20000 in
/-- C22 at a connected Pico whose queue holds 32 packets while the sampling task
holds the twelve example readings: the output step leaves the 32 packets in
place and resets the sample count. -/
theorem C22_queue_push_never_blocks_witness :
    Pico.full_queue_state.g_pressure_queue.length = 32 ∧
    (Pico.core1_output Pico.full_queue_state
      (Pico.core1_with example_readings)).1.g_pressure_queue = List.replicate 32 7 ∧
    (Pico.core1_output Pico.full_queue_state
      (Pico.core1_with example_readings)).2.1.sample_count = 0 :=
  ⟨by decide,
   ((C22_queue_push_never_blocks Pico.configured_env [] "" [] [] Pico.full_queue_state
      (Pico.core1_with example_readings)).2.1 (by decide)).1,
   ((C22_queue_push_never_blocks Pico.configured_env [] "" [] [] Pico.full_queue_state
      (Pico.core1_with example_readings)).2.1 (by decide)).2⟩

/-! ## A ping and the timeout check of the same iteration -/

set_option maxRecDepth 20000 in
/-- C23 fails. Pico: the clock reads 999 µs at the top of the iteration
(`now_ms = 0`) and 1000 µs inside `cmd_process_char` when the ping `P` is
handled (last-ping time 1 ms); the timeout check computes `0 - 1` in 64-bit
unsigned arithmetic, which is 2^64 - 1 > 3000, and the device that has just
connected is disconnected in the same iteration. MCU: `millis()` reads 0 at the
top of `loop` and 1 inside `process_command`; `0 - 1` is 2^32 - 1 and the same
happens. -/
theorem C23_ping_then_timeout_disconnects :
    (Pico.cmd_process_char Pico.configured_env [] 1000 80 Pico.boot).g_app_connected = true ∧
    (Pico.cmd_process_char Pico.configured_env [] 1000 80 Pico.boot).g_last_ping_ms = 1 ∧
    CLib.usub64 (999 / 1000) 1 = 2 ^ 64 - 1 ∧
    (Pico.main_iteration Pico.configured_env [] 999 (some (80, 1000)) Pico.boot
      0).1.g_app_connected = false ∧
    (Pico.main_iteration Pico.configured_env [] 999 (some (80, 1000)) Pico.boot 0).1.out
      = ["INFO:Connected", "PONG", "INFO:Disconnected"] ∧
    (MCU.process_command MCU.configured_env [] 1 80 (MCU.State.init "")).g_connected = true ∧
    (MCU.process_command MCU.configured_env [] 1 80 (MCU.State.init "")).g_last_ping_ms = 1 ∧
    CLib.usub32 0 1 = 2 ^ 32 - 1 ∧
    (MCU.loop MCU.configured_env [] 0 [(1, 80)] 1000 (MCU.State.init "")).g_connected = false ∧
    (MCU.loop MCU.configured_env [] 0 [(1, 80)] 1000 (MCU.State.init "")).out
      = ["INFO:Connected", "PONG", "INFO:Disconnected"] := by
  refine ⟨by decide, by decide, by decide, by decide, by decide, by decide, by decide,
    by decide, ?_, ?_⟩
  · decide
  · decide

/-! ## What the sampling task writes of the shared state -/

namespace Pico

theorem core1_output_shared (s : State) (l : Core1) :
    (core1_output s l).1.g_app_connected = s.g_app_connected ∧
    (core1_output s l).1.g_baseline_set = true ∧
    (s.g_baseline_set = true →
      (core1_output s l).1.g_baseline_pressure = s.g_baseline_pressure) ∧
    (s.g_baseline_set = false →
      (core1_output s l).1.g_baseline_pressure = average l.sample_buffer l.sample_count) := by
  unfold core1_output
  dsimp only
  cases hset : s.g_baseline_set
  · rw [if_pos (by decide)]
    exact ⟨rfl, rfl, fun h => (by cases h), fun _ => rfl⟩
  · rw [if_neg (by decide)]
    exact ⟨rfl, hset, fun _ => rfl, fun h => (by cases h)⟩

end Pico

set_option maxRecDepth 20000 in
/-- C24 fails: a connected Pico with no baseline yet and twelve collected
samples runs one iteration of the sampling loop at 1 s; the iteration sets
`g_baseline_set`, which the claim says the sampling context never writes. -/
theorem C24_counterexample :
    Pico.sampling_unset.g_baseline_set = false ∧
    (Pico.core1_iteration 1000000 1000 Pico.sampling_unset
      (Pico.core1_with example_readings)).1.g_baseline_set = true := by
  decide

/-- C24, amended: no iteration of the loop of `core1_sensor_task` writes the
connected flag. The baseline fields are written by the sampling context: an
output step that finds `g_baseline_set` false stores the mean of that cycle as
baseline value and sets the flag; an iteration that starts with the flag set
leaves the flag and the value as they are. -/
theorem C24_sampling_writes_baseline_only (now_us : Nat) (reading : ℚ) (s : Pico.State)
    (l : Pico.Core1) :
    (Pico.core1_iteration now_us reading s l).1.g_app_connected = s.g_app_connected ∧
    (s.g_baseline_set = true →
      (Pico.core1_iteration now_us reading s l).1.g_baseline_set = true ∧
      (Pico.core1_iteration now_us reading s l).1.g_baseline_pressure
        = s.g_baseline_pressure) ∧
    (s.g_baseline_set = false →
      (Pico.core1_output s l).1.g_baseline_set = true ∧
      (Pico.core1_output s l).1.g_baseline_pressure
        = Pico.average l.sample_buffer l.sample_count) := by
  refine ⟨?_, ?_, ?_⟩
  · unfold Pico.core1_iteration
    dsimp only
    split_ifs
    all_goals first
      | rfl
      | exact (Pico.core1_output_shared _ _).1
  · intro hset
    unfold Pico.core1_iteration
    dsimp only
    split_ifs
    all_goals first
      | exact ⟨hset, rfl⟩
      | exact ⟨(Pico.core1_output_shared _ _).2.1, (Pico.core1_output_shared _ _).2.2.1 hset⟩
  · intro hset
    exact ⟨(Pico.core1_output_shared s l).2.1, (Pico.core1_output_shared s l).2.2.2 hset⟩

set_option maxRecDepth 20000 in
/-- C24 amended, at a connected Pico whose baseline is set to 1000 hPa: the
iteration at 1 s with twelve collected samples leaves the flag and the value. -/
theorem C24_sampling_writes_baseline_only_witness :
    Pico.sampling_state.g_baseline_set = true ∧
    (Pico.core1_iteration 1000000 1000 Pico.sampling_state
      (Pico.core1_with example_readings)).1.g_baseline_set = true ∧
    (Pico.core1_iteration 1000000 1000 Pico.sampling_state
      (Pico.core1_with example_readings)).1.g_baseline_pressure = 1000 :=
  ⟨rfl,
   ((C24_sampling_writes_baseline_only 1000000 1000 Pico.sampling_state
      (Pico.core1_with example_readings)).2.1 rfl).1,
   ((C24_sampling_writes_baseline_only 1000000 1000 Pico.sampling_state
      (Pico.core1_with example_readings)).2.1 rfl).2⟩

/-! ## The command buffer: bounds and the collecting state -/

namespace Pico

open CLib

/-- In the Idle parse state the write position is 0. -/
theorem cmd_single_idle (dbg : List String) (now_ms c : Nat) (s : State)
    (h : s.g_cmd_type = 0 → s.g_cmd_pos = 0) :
    (cmd_single dbg now_ms c s).g_cmd_type = 0 → (cmd_single dbg now_ms c s).g_cmd_pos = 0 := by
  unfold cmd_single
  dsimp only
  split_ifs
  all_goals first
    | exact h
    | exact fun _ => rfl

theorem cmd_process_char_idle (env : CryptoEnv) (dbg : List String) (now_us c : Nat) (s : State)
    (h : s.g_cmd_type = 0 → s.g_cmd_pos = 0) :
    (cmd_process_char env dbg now_us c s).g_cmd_type = 0 →
      (cmd_process_char env dbg now_us c s).g_cmd_pos = 0 := by
  unfold cmd_process_char
  dsimp only
  split_ifs with h1 h2 h3
  · exact fun _ => rfl
  · intro h0
    exact absurd h0 h1
  · intro h0
    exact absurd h0 h1
  · exact cmd_single_idle dbg _ c s h

theorem cmd_process_chars_idle (env : CryptoEnv) (dbg : List String)
    (input : List (Nat × Nat)) (s : State) (h : s.g_cmd_type = 0 → s.g_cmd_pos = 0) :
    (cmd_process_chars env dbg input s).g_cmd_type = 0 →
      (cmd_process_chars env dbg input s).g_cmd_pos = 0 := by
  induction input generalizing s with
  | nil => exact h
  | cons x rest ih =>
    obtain ⟨t, c⟩ := x
    exact ih _ (cmd_process_char_idle env dbg t c s h)

theorem cmd_process_char_collect (env : CryptoEnv) (dbg : List String) (now_us c : Nat)
    (s : State) (htype : s.g_cmd_type ≠ 0) (hc : c ≠ 10 ∧ c ≠ 13) :
    cmd_process_char env dbg now_us c s
      = if s.g_cmd_pos < 71 then
          { s with g_cmd_buffer := s.g_cmd_buffer.set s.g_cmd_pos c, g_cmd_pos := s.g_cmd_pos + 1 }
        else s := by
  unfold cmd_process_char
  dsimp only
  rw [if_pos htype, if_neg (by omega)]
  rfl

theorem cmd_process_char_terminator (env : CryptoEnv) (dbg : List String) (now_us c : Nat)
    (s : State) (hidle : s.g_cmd_type = 0 → s.g_cmd_pos = 0) (hc : c = 10 ∨ c = 13) :
    (cmd_process_char env dbg now_us c s).g_cmd_type = 0 ∧
    (cmd_process_char env dbg now_us c s).g_cmd_pos = 0 := by
  by_cases htype : s.g_cmd_type = 0
  · have hs : cmd_process_char env dbg now_us c s = s := by
      unfold cmd_process_char
      dsimp only
      rw [if_neg (by simpa using htype)]
      unfold cmd_single
      dsimp only
      split_ifs <;> first | rfl | (exfalso; omega)
    rw [hs]
    exact ⟨htype, hidle htype⟩
  · unfold cmd_process_char
    dsimp only
    rw [if_pos htype, if_pos hc]
    exact ⟨rfl, rfl⟩

/-- Feeding payload bytes (no line terminator among them) to the collecting
parser: the first bytes are appended until 71 are buffered, the rest dropped. -/
theorem collect_payload (env : CryptoEnv) (dbg : List String) (payload : List (Nat × Nat))
    (s : State) (htype : s.g_cmd_type ≠ 0) (hlen : s.g_cmd_buffer.length = 72)
    (hpos : s.g_cmd_pos ≤ 71) (hc : ∀ x, x ∈ payload → x.2 ≠ 10 ∧ x.2 ≠ 13) :
    (cmd_process_chars env dbg payload s).g_cmd_type = s.g_cmd_type ∧
    (cmd_process_chars env dbg payload s).g_cmd_pos = min (s.g_cmd_pos + payload.length) 71 ∧
    (cmd_process_chars env dbg payload s).g_cmd_buffer.take
        (min (s.g_cmd_pos + payload.length) 71)
      = s.g_cmd_buffer.take s.g_cmd_pos ++ (payload.map Prod.snd).take (71 - s.g_cmd_pos) := by
  induction payload generalizing s with
  | nil =>
    refine ⟨rfl, ?_, ?_⟩
    · show s.g_cmd_pos = min (s.g_cmd_pos + 0) 71
      omega
    · show s.g_cmd_buffer.take (min (s.g_cmd_pos + 0) 71) = _
      rw [show min (s.g_cmd_pos + 0) 71 = s.g_cmd_pos by omega]
      simp
  | cons x rest ih =>
    obtain ⟨t, c⟩ := x
    have hx : c ≠ 10 ∧ c ≠ 13 := hc (t, c) (List.mem_cons_self _ _)
    have hrest : ∀ x, x ∈ rest → x.2 ≠ 10 ∧ x.2 ≠ 13 :=
      fun x hxm => hc x (List.mem_cons_of_mem _ hxm)
    show (cmd_process_chars env dbg rest (cmd_process_char env dbg t c s)).g_cmd_type = _ ∧
      (cmd_process_chars env dbg rest (cmd_process_char env dbg t c s)).g_cmd_pos = _ ∧
      (cmd_process_chars env dbg rest (cmd_process_char env dbg t c s)).g_cmd_buffer.take _ = _
    rw [cmd_process_char_collect env dbg t c s htype hx]
    simp only [List.length_cons, List.map_cons]
    by_cases hlt : s.g_cmd_pos < 71
    · rw [if_pos hlt]
      obtain ⟨h1, h2, h3⟩ := ih
        { s with g_cmd_buffer := s.g_cmd_buffer.set s.g_cmd_pos c, g_cmd_pos := s.g_cmd_pos + 1 }
        htype (by simpa using hlen) (by show s.g_cmd_pos + 1 ≤ 71; omega) hrest
      refine ⟨h1, ?_, ?_⟩
      · rw [h2]
        show min (s.g_cmd_pos + 1 + rest.length) 71 = _
        omega
      · rw [show min (s.g_cmd_pos + (rest.length + 1)) 71
            = min (s.g_cmd_pos + 1 + rest.length) 71 by omega]
        rw [h3]
        show (s.g_cmd_buffer.set s.g_cmd_pos c).take (s.g_cmd_pos + 1) ++ _ = _
        rw [Sysex.take_succ_set _ _ _ (by omega), List.append_assoc, List.singleton_append]
        rw [show 71 - s.g_cmd_pos = (71 - (s.g_cmd_pos + 1)) + 1 by omega, List.take_succ_cons]
    · rw [if_neg hlt]
      have hp : s.g_cmd_pos = 71 := by omega
      obtain ⟨h1, h2, h3⟩ := ih s htype hlen hpos hrest
      refine ⟨h1, ?_, ?_⟩
      · rw [h2]
        omega
      · rw [show min (s.g_cmd_pos + (rest.length + 1)) 71
            = min (s.g_cmd_pos + rest.length) 71 by omega, h3, hp]
        simp

end Pico

/-- C25: in every state reached from the initial one by feeding bytes to
`cmd_process_char`, the write position is at most 71 and the buffer has its 72
bytes, so the payload write at the position and the NUL write at the position
are inside the buffer; in the Idle state the position is 0. While collecting, a
byte that is not a line terminator is stored and the position advanced if fewer
than 71 bytes are buffered, and otherwise changes nothing; a payload therefore
keeps its first bytes up to 71 in all. A line terminator leaves the parser in
Idle with position 0. -/
theorem C25_command_buffer_bounds (env : Pico.CryptoEnv) (debug_lines : List String)
    (serial : String) (flash : List Nat) (input : List (Nat × Nat)) (t c : Nat) :
    (Pico.cmd_process_chars env debug_lines input (Pico.State.init serial flash)).g_cmd_pos
      ≤ 71 ∧
    (Pico.cmd_process_chars env debug_lines input
      (Pico.State.init serial flash)).g_cmd_buffer.length = 72 ∧
    ((Pico.cmd_process_chars env debug_lines input (Pico.State.init serial flash)).g_cmd_type
        ≠ 0 → c ≠ 10 ∧ c ≠ 13 →
      Pico.cmd_process_char env debug_lines t c
          (Pico.cmd_process_chars env debug_lines input (Pico.State.init serial flash))
        = if (Pico.cmd_process_chars env debug_lines input
              (Pico.State.init serial flash)).g_cmd_pos < 71 then
            { Pico.cmd_process_chars env debug_lines input (Pico.State.init serial flash) with
              g_cmd_buffer :=
                (Pico.cmd_process_chars env debug_lines input
                  (Pico.State.init serial flash)).g_cmd_buffer.set
                  (Pico.cmd_process_chars env debug_lines input
                    (Pico.State.init serial flash)).g_cmd_pos c
              g_cmd_pos :=
                (Pico.cmd_process_chars env debug_lines input
                  (Pico.State.init serial flash)).g_cmd_pos + 1 }
          else Pico.cmd_process_chars env debug_lines input (Pico.State.init serial flash)) ∧
    (∀ payload : List (Nat × Nat),
      (Pico.cmd_process_chars env debug_lines input (Pico.State.init serial flash)).g_cmd_type
        ≠ 0 →
      (∀ x, x ∈ payload → x.2 ≠ 10 ∧ x.2 ≠ 13) →
      (Pico.cmd_process_chars env debug_lines payload
        (Pico.cmd_process_chars env debug_lines input
          (Pico.State.init serial flash))).g_cmd_pos
        = min ((Pico.cmd_process_chars env debug_lines input
            (Pico.State.init serial flash)).g_cmd_pos + payload.length) 71 ∧
      (Pico.cmd_process_chars env debug_lines payload
        (Pico.cmd_process_chars env debug_lines input
          (Pico.State.init serial flash))).g_cmd_buffer.take
          (min ((Pico.cmd_process_chars env debug_lines input
            (Pico.State.init serial flash)).g_cmd_pos + payload.length) 71)
        = (Pico.cmd_process_chars env debug_lines input
            (Pico.State.init serial flash)).g_cmd_buffer.take
            (Pico.cmd_process_chars env debug_lines input
              (Pico.State.init serial flash)).g_cmd_pos
          ++ (payload.map Prod.snd).take
            (71 - (Pico.cmd_process_chars env debug_lines input
              (Pico.State.init serial flash)).g_cmd_pos)) ∧
    (c = 10 ∨ c = 13 →
      (Pico.cmd_process_char env debug_lines t c
        (Pico.cmd_process_chars env debug_lines input
          (Pico.State.init serial flash))).g_cmd_type = 0 ∧
      (Pico.cmd_process_char env debug_lines t c
        (Pico.cmd_process_chars env debug_lines input
          (Pico.State.init serial flash))).g_cmd_pos = 0) := by
  have hwf := Pico.cmd_process_chars_state_wf env debug_lines input _
    (Pico.state_wf_init serial flash)
  have hidle := Pico.cmd_process_chars_idle env debug_lines input
    (Pico.State.init serial flash) (fun _ => rfl)
  generalize Pico.cmd_process_chars env debug_lines input (Pico.State.init serial flash) = s
    at hwf hidle ⊢
  obtain ⟨_, _, hlen, hpos⟩ := hwf
  unfold Pico.CMD_BUFFER_SIZE at hlen hpos
  refine ⟨by omega, hlen, ?_, ?_, ?_⟩
  · intro htype hc
    exact Pico.cmd_process_char_collect env debug_lines t c s htype hc
  · intro payload htype hc
    exact (Pico.collect_payload env debug_lines payload s htype hlen (by omega) hc).2
  · intro hc
    exact Pico.cmd_process_char_terminator env debug_lines t c s hidle hc

set_option maxRecDepth 20000 in
/-- C25 at the line `N` followed by eighty letters `x`: 71 of them are kept, and
the terminator returns the parser to Idle. -/
theorem C25_command_buffer_bounds_witness :
    (Pico.cmd_process_chars Pico.configured_env [] Pico.overlong_line Pico.boot).g_cmd_pos
      ≤ 71 ∧
    (Pico.cmd_process_chars Pico.configured_env [] Pico.overlong_line Pico.boot).g_cmd_pos
      = 71 ∧
    (Pico.cmd_process_char Pico.configured_env [] 0 10
      (Pico.cmd_process_chars Pico.configured_env [] Pico.overlong_line Pico.boot)).g_cmd_type
      = 0 ∧
    (Pico.cmd_process_char Pico.configured_env [] 0 10
      (Pico.cmd_process_chars Pico.configured_env [] Pico.overlong_line Pico.boot)).g_cmd_pos
      = 0 :=
  ⟨(C25_command_buffer_bounds Pico.configured_env [] "" (List.replicate 4096 0xFF)
      Pico.overlong_line 0 10).1,
   by decide,
   ((C25_command_buffer_bounds Pico.configured_env [] "" (List.replicate 4096 0xFF)
      Pico.overlong_line 0 10).2.2.2.2 (Or.inl rfl)).1,
   ((C25_command_buffer_bounds Pico.configured_env [] "" (List.replicate 4096 0xFF)
      Pico.overlong_line 0 10).2.2.2.2 (Or.inl rfl)).2⟩

/-! ## The Auth handler of the MCU firmware -/

set_option maxRecDepth 20000 in
/-- C26 fails: with the key configured and ECDSA initialised, the line `A`
followed by 32 characters `0` (a 16-byte nonce) makes `process_command` call the
signing operation once and reply with a `SIG:` line, although the payload is not
64 characters long; the test is `g_cmd_pos >= 32`. The Pico firmware answers the
same line with `AUTH_ERR:Invalid nonce length` and does not sign. A payload of
31 characters is answered with `ERR:Nonce too short`. -/
theorem C26_auth_signs_32_characters :
    MCU.ready_state.g_ecdsa_initialized = true ∧
    MCU.ready_state.sign_calls = 0 ∧
    (MCU.process_commands MCU.configured_env [] (MCU.line 65 (List.replicate 32 48))
      MCU.ready_state).sign_calls = 1 ∧
    (MCU.process_commands MCU.configured_env [] (MCU.line 65 (List.replicate 32 48))
      MCU.ready_state).out
      = ["INFO:ECDSA OK",
         "SIG:0101010101010101010101010101010101010101010101010101010101010101" ++
           "0202020202020202020202020202020202020202020202020202020202020202"] ∧
    (MCU.process_commands MCU.configured_env [] (MCU.line 65 (List.replicate 31 48))
      MCU.ready_state).sign_calls = 0 ∧
    (MCU.process_commands MCU.configured_env [] (MCU.line 65 (List.replicate 31 48))
      MCU.ready_state).out = ["INFO:ECDSA OK", "ERR:Nonce too short"] ∧
    (Pico.cmd_process_chars Pico.configured_env [] (Pico.line 65 (List.replicate 32 48))
      Pico.boot).sign_calls = 0 ∧
    (Pico.cmd_process_chars Pico.configured_env [] (Pico.line 65 (List.replicate 32 48))
      Pico.boot).out = ["AUTH_ERR:Invalid nonce length"] := by
  refine ⟨by decide, by decide, by decide, by decide, by decide, by decide, by decide,
    by decide⟩

/-! ## Commands the MCU firmware rejects without a reply -/

set_option maxRecDepth 20000 in
/-- C27 fails: the MCU firmware prints nothing and changes neither name nor PIN
for the line `N12` (payload shorter than a PIN), for `N0000` (right PIN, empty
name) and for `W000` (payload not 8 characters long); the `N` and `W` cases have
no `else` branch there. The Pico firmware answers the same three lines with
`ERR:Format N<PIN><NAME>`, `ERR:Empty name` and `ERR:Format W<OLD><NEW>`. -/
theorem C27_silent_rejections :
    (MCU.process_commands MCU.configured_env [] (MCU.line 78 [49, 50])
      (MCU.State.init "")).out = [] ∧
    (MCU.process_commands MCU.configured_env [] (MCU.line 78 [48, 48, 48, 48])
      (MCU.State.init "")).out = [] ∧
    (MCU.process_commands MCU.configured_env [] (MCU.line 87 [48, 48, 48])
      (MCU.State.init "")).out = [] ∧
    (MCU.process_commands MCU.configured_env [] (MCU.line 78 [49, 50])
      (MCU.State.init "")).g_cmd_type = 0 ∧
    (MCU.process_commands MCU.configured_env [] (MCU.line 78 [48, 48, 48, 48])
      (MCU.State.init "")).g_device_name = (MCU.State.init "").g_device_name ∧
    (MCU.process_commands MCU.configured_env [] (MCU.line 87 [48, 48, 48])
      (MCU.State.init "")).g_device_pin = (MCU.State.init "").g_device_pin ∧
    (Pico.cmd_process_chars Pico.configured_env [] (Pico.line 78 [49, 50]) Pico.boot).out
      = ["ERR:Format N<PIN><NAME>"] ∧
    (Pico.cmd_process_chars Pico.configured_env [] (Pico.line 78 [48, 48, 48, 48])
      Pico.boot).out = ["ERR:Empty name"] ∧
    (Pico.cmd_process_chars Pico.configured_env [] (Pico.line 87 [48, 48, 48]) Pico.boot).out
      = ["ERR:Format W<OLD><NEW>"] := by
  refine ⟨by decide, by decide, by decide, by decide, by decide, by decide, by decide,
    by decide, by decide⟩

/-! ## The two command processors agree on the shared fields -/

theorem view_eq_iff (p : Pico.State) (m : MCU.State) :
    Pico.view p = MCU.view m ↔
      p.g_cmd_type = m.g_cmd_type ∧ p.g_cmd_pos = m.g_cmd_pos ∧
      p.g_cmd_buffer = m.g_cmd_buffer ∧ p.g_device_name = m.g_device_name ∧
      p.g_device_pin = m.g_device_pin ∧ p.g_output_rate = m.g_output_rate ∧
      p.g_output_interval_ms = m.g_output_interval_ms ∧
      p.g_samples_per_output = m.g_samples_per_output ∧
      p.g_app_connected = m.g_connected ∧ p.g_last_ping_ms = m.g_last_ping_ms ∧
      p.g_baseline_set = m.g_baseline_set ∧ p.rebooted = m.rebooted := by
  unfold Pico.view MCU.view
  rw [ParserView.mk.injEq]

theorem pico_view_print (s : Pico.State) (line : String) :
    Pico.view (s.print line) = Pico.view s := rfl

theorem mcu_view_print (s : MCU.State) (line : String) :
    MCU.view (s.print line) = MCU.view s := rfl

theorem view_cmd_set_rate (p : Pico.State) (m : MCU.State) (hv : Pico.view p = MCU.view m) :
    Pico.view (Pico.cmd_set_rate p) = MCU.view (MCU.cmd_set_rate m) := by
  obtain ⟨h1, h2, h3, h4, h5, h6, h7, h8, h9, h10, h11, h12⟩ := (view_eq_iff p m).mp hv
  unfold Pico.cmd_set_rate MCU.cmd_set_rate
  dsimp only
  rw [h3]
  unfold Pico.MIN_OUTPUT_RATE_HZ Pico.MAX_OUTPUT_RATE_HZ MCU.MIN_OUTPUT_RATE MCU.MAX_OUTPUT_RATE
    Pico.INTERNAL_SAMPLE_RATE_HZ MCU.INTERNAL_SAMPLE_RATE
  split_ifs
  · rw [pico_view_print, mcu_view_print]
    refine (view_eq_iff _ _).mpr ⟨?_, ?_, ?_, ?_, ?_, ?_, ?_, ?_, ?_, ?_, ?_, ?_⟩ <;>
      first | rfl | assumption
  · rw [pico_view_print, mcu_view_print]
    exact hv

theorem view_cmd_set_name (p : Pico.State) (m : MCU.State) (hv : Pico.view p = MCU.view m) :
    Pico.view (Pico.cmd_set_name p) = MCU.view (MCU.cmd_set_name m) := by
  obtain ⟨h1, h2, h3, h4, h5, h6, h7, h8, h9, h10, h11, h12⟩ := (view_eq_iff p m).mp hv
  unfold Pico.cmd_set_name MCU.cmd_set_name Pico.pin_verify MCU.pin_verify
    Pico.device_set_name Pico.flash_save_settings MCU.save_settings
  dsimp only
  unfold Pico.DEVICE_PIN_LEN MCU.DEVICE_PIN_LEN Pico.DEVICE_NAME_MAX_LEN
    MCU.DEVICE_NAME_MAX_LEN
  rw [h2, h3, h5]
  split_ifs
  · rw [pico_view_print, mcu_view_print]
    refine (view_eq_iff _ _).mpr ⟨?_, ?_, ?_, ?_, ?_, ?_, ?_, ?_, ?_, ?_, ?_, ?_⟩
    · exact h1
    · rfl
    · rfl
    · show (CLib.strncpy p.g_device_name _ 24).set 24 0 = (CLib.strncpy m.g_device_name _ 24).set 24 0
      rw [h4]
    · rfl
    · exact h6
    · exact h7
    · exact h8
    · exact h9
    · exact h10
    · exact h11
    · exact h12
  all_goals
    refine (view_eq_iff _ _).mpr ⟨?_, ?_, ?_, ?_, ?_, ?_, ?_, ?_, ?_, ?_, ?_, ?_⟩ <;>
      first | rfl | assumption

theorem view_cmd_change_pin (p : Pico.State) (m : MCU.State) (hv : Pico.view p = MCU.view m) :
    Pico.view (Pico.cmd_change_pin p) = MCU.view (MCU.cmd_change_pin m) := by
  obtain ⟨h1, h2, h3, h4, h5, h6, h7, h8, h9, h10, h11, h12⟩ := (view_eq_iff p m).mp hv
  have hpv : ∀ x, Pico.pin_verify p x = MCU.pin_verify m x := fun x => by
    unfold Pico.pin_verify MCU.pin_verify
    rw [h5]
    rfl
  have hpf : ∀ x, Pico.pin_is_valid_format x = MCU.pin_is_valid_format x := fun _ => rfl
  unfold Pico.cmd_change_pin MCU.cmd_change_pin Pico.device_set_pin Pico.flash_save_settings
    MCU.save_settings
  dsimp only
  simp only [hpv, hpf]
  unfold Pico.DEVICE_PIN_LEN MCU.DEVICE_PIN_LEN
  rw [h2, h3, h5]
  split_ifs <;>
    first
      | (refine (view_eq_iff _ _).mpr ⟨?_, ?_, ?_, ?_, ?_, ?_, ?_, ?_, ?_, ?_, ?_, ?_⟩ <;>
          first | rfl | assumption)
      | (exfalso; simp_all)

theorem pico_view_ecdsa_init (env : Pico.CryptoEnv) (s : Pico.State) :
    Pico.view (Pico.ecdsa_init env s).2 = Pico.view s := by
  unfold Pico.ecdsa_init
  dsimp only
  split_ifs <;> rfl

theorem pico_view_ecdsa_sign_checked (env : Pico.CryptoEnv) (h : List Nat) (n : Nat)
    (s : Pico.State) : Pico.view (Pico.ecdsa_sign_checked env h n s) = Pico.view s := by
  unfold Pico.ecdsa_sign_checked
  dsimp only
  split_ifs <;> rfl

theorem pico_view_ecdsa_sign_challenge (env : Pico.CryptoEnv) (h : List Nat) (n : Nat)
    (s : Pico.State) : Pico.view (Pico.ecdsa_sign_challenge env h n s) = Pico.view s := by
  unfold Pico.ecdsa_sign_challenge
  split_ifs
  · exact pico_view_ecdsa_init env s
  · exact (pico_view_ecdsa_sign_checked env h n _).trans (pico_view_ecdsa_init env s)
  · exact pico_view_ecdsa_sign_checked env h n s

theorem mcu_view_ecdsa_sign_nonce (env : MCU.CryptoEnv) (h : List Nat) (s : MCU.State) :
    MCU.view (MCU.ecdsa_sign_nonce env h s) = MCU.view s := by
  unfold MCU.ecdsa_sign_nonce
  dsimp only
  split_ifs <;> rfl

theorem mcu_view_cmd_auth (env : MCU.CryptoEnv) (s : MCU.State) :
    MCU.view (MCU.cmd_auth env s) = MCU.view s := by
  unfold MCU.cmd_auth
  split_ifs
  · exact mcu_view_ecdsa_sign_nonce env _ s
  · rfl

theorem view_cmd_dispatch (envp : Pico.CryptoEnv) (envm : MCU.CryptoEnv) (p : Pico.State)
    (m : MCU.State) (hv : Pico.view p = MCU.view m) :
    Pico.view (Pico.cmd_dispatch envp p) = MCU.view (MCU.cmd_dispatch envm m) := by
  have h1 : p.g_cmd_type = m.g_cmd_type := ((view_eq_iff p m).mp hv).1
  unfold Pico.cmd_dispatch MCU.cmd_dispatch
  rw [h1]
  split_ifs
  · exact view_cmd_set_name p m hv
  · exact view_cmd_change_pin p m hv
  · rw [pico_view_ecdsa_sign_challenge, mcu_view_cmd_auth]
    exact hv
  · exact view_cmd_set_rate p m hv
  · exact hv


theorem mcu_view_sensor_debug_test (dbg : List String) (s : MCU.State) :
    MCU.view (MCU.sensor_debug_test dbg s) = MCU.view s := by
  unfold MCU.sensor_debug_test
  dsimp only
  split_ifs <;> rfl

theorem view_cmd_single (dbgp dbgm : List String) (now_ms c : Nat) (p : Pico.State)
    (m : MCU.State) (hv : Pico.view p = MCU.view m) :
    Pico.view (Pico.cmd_single dbgp now_ms c p) = MCU.view (MCU.cmd_single dbgm now_ms c m) := by
  obtain ⟨h1, h2, h3, h4, h5, h6, h7, h8, h9, h10, h11, h12⟩ := (view_eq_iff p m).mp hv
  unfold Pico.cmd_single MCU.cmd_single
  dsimp only
  rw [h9]
  by_cases hP : c = 80 ∨ c = 112
  · rw [if_pos hP, if_pos hP, pico_view_print, mcu_view_print]
    split_ifs
    · rw [pico_view_print, mcu_view_print]
      refine (view_eq_iff _ _).mpr ⟨?_, ?_, ?_, ?_, ?_, ?_, ?_, ?_, ?_, ?_, ?_, ?_⟩ <;>
        first | rfl | assumption
    · refine (view_eq_iff _ _).mpr ⟨?_, ?_, ?_, ?_, ?_, ?_, ?_, ?_, ?_, ?_, ?_, ?_⟩ <;>
        first | rfl | assumption
  rw [if_neg hP, if_neg hP]
  by_cases hR : c = 82 ∨ c = 114
  · rw [if_pos hR, if_pos hR, pico_view_print, mcu_view_print]
    refine (view_eq_iff _ _).mpr ⟨?_, ?_, ?_, ?_, ?_, ?_, ?_, ?_, ?_, ?_, ?_, ?_⟩ <;>
      first | rfl | assumption
  rw [if_neg hR, if_neg hR]
  by_cases hC : c = 67 ∨ c = 99
  · rw [if_pos hC, if_pos hC, pico_view_print, mcu_view_print]
    exact hv
  rw [if_neg hC, if_neg hC]
  by_cases hF : c = 70 ∨ c = 102
  · rw [if_pos hF, if_pos hF]
    refine (view_eq_iff _ _).mpr ⟨?_, ?_, ?_, ?_, ?_, ?_, ?_, ?_, ?_, ?_, ?_, ?_⟩ <;>
      first | rfl | assumption
  rw [if_neg hF, if_neg hF]
  by_cases hI : c = 73 ∨ c = 105
  · rw [if_pos hI, if_pos hI]
    simp only [pico_view_print, mcu_view_print]
    exact hv
  rw [if_neg hI, if_neg hI]
  by_cases hT : c = 84 ∨ c = 116
  · rw [if_pos hT, if_pos hT, pico_view_print, mcu_view_sensor_debug_test]
    exact hv
  rw [if_neg hT, if_neg hT]
  by_cases hN : c = 78 ∨ c = 110 ∨ c = 87 ∨ c = 119 ∨ c = 65 ∨ c = 97
  · rw [if_pos hN, if_pos hN]
    refine (view_eq_iff _ _).mpr ⟨?_, ?_, ?_, ?_, ?_, ?_, ?_, ?_, ?_, ?_, ?_, ?_⟩ <;>
      first | rfl | assumption
  rw [if_neg hN, if_neg hN]
  by_cases hB : c = 66 ∨ c = 98
  · rw [if_pos hB, if_pos hB]
    refine (view_eq_iff _ _).mpr ⟨?_, ?_, ?_, ?_, ?_, ?_, ?_, ?_, ?_, ?_, ?_, ?_⟩ <;>
      first | rfl | assumption
  rw [if_neg hB, if_neg hB]
  exact hv


theorem view_set_buffer (b : Nat) (p : Pico.State) (m : MCU.State)
    (hv : Pico.view p = MCU.view m) :
    Pico.view { p with g_cmd_buffer := p.g_cmd_buffer.set p.g_cmd_pos b }
      = MCU.view { m with g_cmd_buffer := m.g_cmd_buffer.set m.g_cmd_pos b } := by
  obtain ⟨h1, h2, h3, h4, h5, h6, h7, h8, h9, h10, h11, h12⟩ := (view_eq_iff p m).mp hv
  refine (view_eq_iff _ _).mpr ⟨h1, h2, ?_, h4, h5, h6, h7, h8, h9, h10, h11, h12⟩
  show p.g_cmd_buffer.set p.g_cmd_pos b = m.g_cmd_buffer.set m.g_cmd_pos b
  rw [h2, h3]

theorem view_step (envp : Pico.CryptoEnv) (envm : MCU.CryptoEnv) (dbgp dbgm : List String)
    (now_us c : Nat) (p : Pico.State) (m : MCU.State) (hv : Pico.view p = MCU.view m) :
    Pico.view (Pico.cmd_process_char envp dbgp now_us c p)
      = MCU.view (MCU.process_command envm dbgm (now_us / 1000) c m) := by
  obtain ⟨h1, h2, h3, h4, h5, h6, h7, h8, h9, h10, h11, h12⟩ := (view_eq_iff p m).mp hv
  unfold Pico.cmd_process_char MCU.process_command
  dsimp only
  unfold Pico.CMD_BUFFER_SIZE MCU.CMD_BUFFER_SIZE
  by_cases ht : m.g_cmd_type ≠ 0
  · rw [if_pos (by rw [h1]; exact ht), if_pos ht]
    by_cases hc : c = 10 ∨ c = 13
    · rw [if_pos hc, if_pos hc]
      obtain ⟨_, _, d3, d4, d5, d6, d7, d8, d9, d10, d11, d12⟩ :=
        (view_eq_iff _ _).mp (view_cmd_dispatch envp envm _ _ (view_set_buffer 0 p m hv))
      exact (view_eq_iff _ _).mpr ⟨rfl, rfl, d3, d4, d5, d6, d7, d8, d9, d10, d11, d12⟩
    · rw [if_neg hc, if_neg hc]
      by_cases hpos : m.g_cmd_pos < 72 - 1
      · rw [if_pos (by rw [h2]; exact hpos), if_pos hpos]
        obtain ⟨_, _, d3, _⟩ := (view_eq_iff _ _).mp (view_set_buffer c p m hv)
        refine (view_eq_iff _ _).mpr ⟨h1, ?_, d3, h4, h5, h6, h7, h8, h9, h10, h11, h12⟩
        show p.g_cmd_pos + 1 = m.g_cmd_pos + 1
        rw [h2]
      · rw [if_neg (by rw [h2]; exact hpos), if_neg hpos]
        exact hv
  · rw [if_neg (by rw [h1]; exact ht), if_neg ht]
    exact view_cmd_single dbgp dbgm (now_us / 1000) c p m hv

theorem view_run (envp : Pico.CryptoEnv) (envm : MCU.CryptoEnv) (dbgp dbgm : List String)
    (input : List (Nat × Nat)) (p : Pico.State) (m : MCU.State)
    (hv : Pico.view p = MCU.view m) :
    Pico.view (Pico.cmd_process_chars envp dbgp input p)
      = MCU.view (MCU.process_commands envm dbgm (MCU.same_clock input) m) := by
  induction input generalizing p m with
  | nil => exact hv
  | cons x rest ih =>
    obtain ⟨t, c⟩ := x
    exact ih _ _ (view_step envp envm dbgp dbgm t c p m hv)

/-- C28: from states that agree on the parse state (command type, write
position, buffered bytes), device name, PIN, output rate, output interval,
samples-per-output, connected flag, last-ping time and baseline flag, and fed
the same bytes with clock readings that give the same milliseconds (the Pico
divides its microsecond reading by 1000), `cmd_process_char` of the Pico and
`process_command` of the MCU end in states that agree on all these fields again;
they also agree on whether a reboot letter outside a payload was reached. -/
theorem C28_command_processors_agree (envp : Pico.CryptoEnv) (envm : MCU.CryptoEnv)
    (dbgp dbgm : List String) (input : List (Nat × Nat)) (p : Pico.State) (m : MCU.State)
    (hv : Pico.view p = MCU.view m) :
    (Pico.cmd_process_chars envp dbgp input p).g_cmd_type
      = (MCU.process_commands envm dbgm (MCU.same_clock input) m).g_cmd_type ∧
    (Pico.cmd_process_chars envp dbgp input p).g_cmd_pos
      = (MCU.process_commands envm dbgm (MCU.same_clock input) m).g_cmd_pos ∧
    (Pico.cmd_process_chars envp dbgp input p).g_cmd_buffer
      = (MCU.process_commands envm dbgm (MCU.same_clock input) m).g_cmd_buffer ∧
    (Pico.cmd_process_chars envp dbgp input p).g_device_name
      = (MCU.process_commands envm dbgm (MCU.same_clock input) m).g_device_name ∧
    (Pico.cmd_process_chars envp dbgp input p).g_device_pin
      = (MCU.process_commands envm dbgm (MCU.same_clock input) m).g_device_pin ∧
    (Pico.cmd_process_chars envp dbgp input p).g_output_rate
      = (MCU.process_commands envm dbgm (MCU.same_clock input) m).g_output_rate ∧
    (Pico.cmd_process_chars envp dbgp input p).g_output_interval_ms
      = (MCU.process_commands envm dbgm (MCU.same_clock input) m).g_output_interval_ms ∧
    (Pico.cmd_process_chars envp dbgp input p).g_samples_per_output
      = (MCU.process_commands envm dbgm (MCU.same_clock input) m).g_samples_per_output ∧
    (Pico.cmd_process_chars envp dbgp input p).g_app_connected
      = (MCU.process_commands envm dbgm (MCU.same_clock input) m).g_connected ∧
    (Pico.cmd_process_chars envp dbgp input p).g_last_ping_ms
      = (MCU.process_commands envm dbgm (MCU.same_clock input) m).g_last_ping_ms ∧
    (Pico.cmd_process_chars envp dbgp input p).g_baseline_set
      = (MCU.process_commands envm dbgm (MCU.same_clock input) m).g_baseline_set ∧
    (Pico.cmd_process_chars envp dbgp input p).rebooted
      = (MCU.process_commands envm dbgm (MCU.same_clock input) m).rebooted := by
  have h := view_run envp envm dbgp dbgm input p m hv
  exact (view_eq_iff _ _).mp h

set_option maxRecDepth 20000 in
/-- C28 at the two firmwares in their initial states and the session of two PIN
changes, a rejected one, a rename and a rate change: both end with the same PIN
(`9999`), the same name and the rate 10. -/
theorem C28_command_processors_agree_witness :
    Pico.view Pico.boot = MCU.view (MCU.State.init "") ∧
    (Pico.cmd_process_chars Pico.configured_env [] Pico.pin_session Pico.boot).g_device_pin
      = (MCU.process_commands MCU.configured_env [] (MCU.same_clock Pico.pin_session)
          (MCU.State.init "")).g_device_pin ∧
    (MCU.process_commands MCU.configured_env [] (MCU.same_clock Pico.pin_session)
      (MCU.State.init "")).g_device_pin = [57, 57, 57, 57, 0] ∧
    (MCU.process_commands MCU.configured_env [] (MCU.same_clock Pico.pin_session)
      (MCU.State.init "")).g_output_rate = 10 :=
  ⟨by decide,
   (C28_command_processors_agree Pico.configured_env MCU.configured_env [] []
     Pico.pin_session Pico.boot (MCU.State.init "") (by decide)).2.2.2.2.1,
   by decide, by decide⟩

/-! ## MIDI SysEx: status bytes inside a frame, and the long frame of `midi_sysex_send` -/

set_option maxRecDepth 20000 in
/-- C29 fails: 0xF0 and 0xF7 pass the status-byte filter of
`midi_sysex_receive_byte`. Fed `F0 7D 01 01 F0 F7` from the state
`midi_sysex_init` leaves, the receiver stores the inner 0xF0 as the data byte of
a complete message; fed `F0 7D 01 F7 F7` it stores 0xF7 as the command byte. -/
theorem C29_status_byte_stored :
    (Sysex.receive_bytes [0xF0, 0x7D, 0x01, 0x01, 0xF0, 0xF7] Sysex.midi_sysex_init).2
      = [false, false, false, false, false, true] ∧
    (Sysex.receive_bytes [0xF0, 0x7D, 0x01, 0x01, 0xF0, 0xF7]
      Sysex.midi_sysex_init).1.g_rx_message.data_len = 1 ∧
    (Sysex.receive_bytes [0xF0, 0x7D, 0x01, 0x01, 0xF0, 0xF7]
      Sysex.midi_sysex_init).1.g_rx_message.data.getD 0 0 = 0xF0 ∧
    (Sysex.receive_bytes [0xF0, 0x7D, 0x01, 0xF7, 0xF7] Sysex.midi_sysex_init).2
      = [false, false, false, false, true] ∧
    (Sysex.receive_bytes [0xF0, 0x7D, 0x01, 0xF7, 0xF7]
      Sysex.midi_sysex_init).1.g_rx_message.command = 0xF7 := by
  refine ⟨by decide, by decide, by decide, by decide, by decide⟩

set_option maxRecDepth 100000 in
/-- C30 fails: the write index of `midi_sysex_send` is a `uint8_t`. For the
command 0x01 and a payload of 251 bytes 0x00 the index reaches 255 in the copy
loop, the end byte is stored at 255 and the increment wraps the index to 0, so
the call hands the USB stream no byte at all; the same happens for 126 bytes
0x80. With 250 bytes the frame has 255 bytes and ends with 0xF7, and the
two-byte payload `85 05` is sent as `F0 7D 01 01 05 01 05 F7`. -/
theorem C30_send_index_wraps :
    Sysex.midi_sysex_send 0x01 (List.replicate 251 0) 251 = [] ∧
    Sysex.midi_sysex_send 0x01 (List.replicate 126 0x80) 126 = [] ∧
    (Sysex.midi_sysex_send 0x01 (List.replicate 250 0) 250).length = 255 ∧
    (Sysex.midi_sysex_send 0x01 (List.replicate 250 0) 250).getLast? = some 0xF7 ∧
    Sysex.midi_sysex_send 0x01 [0x85, 0x05] 2
      = [0xF0, 0x7D, 0x01, 0x01, 0x05, 0x01, 0x05, 0xF7] ∧
    (Sysex.midi_sysex_send_raw 0x01 (List.replicate 251 0) 251).length = 256 := by
  refine ⟨by decide, by decide, by decide, by decide, by decide, by decide⟩

